import Mathlib

/-!
# Huawei OSR dynamic loader (`huawei_osr_loader.h`)

A shallow embedding of `HuaweiOSR::DynamicLoader`.  The loader talks to three
external parties: the platform's dynamic linker (`dlopen`, `dlsym`, `dlclose`,
`dlerror`), the Android log, and the vendor entry points reached through the
function pointers it resolved.  None of them is code of the loader, so they are
taken as a parameter (`Platform`): deterministic oracles that may depend on the
whole history of what the loader did so far.  Every interaction is appended to
a chronological trace, which is what the theorems below talk about.

Pointers (`void*`, function pointers) are natural numbers with `0` for
`nullptr`; C strings are `String`s; the `(const char** search_paths,
int num_paths)` pair is a list together with the count.

Because the platform may answer differently at different moments, a condition
such as "the open fails" or "the symbol resolves" is stated on the answers the
platform gave during the run at hand, read off the events the run emitted
(`emitted`, `opens`, `lookups`, `closes`, `vendorCalls`).

The file has three parts: the embedding of the loader, the lemmas that describe
the trace of each function (`TryLoadLibrary_spec`, `Unload_eq`, `Load_spec`),
and the properties of the loader proved from them.

The definitions end with an embedding of `Param::Set(u32, const Param&)` and of
the accessors it is read back with, from `Include/Utils/Param.h` of the vendor
SDK; its properties are the last section of the file.
-/

namespace HuaweiOSR

set_option maxRecDepth 100000

/-- A raw pointer: `0` is `nullptr`. -/
abbrev Ptr := Nat

/-- The three Android log priorities the loader uses. -/
inductive LogPriority where
  | ANDROID_LOG_INFO
  | ANDROID_LOG_WARN
  | ANDROID_LOG_ERROR
  deriving DecidableEq, Repr

/-- How a call into vendor code ended: it returned a value, or it raised a C++
exception. -/
inductive Outcome (α : Type) where
  | returned (value : α)
  | raised
  deriving DecidableEq, Repr

/-- One observable interaction of the loader with the outside world. -/
inductive Event where
  /-- `__android_log_print(prio, LOG_TAG, ...)` with the formatted message. -/
  | log (prio : LogPriority) (tag : String) (msg : String)
  /-- `dlerror()` and the value it handed back. -/
  | dlerror (result : Option String)
  /-- `dlopen(filename, flags)` and the handle it returned. -/
  | dlopen (filename : String) (flags : Nat) (result : Ptr)
  /-- `dlsym(handle, symbol)` and the address it returned. -/
  | dlsym (handle : Ptr) (symbol : String) (result : Ptr)
  /-- `dlclose(handle)`. -/
  | dlclose (handle : Ptr)
  /-- A call through a `void (*)()` pointer (`CInitialize_t`, `CUninitialize_t`). -/
  | call_void (fn : Ptr) (result : Outcome Unit)
  /-- A call through a `void (*)(const char*)` pointer (`CSetAssetsDir_t`). -/
  | call_cstr (fn : Ptr) (arg : String) (result : Outcome Unit)
  /-- A call through a `CSuperSamplingSyncExecute_t` pointer. -/
  | call_sync (fn : Ptr) (inBuffer outBuffer : Ptr) (timeout : Int) (result : Outcome Bool)
  /-- A call through a `CSuperSamplingAsyncExecute_t` pointer. -/
  | call_async (fn : Ptr) (inBuffer outBuffer callback : Ptr) (result : Outcome Bool)
  deriving DecidableEq, Repr

/-- The platform the loader runs on: the `<dlfcn.h>` constants and the behaviour
of the dynamic linker and of the vendor code, each as a function of the history
of interactions so far. -/
structure Platform where
  RTLD_NOW : Nat
  RTLD_GLOBAL : Nat
  RTLD_LOCAL : Nat
  /-- Handle returned by `dlopen(filename, flags)`; `0` when the open fails. -/
  dlopen : List Event → String → Nat → Ptr
  /-- Message a failing `dlopen(filename, flags)` leaves for `dlerror()`. -/
  dlopen_error : List Event → String → Nat → String
  /-- Address returned by `dlsym(handle, symbol)`; `0` when the symbol is missing. -/
  dlsym : List Event → Ptr → String → Ptr
  /-- Message a failing `dlsym(handle, symbol)` leaves for `dlerror()`. -/
  dlsym_error : List Event → Ptr → String → String
  /-- Outcome of calling the `void (*)()` function at an address. -/
  invoke_void : List Event → Ptr → Outcome Unit
  /-- Outcome of calling the `void (*)(const char*)` function at an address. -/
  invoke_cstr : List Event → Ptr → String → Outcome Unit
  /-- Outcome of calling the `bool (*)(const void*, const void*, int)` function. -/
  invoke_sync : List Event → Ptr → Ptr → Ptr → Int → Outcome Bool
  /-- Outcome of calling the `bool (*)(const void*, const void*, void*)` function. -/
  invoke_async : List Event → Ptr → Ptr → Ptr → Ptr → Outcome Bool

/-- The state outside the loader: everything it did so far, oldest first, and
the dynamic linker's pending error message (what the next `dlerror()` returns). -/
structure World where
  trace : List Event
  dl_error : Option String
  deriving DecidableEq, Repr

/-- Record one interaction. -/
def World.emit (w : World) (e : Event) : World :=
  { w with trace := w.trace ++ [e] }

/-- The events recorded between an earlier world and a later one. -/
def emitted (before after : World) : List Event :=
  after.trace.drop before.trace.length

/-- `#define LOG_TAG "HuaweiOSR"`. -/
def LOG_TAG : String := "HuaweiOSR"

/-- `#define LOGI(...)`, with the message already formatted. -/
def LOGI (msg : String) (w : World) : World :=
  w.emit (Event.log LogPriority.ANDROID_LOG_INFO LOG_TAG msg)

/-- `#define LOGW(...)`, with the message already formatted. -/
def LOGW (msg : String) (w : World) : World :=
  w.emit (Event.log LogPriority.ANDROID_LOG_WARN LOG_TAG msg)

/-- `#define LOGE(...)`, with the message already formatted. -/
def LOGE (msg : String) (w : World) : World :=
  w.emit (Event.log LogPriority.ANDROID_LOG_ERROR LOG_TAG msg)

/-- `dlerror()`: hands back the pending error message and clears it. -/
def dlerror (w : World) : Option String × World :=
  (w.dl_error, { trace := w.trace ++ [Event.dlerror w.dl_error], dl_error := none })

/-- `dlopen(filename, flags)`: a failed open leaves its message pending. -/
def dlopen (P : Platform) (filename : String) (flags : Nat) (w : World) : Ptr × World :=
  (P.dlopen w.trace filename flags,
   { trace := w.trace ++ [Event.dlopen filename flags (P.dlopen w.trace filename flags)],
     dl_error := if P.dlopen w.trace filename flags = 0
                 then some (P.dlopen_error w.trace filename flags) else w.dl_error })

/-- `dlsym(handle, symbol)`: a failed lookup leaves its message pending. -/
def dlsym (P : Platform) (handle : Ptr) (symbol : String) (w : World) : Ptr × World :=
  (P.dlsym w.trace handle symbol,
   { trace := w.trace ++ [Event.dlsym handle symbol (P.dlsym w.trace handle symbol)],
     dl_error := if P.dlsym w.trace handle symbol = 0
                 then some (P.dlsym_error w.trace handle symbol) else w.dl_error })

/-- `dlclose(handle)`; the loader ignores its return value. -/
def dlclose (handle : Ptr) (w : World) : World :=
  w.emit (Event.dlclose handle)

/-- Call `fn()` through a `void (*)()` pointer. -/
def call_void (P : Platform) (fn : Ptr) (w : World) : Outcome Unit × World :=
  (P.invoke_void w.trace fn, w.emit (Event.call_void fn (P.invoke_void w.trace fn)))

/-- Call `fn(arg)` through a `void (*)(const char*)` pointer. -/
def call_cstr (P : Platform) (fn : Ptr) (arg : String) (w : World) : Outcome Unit × World :=
  (P.invoke_cstr w.trace fn arg, w.emit (Event.call_cstr fn arg (P.invoke_cstr w.trace fn arg)))

/-- Call `fn(inBuffer, outBuffer, timeout)`. -/
def call_sync (P : Platform) (fn inBuffer outBuffer : Ptr) (timeout : Int) (w : World) :
    Outcome Bool × World :=
  (P.invoke_sync w.trace fn inBuffer outBuffer timeout,
   w.emit (Event.call_sync fn inBuffer outBuffer timeout
     (P.invoke_sync w.trace fn inBuffer outBuffer timeout)))

/-- Call `fn(inBuffer, outBuffer, callback)`. -/
def call_async (P : Platform) (fn inBuffer outBuffer callback : Ptr) (w : World) :
    Outcome Bool × World :=
  (P.invoke_async w.trace fn inBuffer outBuffer callback,
   w.emit (Event.call_async fn inBuffer outBuffer callback
     (P.invoke_async w.trace fn inBuffer outBuffer callback)))

/-- The fields of `class DynamicLoader`, with their in-class initialisers. -/
structure DynamicLoader where
  m_cgkit_handle : Ptr := 0
  m_igraphics_handle : Ptr := 0
  m_CInitialize : Ptr := 0
  m_CUninitialize : Ptr := 0
  m_CSetAssetsDir : Ptr := 0
  m_CGetAssetsDir : Ptr := 0
  m_CSuperSamplingSyncExecute : Ptr := 0
  m_CSuperSamplingAsyncExecute : Ptr := 0
  m_initialized : Bool := false
  deriving DecidableEq, Repr

/-- The `for (int i = 0; i < num_paths; i++)` loop of `TryLoadLibrary`, over the
entries `search_paths[0 .. num_paths-1]` still to be tried.  `some handle` is the
`return handle;` inside the loop, `none` is falling out of it. -/
def TryLoadLibrary.search (P : Platform) (actual_libname : String) (flags : Nat) :
    List String → World → Option Ptr × World
  | [], w => (none, w)
  | search_path :: rest, w =>
    let full_path := search_path ++ "/" ++ actual_libname
    let w := (dlerror w).2
    let opened := dlopen P full_path flags w
    let handle := opened.1
    let w := opened.2
    if handle ≠ 0 then
      (some handle, LOGI ("✓ Loaded " ++ actual_libname ++ " from " ++ search_path) w)
    else
      let queried := dlerror w
      let error := queried.1
      let w := queried.2
      let w := LOGW ("Failed to load " ++ actual_libname ++ " from " ++ search_path ++ ": "
                      ++ error.getD "unknown error") w
      TryLoadLibrary.search P actual_libname flags rest w

/-- The second half of `TryLoadLibrary` (from `// Clear any previous errors` to
the end): the bare-name attempt, the search loop and the final error report,
for the name and flags chosen in the first half. -/
def TryLoadLibrary.attempt (P : Platform) (actual_libname : String) (flags : Nat)
    (search_paths : List String) (num_paths : Int) (w : World) : Ptr × World :=
  let w := (dlerror w).2
  let opened := dlopen P actual_libname flags w
  let handle := opened.1
  let w := opened.2
  if handle ≠ 0 then
    (handle, LOGI ("✓ Loaded " ++ actual_libname ++ " from system paths") w)
  else
    let queried := dlerror w
    let error := queried.1
    let w := queried.2
    let w := LOGW ("Failed to load " ++ actual_libname ++ " from system paths: "
                    ++ error.getD "unknown error") w
    let looped := TryLoadLibrary.search P actual_libname flags
                    (search_paths.take num_paths.toNat) w
    match looped.1 with
    | some handle => (handle, looped.2)
    | none =>
      let w := looped.2
      let queried := dlerror w
      let final_error := queried.1
      let w := queried.2
      let w := LOGE ("❌ FAILED to load " ++ actual_libname ++ " from any location") w
      let w := LOGE ("   Last error: " ++ final_error.getD "unknown error") w
      let w := LOGE "   Searched paths:" w
      let w := LOGE "     - System default paths" w
      let w := (search_paths.take num_paths.toNat).foldl
                 (fun w search_path => LOGE ("     - " ++ search_path) w) w
      (0, w)

/-- `void* TryLoadLibrary(const char* libname, const char** search_paths,
int num_paths, bool use_global)`: the forced redirect and the choice of the
`dlopen` flags, continued by `TryLoadLibrary.attempt`.  The loops run over
`search_paths[0 .. num_paths-1]`, so `num_paths` must not exceed the number of
entries. -/
def TryLoadLibrary (P : Platform) (libname : String) (search_paths : List String)
    (num_paths : Int) (use_global : Bool) (w : World) : Ptr × World :=
  let redirected : String × World :=
    if libname = "libiGraphicsCore.huawei.so" then
      ("libigs_client.so",
       LOGI ("⚠️  REDIRECT: " ++ libname ++ " → libigs_client.so (using official public library)") w)
    else (libname, w)
  let actual_libname := redirected.1
  let w := redirected.2
  let flags := P.RTLD_NOW
  let flags := if use_global then flags ||| P.RTLD_GLOBAL else flags ||| P.RTLD_LOCAL
  let w := if use_global then
      LOGI ("Loading " ++ actual_libname ++ " with RTLD_GLOBAL (symbol sharing enabled)") w
    else w
  TryLoadLibrary.attempt P actual_libname flags search_paths num_paths w

/-- `void Unload()`. -/
def Unload (P : Platform) (self : DynamicLoader) (w : World) : DynamicLoader × World :=
  let w :=
    if self.m_CUninitialize ≠ 0 ∧ self.m_initialized = true then
      let called := call_void P self.m_CUninitialize w
      match called.1 with
      | Outcome.returned _ => LOGI "CUninitialize() completed" called.2
      | Outcome.raised => LOGE "Exception during uninitialization" called.2
    else w
  let closed : DynamicLoader × World :=
    if self.m_cgkit_handle ≠ 0 then
      ({ self with m_cgkit_handle := 0 },
       LOGI "CGKit plugin unloaded" (dlclose self.m_cgkit_handle w))
    else (self, w)
  let self := closed.1
  let w := closed.2
  let closed : DynamicLoader × World :=
    if self.m_igraphics_handle ≠ 0 then
      ({ self with m_igraphics_handle := 0 },
       LOGI "iGraphicsCore unloaded" (dlclose self.m_igraphics_handle w))
    else (self, w)
  let self := closed.1
  let w := closed.2
  ({ self with
      m_initialized := false
      m_CInitialize := 0
      m_CUninitialize := 0
      m_CSetAssetsDir := 0
      m_CGetAssetsDir := 0
      m_CSuperSamplingSyncExecute := 0
      m_CSuperSamplingAsyncExecute := 0 }, w)

/-- `const char* system_paths[]` of `Load()`. -/
def Load.system_paths : List String :=
  ["/system/lib64", "/vendor/lib64", "/vendor/lib64/hw", "/system/vendor/lib64"]

/-- `const char* app_paths[]` of `Load()`. -/
def Load.app_paths : List String :=
  ["/data/app/~~*/dev.eden.eden_emulator*/lib/arm64", "/data/data/dev.eden.eden_emulator/lib"]

/-- `const char* assets_path` of `Load()`. -/
def Load.assets_path : String := "/data/data/dev.eden.eden_emulator/assets/huawei_osr"

/-- Step 4 of `Load()`: its closing `try`/`catch (...)` block. -/
def Load.init (P : Platform) (self : DynamicLoader) (w : World) :
    Bool × DynamicLoader × World :=
  let called := call_void P self.m_CInitialize w
  match called.1 with
  | Outcome.raised =>
    let w := LOGE "Exception during initialization" called.2
    let unloaded := Unload P self w
    (false, unloaded.1, unloaded.2)
  | Outcome.returned _ =>
    let w := LOGI "CInitialize() completed" called.2
    let called := call_cstr P self.m_CSetAssetsDir Load.assets_path w
    match called.1 with
    | Outcome.raised =>
      let w := LOGE "Exception during initialization" called.2
      let unloaded := Unload P self w
      (false, unloaded.1, unloaded.2)
    | Outcome.returned _ =>
      let w := LOGI ("CSetAssetsDir(" ++ Load.assets_path ++ ") completed") called.2
      let self := { self with m_initialized := true }
      let w := LOGI "Huawei OSR plugin initialized successfully!" w
      (true, self, w)

/-- Steps 3 and 4 of `Load()`: the six `dlsym` lookups on the plugin handle, the
check of the required pointers, and the initialisation of the plugin. -/
def Load.resolve (P : Platform) (self : DynamicLoader) (w : World) :
    Bool × DynamicLoader × World :=
  let w := LOGI "Loading function pointers..." w
  let found1 := dlsym P self.m_cgkit_handle "CInitialize" w
  let found2 := dlsym P self.m_cgkit_handle "CUninitialize" found1.2
  let found3 := dlsym P self.m_cgkit_handle "CSetAssetsDir" found2.2
  let found4 := dlsym P self.m_cgkit_handle "CGetAssetsDir" found3.2
  let found5 := dlsym P self.m_cgkit_handle "CSuperSamplingSyncExecute" found4.2
  let found6 := dlsym P self.m_cgkit_handle "CSuperSamplingAsyncExecute" found5.2
  let self := { self with
    m_CInitialize := found1.1
    m_CUninitialize := found2.1
    m_CSetAssetsDir := found3.1
    m_CGetAssetsDir := found4.1
    m_CSuperSamplingSyncExecute := found5.1
    m_CSuperSamplingAsyncExecute := found6.1 }
  let w := found6.2
  if self.m_CInitialize = 0 ∨ self.m_CSetAssetsDir = 0
      ∨ self.m_CSuperSamplingSyncExecute = 0 then
    let w := LOGE "Failed to load required function pointers" w
    let unloaded := Unload P self w
    (false, unloaded.1, unloaded.2)
  else
    let w := LOGI "Function pointers loaded successfully" w
    let w := LOGI "Initializing Huawei OSR plugin..." w
    Load.init P self w

/-- Step 2 of `Load()` and what follows it: load the CGKit plugin library with
the default (private) sharing mode, then resolve and initialise. -/
def Load.plugin (P : Platform) (self : DynamicLoader) (w : World) :
    Bool × DynamicLoader × World :=
  let w := LOGI "Namespace primed successfully, loading CGKit OSR plugin..." w
  let loaded := TryLoadLibrary P "libcgkit_plugin_offlineSupRes.so" Load.app_paths 2 false w
  let self := { self with m_cgkit_handle := loaded.1 }
  let w := loaded.2
  if self.m_cgkit_handle = 0 then
    let w := LOGE "Failed to load libcgkit_plugin_offlineSupRes.so" w
    let unloaded := Unload P self w
    (false, unloaded.1, unloaded.2)
  else
    let w := LOGI "✓ CGKit plugin loaded successfully" w
    Load.resolve P self w

/-- Step 1 of `Load()`: prime the namespace with the three public Huawei
libraries, opened with `use_global = true`.  Only the handle of
`libigs_client.so` is stored in the loader; `ai_handle` and `ai_infra_handle`
are locals that go out of scope. -/
def Load.prime (P : Platform) (self : DynamicLoader) (w : World) : DynamicLoader × World :=
  let w := LOGI "Priming namespace with official Huawei libraries..." w
  let w := LOGI "Loading libigs_client.so (Huawei Graphics Core)..." w
  let igs := TryLoadLibrary P "libigs_client.so" Load.system_paths 4 true w
  let igs_handle := igs.1
  let self := if igs_handle ≠ 0 then { self with m_igraphics_handle := igs_handle } else self
  let w :=
    if igs_handle ≠ 0 then
      LOGI "✓ Huawei Graphics Core link established (libigs_client.so loaded)" igs.2
    else LOGW "libigs_client.so not found - may not be available on this device" igs.2
  let w := LOGI "Loading libai_client.so (Huawei AI Core)..." w
  let ai := TryLoadLibrary P "libai_client.so" Load.system_paths 4 true w
  let ai_handle := ai.1
  let w :=
    if ai_handle ≠ 0 then
      LOGI "✓ Huawei AI Core link established (libai_client.so loaded)" ai.2
    else LOGW "libai_client.so not found - may not be available on this device" ai.2
  let w := LOGI "Loading libai_infra.so (Huawei AI Infrastructure)..." w
  let ai_infra := TryLoadLibrary P "libai_infra.so" Load.system_paths 4 true w
  let ai_infra_handle := ai_infra.1
  let w :=
    if ai_infra_handle ≠ 0 then
      LOGI "✓ Huawei AI Infrastructure link established (libai_infra.so loaded)" ai_infra.2
    else LOGW "libai_infra.so not found - optional library" ai_infra.2
  let w :=
    if igs_handle = 0 ∧ ai_handle = 0 then
      LOGE "CGKit plugin may not work without Huawei system libraries"
        (LOGE "No Huawei public libraries found - this may not be a Huawei device" w)
    else w
  (self, w)

/-- `bool Load()`: the re-entry guard, then step 1 (`Load.prime`) and steps 2 to 4
(`Load.plugin`). -/
def Load (P : Platform) (self : DynamicLoader) (w : World) : Bool × DynamicLoader × World :=
  if self.m_initialized = true then
    (true, self, LOGI "Already loaded" w)
  else
    let w := LOGI "Starting Huawei OSR library loading..." w
    let w := LOGI "Using OFFICIAL Huawei public libraries for namespace priming" w
    let primed := Load.prime P self w
    Load.plugin P primed.1 primed.2

/-- `bool IsAvailable() const`. -/
def IsAvailable (self : DynamicLoader) : Bool :=
  self.m_initialized && (self.m_CSuperSamplingSyncExecute != 0)

/-- `bool SuperSample(const void* inBuffer, const void* outBuffer, int timeout)`.
An exception raised by the vendor call leaves the function as `Outcome.raised`. -/
def SuperSample (P : Platform) (self : DynamicLoader) (inBuffer outBuffer : Ptr)
    (timeout : Int) (w : World) : Outcome Bool × DynamicLoader × World :=
  if IsAvailable self = false then
    (Outcome.returned false, self, LOGE "Huawei OSR not available" w)
  else
    let called := call_sync P self.m_CSuperSamplingSyncExecute inBuffer outBuffer timeout w
    (called.1, self, called.2)

/-- `bool SuperSampleAsync(const void* inBuffer, const void* outBuffer, void* callback)`.
An exception raised by the vendor call leaves the function as `Outcome.raised`. -/
def SuperSampleAsync (P : Platform) (self : DynamicLoader) (inBuffer outBuffer callback : Ptr)
    (w : World) : Outcome Bool × DynamicLoader × World :=
  if IsAvailable self = false ∨ self.m_CSuperSamplingAsyncExecute = 0 then
    (Outcome.returned false, self, LOGE "Huawei OSR async not available" w)
  else
    let called := call_async P self.m_CSuperSamplingAsyncExecute inBuffer outBuffer callback w
    (called.1, self, called.2)

/-! ## Reading a trace -/

/-- The `dlopen` attempts of a trace, oldest first: file name, flags, returned handle. -/
def opens : List Event → List (String × Nat × Ptr)
  | [] => []
  | Event.dlopen filename flags result :: rest => (filename, flags, result) :: opens rest
  | _ :: rest => opens rest

/-- The `dlsym` lookups of a trace, oldest first: handle, symbol, returned address. -/
def lookups : List Event → List (Ptr × String × Ptr)
  | [] => []
  | Event.dlsym handle symbol result :: rest => (handle, symbol, result) :: lookups rest
  | _ :: rest => lookups rest

/-- The handles passed to `dlclose` in a trace, oldest first. -/
def closes : List Event → List Ptr
  | [] => []
  | Event.dlclose handle :: rest => handle :: closes rest
  | _ :: rest => closes rest

/-- Whether an event is a call into vendor code. -/
def Event.isVendorCall : Event → Bool
  | Event.call_void _ _ => true
  | Event.call_cstr _ _ _ => true
  | Event.call_sync _ _ _ _ _ => true
  | Event.call_async _ _ _ _ _ => true
  | _ => false

/-- Whether an event is a vendor call that raised. -/
def Event.hasRaised : Event → Bool
  | Event.call_void _ Outcome.raised => true
  | Event.call_cstr _ _ Outcome.raised => true
  | Event.call_sync _ _ _ _ Outcome.raised => true
  | Event.call_async _ _ _ _ Outcome.raised => true
  | _ => false

/-- The vendor calls of a trace, oldest first. -/
def vendorCalls (events : List Event) : List Event :=
  events.filter Event.isVendorCall

/-- The events `TryLoadLibrary` can produce: log lines, `dlerror` and `dlopen`. -/
def Event.isOpenPhase : Event → Bool
  | Event.log _ _ _ => true
  | Event.dlerror _ => true
  | Event.dlopen _ _ _ => true
  | _ => false

/-- The shape of the attempts log of a walk over `candidates` that ended with
`result`: either every candidate was tried and failed, or the candidates before
the first openable one failed, that one returned `result`, and nothing follows. -/
def Walk (candidates : List String) (flags : Nat) (result : Ptr)
    (attempts : List (String × Nat × Ptr)) : Prop :=
  (result = 0 ∧ attempts = candidates.map (fun c => (c, flags, 0))) ∨
  (result ≠ 0 ∧ ∃ pre c post, candidates = pre ++ c :: post ∧
    attempts = pre.map (fun c => (c, flags, 0)) ++ [(c, flags, result)])

/-- Whether `needle` occurs in `haystack` as a contiguous run of characters. -/
def containsName (haystack needle : String) : Prop :=
  needle.data <:+: haystack.data

/-- The world before the loader did anything. -/
def World.start : World := { trace := [], dl_error := none }

/-- A platform on which nothing can be opened and no symbol resolves. -/
def barePlatform : Platform where
  RTLD_NOW := 2
  RTLD_GLOBAL := 256
  RTLD_LOCAL := 0
  dlopen := fun _ _ _ => 0
  dlopen_error := fun _ filename _ => "dlopen failed: library \"" ++ filename ++ "\" not found"
  dlsym := fun _ _ _ => 0
  dlsym_error := fun _ _ symbol => "undefined symbol: " ++ symbol
  invoke_void := fun _ _ => Outcome.returned ()
  invoke_cstr := fun _ _ _ => Outcome.returned ()
  invoke_sync := fun _ _ _ _ _ => Outcome.returned false
  invoke_async := fun _ _ _ _ _ => Outcome.returned false

/-- The pair (file name, returned handle) of each attempt. -/
def outcomes (attempts : List (String × Nat × Ptr)) : List (String × Ptr) :=
  attempts.map (fun a => (a.1, a.2.2))

/-- A platform on which only `/vendor/lib64/libigs_client.so` can be opened. -/
def secondPathPlatform : Platform :=
  { barePlatform with
    dlopen := fun _ filename _ => if filename = "/vendor/lib64/libigs_client.so" then 7 else 0 }

/-- The handles an `Unload()` closes, in order: the plugin handle, then the
`libigs_client.so` handle, each only when it is not null. -/
def Unload.closed (self : DynamicLoader) : List Ptr :=
  (if self.m_cgkit_handle ≠ 0 then [self.m_cgkit_handle] else []) ++
  (if self.m_igraphics_handle ≠ 0 then [self.m_igraphics_handle] else [])

/-- The events of an `Unload()` that makes no vendor call: the two closes, each
followed by its log line. -/
def Unload.closing (self : DynamicLoader) : List Event :=
  (if self.m_cgkit_handle ≠ 0 then
     [Event.dlclose self.m_cgkit_handle,
      Event.log LogPriority.ANDROID_LOG_INFO LOG_TAG "CGKit plugin unloaded"]
   else []) ++
  (if self.m_igraphics_handle ≠ 0 then
     [Event.dlclose self.m_igraphics_handle,
      Event.log LogPriority.ANDROID_LOG_INFO LOG_TAG "iGraphicsCore unloaded"]
   else [])

/-- How step 4 of `Load()` can end, for the events `ev` it emitted: both vendor
calls returned and the loader is initialised, or one of them raised and the
loader was unloaded. -/
def Load.InitSummary (self : DynamicLoader) (result : Bool) (after : DynamicLoader)
    (ev : List Event) : Prop :=
  (result = true ∧ after = { self with m_initialized := true } ∧
    vendorCalls ev = [Event.call_void self.m_CInitialize (Outcome.returned ()),
      Event.call_cstr self.m_CSetAssetsDir Load.assets_path (Outcome.returned ())] ∧
    closes ev = []) ∨
  (result = false ∧ after = {} ∧ closes ev = Unload.closed self ∧
    (vendorCalls ev = [Event.call_void self.m_CInitialize Outcome.raised] ∨
     vendorCalls ev = [Event.call_void self.m_CInitialize (Outcome.returned ()),
      Event.call_cstr self.m_CSetAssetsDir Load.assets_path Outcome.raised]))

/-- How steps 3 and 4 of `Load()` can end: the six lookups are made on the plugin
handle; a missing required pointer unloads without any vendor call, otherwise
step 4 runs with the six pointers stored. -/
def Load.ResolveSummary (self : DynamicLoader) (result : Bool) (after : DynamicLoader)
    (ev : List Event) : Prop :=
  ∃ f1 f2 f3 f4 f5 f6 : Ptr,
    lookups ev = [(self.m_cgkit_handle, "CInitialize", f1),
      (self.m_cgkit_handle, "CUninitialize", f2),
      (self.m_cgkit_handle, "CSetAssetsDir", f3),
      (self.m_cgkit_handle, "CGetAssetsDir", f4),
      (self.m_cgkit_handle, "CSuperSamplingSyncExecute", f5),
      (self.m_cgkit_handle, "CSuperSamplingAsyncExecute", f6)] ∧
    (((f1 = 0 ∨ f3 = 0 ∨ f5 = 0) ∧ result = false ∧ after = {} ∧ vendorCalls ev = [] ∧
        closes ev = Unload.closed self) ∨
     (f1 ≠ 0 ∧ f3 ≠ 0 ∧ f5 ≠ 0 ∧
        Load.InitSummary { self with
          m_CInitialize := f1
          m_CUninitialize := f2
          m_CSetAssetsDir := f3
          m_CGetAssetsDir := f4
          m_CSuperSamplingSyncExecute := f5
          m_CSuperSamplingAsyncExecute := f6 } result after ev))

/-- The candidates `TryLoadLibrary` builds for a name that is not redirected. -/
def candidates (name : String) (search_paths : List String) : List String :=
  name :: search_paths.map (fun p => p ++ "/" ++ name)

/-- How steps 2 to 4 of `Load()` can end: the plugin is searched under the two
application paths with the private sharing mode; if it cannot be opened the
loader is unloaded without lookup or vendor call, otherwise steps 3 and 4 run
with its handle stored. -/
def Load.PluginSummary (P : Platform) (self : DynamicLoader) (result : Bool)
    (after : DynamicLoader) (ev : List Event) : Prop :=
  ∃ handle : Ptr,
    Walk (candidates "libcgkit_plugin_offlineSupRes.so" Load.app_paths)
      (P.RTLD_NOW ||| P.RTLD_LOCAL) handle (opens ev) ∧
    ((handle = 0 ∧ result = false ∧ after = {} ∧ lookups ev = [] ∧ vendorCalls ev = [] ∧
        closes ev = Unload.closed { self with m_cgkit_handle := 0 }) ∨
     (handle ≠ 0 ∧ Load.ResolveSummary { self with m_cgkit_handle := handle } result after ev))

/-- How step 1 of `Load()` goes: three independent walks with the global
sharing mode, nothing but open-phase events, and only the handle of
`libigs_client.so` stored, when it is not null. -/
def Load.PrimeSummary (P : Platform) (self : DynamicLoader) (after : DynamicLoader)
    (ev : List Event) : Prop :=
  (∀ e ∈ ev, e.isOpenPhase = true) ∧
  ∃ (igs_handle ai_handle ai_infra_handle : Ptr) (igs ai ai_infra : List (String × Nat × Ptr)),
    opens ev = igs ++ (ai ++ ai_infra) ∧
    Walk (candidates "libigs_client.so" Load.system_paths)
      (P.RTLD_NOW ||| P.RTLD_GLOBAL) igs_handle igs ∧
    Walk (candidates "libai_client.so" Load.system_paths)
      (P.RTLD_NOW ||| P.RTLD_GLOBAL) ai_handle ai ∧
    Walk (candidates "libai_infra.so" Load.system_paths)
      (P.RTLD_NOW ||| P.RTLD_GLOBAL) ai_infra_handle ai_infra ∧
    after = if igs_handle ≠ 0 then { self with m_igraphics_handle := igs_handle } else self

/-- How a `Load()` that passes the re-entry guard goes: two log lines, step 1,
then steps 2 to 4 on the loader step 1 left. -/
def Load.Summary (P : Platform) (self : DynamicLoader) (result : Bool) (after : DynamicLoader)
    (ev : List Event) : Prop :=
  ∃ (primed : DynamicLoader) (evPrime evPlugin : List Event),
    ev = [Event.log LogPriority.ANDROID_LOG_INFO LOG_TAG "Starting Huawei OSR library loading...",
          Event.log LogPriority.ANDROID_LOG_INFO LOG_TAG
            "Using OFFICIAL Huawei public libraries for namespace priming"]
          ++ (evPrime ++ evPlugin) ∧
    Load.PrimeSummary P self primed evPrime ∧
    Load.PluginSummary P primed result after evPlugin

/-- The three symbols `Load()` cannot do without. -/
def Load.isRequired (symbol : String) : Prop :=
  symbol = "CInitialize" ∨ symbol = "CSetAssetsDir" ∨ symbol = "CSuperSamplingSyncExecute"

instance Load.decidableIsRequired (symbol : String) : Decidable (Load.isRequired symbol) := by
  unfold Load.isRequired
  infer_instance

/-- A platform with no public Huawei library, on which the plugin opens from the
application's data directory and exports the three required symbols only. -/
def pluginPlatform : Platform :=
  { barePlatform with
    dlopen := fun _ filename _ =>
      if filename = "/data/data/dev.eden.eden_emulator/lib/libcgkit_plugin_offlineSupRes.so"
      then 100 else 0
    dlsym := fun _ handle symbol =>
      if handle = 100 then
        if symbol = "CInitialize" then 201
        else if symbol = "CSetAssetsDir" then 203
        else if symbol = "CSuperSamplingSyncExecute" then 205
        else 0
      else 0
    invoke_sync := fun _ _ inBuffer outBuffer timeout =>
      Outcome.returned (decide (inBuffer ≠ outBuffer ∧ 0 < timeout)) }

/-- The platform of `pluginPlatform`, except that the plugin lacks `CSetAssetsDir`. -/
def brokenPluginPlatform : Platform :=
  { pluginPlatform with
    dlsym := fun _ handle symbol =>
      if handle = 100 then
        if symbol = "CInitialize" then 201
        else if symbol = "CSuperSamplingSyncExecute" then 205
        else 0
      else 0 }

/-- A loader in the state a successful `Load()` on `pluginPlatform` leaves. -/
def readyLoader : DynamicLoader :=
  { m_cgkit_handle := 100
    m_CInitialize := 201
    m_CSetAssetsDir := 203
    m_CSuperSamplingSyncExecute := 205
    m_initialized := true }

/-- The handles returned by the successful opens among `attempts`, oldest first. -/
def openedHandles (attempts : List (String × Nat × Ptr)) : List Ptr :=
  (attempts.filter (fun a => a.2.2 != 0)).map (fun a => a.2.2)

/-- A Huawei device: the three public libraries open by their bare names with
the handles 10, 11 and 12, the plugin opens from the application's data
directory with the handle 100 and exports all six symbols, and every vendor
call returns. -/
def huaweiPlatform : Platform :=
  { barePlatform with
    dlopen := fun _ filename _ =>
      if filename = "libigs_client.so" then 10
      else if filename = "libai_client.so" then 11
      else if filename = "libai_infra.so" then 12
      else if filename
          = "/data/data/dev.eden.eden_emulator/lib/libcgkit_plugin_offlineSupRes.so" then 100
      else 0
    dlsym := fun _ handle symbol =>
      if handle = 100 then
        if symbol = "CInitialize" then 201
        else if symbol = "CUninitialize" then 202
        else if symbol = "CSetAssetsDir" then 203
        else if symbol = "CGetAssetsDir" then 204
        else if symbol = "CSuperSamplingSyncExecute" then 205
        else if symbol = "CSuperSamplingAsyncExecute" then 206
        else 0
      else 0 }

/-- A Huawei device without the plugin: the three public libraries open, the
plugin does not. -/
def auxOnlyPlatform : Platform :=
  { barePlatform with
    dlopen := fun _ filename _ =>
      if filename = "libigs_client.so" then 10
      else if filename = "libai_client.so" then 11
      else if filename = "libai_infra.so" then 12
      else 0 }

/-- The platform of `huaweiPlatform`, except that the call of `CSetAssetsDir`
(the function at address 203) raises. -/
def raisingSetupPlatform : Platform :=
  { huaweiPlatform with invoke_cstr := fun _ _ _ => Outcome.raised }

/-- The platform of `huaweiPlatform`, except that the call of `CUninitialize`
(the function at address 202) raises. -/
def raisingUninitPlatform : Platform :=
  { huaweiPlatform with
    invoke_void := fun _ fn => if fn = 202 then Outcome.raised else Outcome.returned () }

/-- A loader in the state a successful `Load()` on `huaweiPlatform` leaves. -/
def huaweiLoader : DynamicLoader :=
  { m_cgkit_handle := 100
    m_igraphics_handle := 10
    m_CInitialize := 201
    m_CUninitialize := 202
    m_CSetAssetsDir := 203
    m_CGetAssetsDir := 204
    m_CSuperSamplingSyncExecute := 205
    m_CSuperSamplingAsyncExecute := 206
    m_initialized := true }

/-- The events of steps 3 and 4 of a `Load()` that succeeds, for the plugin
handle and the six addresses the lookups returned: the six lookups, then the
call of `CInitialize`, then the call of `CSetAssetsDir`, with their log lines. -/
def Load.successTail (handle f1 f2 f3 f4 f5 f6 : Ptr) : List Event :=
  [Event.log LogPriority.ANDROID_LOG_INFO LOG_TAG "Loading function pointers...",
   Event.dlsym handle "CInitialize" f1,
   Event.dlsym handle "CUninitialize" f2,
   Event.dlsym handle "CSetAssetsDir" f3,
   Event.dlsym handle "CGetAssetsDir" f4,
   Event.dlsym handle "CSuperSamplingSyncExecute" f5,
   Event.dlsym handle "CSuperSamplingAsyncExecute" f6,
   Event.log LogPriority.ANDROID_LOG_INFO LOG_TAG "Function pointers loaded successfully",
   Event.log LogPriority.ANDROID_LOG_INFO LOG_TAG "Initializing Huawei OSR plugin...",
   Event.call_void f1 (Outcome.returned ()),
   Event.log LogPriority.ANDROID_LOG_INFO LOG_TAG "CInitialize() completed",
   Event.call_cstr f3 Load.assets_path (Outcome.returned ()),
   Event.log LogPriority.ANDROID_LOG_INFO LOG_TAG
     ("CSetAssetsDir(" ++ Load.assets_path ++ ") completed"),
   Event.log LogPriority.ANDROID_LOG_INFO LOG_TAG "Huawei OSR plugin initialized successfully!"]

/-- Whether an event is something the loader did to the dynamic linker or to
the vendor code (an open, a lookup, a close, a vendor call), as opposed to a
log line or an error query. -/
def Event.isAction : Event → Bool
  | Event.log _ _ _ => false
  | Event.dlerror _ => false
  | _ => true

/-- The opens, lookups, closes and vendor calls of a trace, in the order in
which they happened. -/
def actions (events : List Event) : List Event :=
  events.filter Event.isAction

/-- A platform whose dynamic linker and vendor entry points answer the same
whatever happened before: the same file opens with the same handle, the same
symbol resolves to the same address, the same call ends the same way. -/
def Platform.Stationary (P : Platform) : Prop :=
  (∀ hist filename flags, P.dlopen hist filename flags = P.dlopen [] filename flags) ∧
  (∀ hist handle symbol, P.dlsym hist handle symbol = P.dlsym [] handle symbol) ∧
  (∀ hist fn, P.invoke_void hist fn = P.invoke_void [] fn) ∧
  (∀ hist fn arg, P.invoke_cstr hist fn arg = P.invoke_cstr [] fn arg)

/-- Two runs of `Load()` that cannot be told apart by what they return, by the
loader they leave, or by what they did to the dynamic linker and to the vendor
code: the same opens, lookups, vendor calls and closes, in the same order. -/
def Load.sameRun (P : Platform) (self₂ : DynamicLoader) (w₂ : World)
    (self₁ : DynamicLoader) (w₁ : World) : Prop :=
  (Load P self₂ w₂).1 = (Load P self₁ w₁).1 ∧
  (Load P self₂ w₂).2.1 = (Load P self₁ w₁).2.1 ∧
  actions (emitted w₂ (Load P self₂ w₂).2.2) = actions (emitted w₁ (Load P self₁ w₁).2.2) ∧
  opens (emitted w₂ (Load P self₂ w₂).2.2) = opens (emitted w₁ (Load P self₁ w₁).2.2) ∧
  lookups (emitted w₂ (Load P self₂ w₂).2.2) = lookups (emitted w₁ (Load P self₁ w₁).2.2) ∧
  vendorCalls (emitted w₂ (Load P self₂ w₂).2.2)
    = vendorCalls (emitted w₁ (Load P self₁ w₁).2.2)

/-- One step of the check `clearedAtOpens`, on the pair (no open so far found
the error slot possibly set, the error slot is known to be clear now): a
`dlerror()` clears the slot, a log line leaves it alone, an open needs it clear
and may set it, and anything else may set it. -/
def Event.clearStep : Bool × Bool → Event → Bool × Bool
  | (ok, _), Event.dlerror _ => (ok, true)
  | (ok, cleared), Event.dlopen _ _ _ => (ok && cleared, false)
  | s, Event.log _ _ _ => s
  | (ok, _), _ => (ok, false)

/-- Whether every open of a trace is made with the error slot cleared: a
`dlerror()` comes before it, with nothing but log lines in between. -/
def clearedAtOpens (events : List Event) : Bool :=
  (events.foldl Event.clearStep (true, false)).1

/-- A call of one of the public operations of `DynamicLoader`, with its
arguments. -/
inductive Operation where
  | Load
  | Unload
  | SuperSample (inBuffer outBuffer : Ptr) (timeout : Int)
  | SuperSampleAsync (inBuffer outBuffer callback : Ptr)
  deriving DecidableEq, Repr

/-- The loader and the world after one public operation.  What the operation
returns is dropped, and so is an exception that leaves `SuperSample` or
`SuperSampleAsync`: the loader object is still there afterwards. -/
def runOperation (P : Platform) : Operation → DynamicLoader × World → DynamicLoader × World
  | Operation.Load, s => (Load P s.1 s.2).2
  | Operation.Unload, s => Unload P s.1 s.2
  | Operation.SuperSample inBuffer outBuffer timeout, s =>
    (SuperSample P s.1 inBuffer outBuffer timeout s.2).2
  | Operation.SuperSampleAsync inBuffer outBuffer callback, s =>
    (SuperSampleAsync P s.1 inBuffer outBuffer callback s.2).2

/-- The loader and the world after a sequence of public operations, the first
of the list first. -/
def runOperations (P : Platform) (ops : List Operation) (start : DynamicLoader × World) :
    DynamicLoader × World :=
  ops.foldl (fun s op => runOperation P op s) start

/-- The state invariant of the loader: an initialised loader holds the plugin
handle and the three required pointers, and a loader that is not initialised
holds nothing. -/
def DynamicLoader.Consistent (self : DynamicLoader) : Prop :=
  (self.m_initialized = true →
    self.m_cgkit_handle ≠ 0 ∧ self.m_CInitialize ≠ 0 ∧ self.m_CSetAssetsDir ≠ 0 ∧
    self.m_CSuperSamplingSyncExecute ≠ 0) ∧
  (self.m_initialized = false →
    self.m_cgkit_handle = 0 ∧ self.m_igraphics_handle = 0 ∧ self.m_CInitialize = 0 ∧
    self.m_CUninitialize = 0 ∧ self.m_CSetAssetsDir = 0 ∧ self.m_CGetAssetsDir = 0 ∧
    self.m_CSuperSamplingSyncExecute = 0 ∧ self.m_CSuperSamplingAsyncExecute = 0)

/-- How a run of `Load()` (or of its later steps) from the world `w` ends when
it fails: it enters `Unload()` on a loader `entry` whose initialised flag is
false, in a world `before`; the events `pre` recorded up to there contain no
vendor call, or the call of the pointer looked up as `CInitialize`, which
raised, or that call, which returned, and the call of the pointer looked up as
`CSetAssetsDir`, which raised. -/
def Load.Teardown (P : Platform) (w : World) (run : Bool × DynamicLoader × World) : Prop :=
  ∃ (entry : DynamicLoader) (before : World) (pre : List Event),
    before.trace = w.trace ++ pre ∧ entry.m_initialized = false ∧
    run.2 = Unload P entry before ∧
    (vendorCalls pre = [] ∨
     ((entry.m_cgkit_handle, "CInitialize", entry.m_CInitialize) ∈ lookups pre ∧
      (entry.m_cgkit_handle, "CSetAssetsDir", entry.m_CSetAssetsDir) ∈ lookups pre ∧
      (vendorCalls pre = [Event.call_void entry.m_CInitialize Outcome.raised] ∨
       vendorCalls pre = [Event.call_void entry.m_CInitialize (Outcome.returned ()),
         Event.call_cstr entry.m_CSetAssetsDir Load.assets_path Outcome.raised])))

/-! ## The vendor parameter container (`Include/Utils/Param.h`)

`class Param` of the CGKit plugin SDK.  Machine integers are natural numbers:
a `u32` is a number below `4294967296` and `idx + 1` on a `u32` is taken modulo
`4294967296`; a `size_t` is wide enough for every size that occurs.  An
`std::vector<Param>` is a list; `operator[]` outside the bounds of the vector
is undefined behaviour and makes the function return `none`.  Two things are
left out.  Allocation is assumed to succeed: a `resize` that the machine cannot
satisfy throws instead of returning.  And the `param` argument, a reference in
the code, is a value here: the embedding covers the calls in which `param`
refers to an object other than the `Param` that `Set` is called on and other
than its elements (in `p.Set(0, p)` the code reads `p` after it has resized the
vector and changed `type`).  The header takes `u32`, `s32` and `ASSERT`
from headers that are not among the sources: `u32` is read as the 32-bit
unsigned integer type and `ASSERT` as a check that stops the program. -/

/-- `union Value`: storage that none of the functions below looks into; `none`
is the indeterminate content left by the constructor `Value(){}`. -/
abbrev Value := Option Nat

/-- The data members of `class Param`; `objectValue`, an
`std::unordered_map<String, Param>`, is kept as a list of its entries. -/
structure Param where
  type : Int
  value : Value
  stringValue : String
  arrayValue : List Param
  objectValue : List (String × Param)

/-- `PARAMETER_TYPE_ARRAY`, the thirteenth enumerator of `enum ParameterType`. -/
def PARAMETER_TYPE_ARRAY : Int := 12

/-- `PARAMETER_TYPE_MAX`, the last enumerator of `enum ParameterType`. -/
def PARAMETER_TYPE_MAX : Int := 14

/-- A default-constructed `Param`, `Param():type(PARAMETER_TYPE_MAX){}`: what
`static Param null_value;` of `Get` holds, and what `resize` appends. -/
def Param.null_value : Param :=
  { type := PARAMETER_TYPE_MAX, value := none, stringValue := "", arrayValue := [],
    objectValue := [] }

/-- `typedef std::vector<Param> Array;`. -/
abbrev Param.Array := List Param

/-- `std::vector<Param>::resize(count)`: cut the vector down to `count` elements
or append default-constructed ones up to `count`. -/
def Param.Array.resize (v : Param.Array) (count : Nat) : Param.Array :=
  v.take count ++ List.replicate (count - v.length) Param.null_value

/-- The assignment `v[pos] = x` through `std::vector<Param>::operator[]`, which
is defined only for `pos < v.size()`. -/
def Param.Array.assign (v : Param.Array) (pos : Nat) (x : Param) : Option Param.Array :=
  if pos < v.length then some (v.set pos x) else none

/-- The loop `for (u32 i = 0; i < arrayValue.size(); i++) newArrayValue[i] =
arrayValue[i];` of `Set`, from the index `i` on, with the elements
`arrayValue[i], arrayValue[i+1], ...` still to be copied.  The loop is entered
only with `arrayValue.size() < idx + 1`, a size below `4294967296`, so `i++`
does not wrap. -/
def Param.Set.copy : List Param → Nat → Param.Array → Option Param.Array
  | [], _, newArrayValue => some newArrayValue
  | x :: rest, i, newArrayValue =>
    match Param.Array.assign newArrayValue i x with
    | none => none
    | some newArrayValue => Param.Set.copy rest (i + 1) newArrayValue

/-- `void Set(u32 idx, const Param& param)`, for `idx < 4294967296` and a
`param` that is not the object itself nor one of its elements, on a machine
where the allocations succeed.  The test `idx < 0` is never true of a `u32`.
`none` is undefined behaviour: an element assignment outside the bounds of the
vector. -/
def Param.Set (self : Param) (idx : Nat) (param : Param) : Option Param :=
  let count := (idx + 1) % 4294967296
  let resized : Option Param.Array :=
    if self.arrayValue.length = 0 then
      some (Param.Array.resize self.arrayValue count)
    else if self.arrayValue.length > 0 ∧ self.arrayValue.length < count then
      Param.Set.copy self.arrayValue 0 (Param.Array.resize [] count)
    else some self.arrayValue
  match resized with
  | none => none
  | some arrayValue =>
    match Param.Array.assign arrayValue idx param with
    | none => none
    | some arrayValue => some { self with type := PARAMETER_TYPE_ARRAY, arrayValue := arrayValue }

/-- `bool IsArray() const`. -/
def Param.IsArray (self : Param) : Bool :=
  self.type == PARAMETER_TYPE_ARRAY

/-- `const Param& Get(u32 idx) const`; a failing `ASSERT(IsArray())` is `none`,
and `ASSERT(idx >= 0)` cannot fail. -/
def Param.Get (self : Param) (idx : Nat) : Option Param :=
  if self.IsArray = false then none
  else if h : idx < self.arrayValue.length then some (self.arrayValue.get ⟨idx, h⟩)
  else some Param.null_value

/-- `size_t ArrayLen() const`. -/
def Param.ArrayLen (self : Param) : Nat :=
  if self.IsArray = false then 0 else self.arrayValue.length

/-! ## Traces only grow -/

theorem emitted_of_trace_eq {before after : World} {evs : List Event}
    (h : after.trace = before.trace ++ evs) : emitted before after = evs := by
  simp [emitted, h]

theorem opens_append (a b : List Event) : opens (a ++ b) = opens a ++ opens b := by
  induction a with
  | nil => rfl
  | cons e rest ih => cases e <;> simp [opens, ih]

theorem lookups_append (a b : List Event) : lookups (a ++ b) = lookups a ++ lookups b := by
  induction a with
  | nil => rfl
  | cons e rest ih => cases e <;> simp [lookups, ih]

theorem closes_append (a b : List Event) : closes (a ++ b) = closes a ++ closes b := by
  induction a with
  | nil => rfl
  | cons e rest ih => cases e <;> simp [closes, ih]

theorem vendorCalls_append (a b : List Event) :
    vendorCalls (a ++ b) = vendorCalls a ++ vendorCalls b := by
  simp [vendorCalls]

theorem vendorCalls_nil : vendorCalls [] = [] := rfl

theorem vendorCalls_cons (e : Event) (rest : List Event) :
    vendorCalls (e :: rest)
      = if e.isVendorCall = true then e :: vendorCalls rest else vendorCalls rest := by
  simp only [vendorCalls, List.filter_cons]

theorem lookups_of_openPhase : ∀ evs : List Event,
    (∀ e ∈ evs, e.isOpenPhase = true) → lookups evs = []
  | [], _ => rfl
  | e :: rest, h => by
    have hrest := lookups_of_openPhase rest (fun x hx => h x (List.mem_cons_of_mem _ hx))
    have he := h e (List.mem_cons_self _ _)
    cases e <;> simp_all [lookups, Event.isOpenPhase]

theorem closes_of_openPhase : ∀ evs : List Event,
    (∀ e ∈ evs, e.isOpenPhase = true) → closes evs = []
  | [], _ => rfl
  | e :: rest, h => by
    have hrest := closes_of_openPhase rest (fun x hx => h x (List.mem_cons_of_mem _ hx))
    have he := h e (List.mem_cons_self _ _)
    cases e <;> simp_all [closes, Event.isOpenPhase]

theorem vendorCalls_of_openPhase : ∀ evs : List Event,
    (∀ e ∈ evs, e.isOpenPhase = true) → vendorCalls evs = []
  | [], _ => rfl
  | e :: rest, h => by
    have hrest := vendorCalls_of_openPhase rest (fun x hx => h x (List.mem_cons_of_mem _ hx))
    have he := h e (List.mem_cons_self _ _)
    cases e <;> simp_all [vendorCalls, Event.isOpenPhase, Event.isVendorCall]

/-! ## The candidate walk of `TryLoadLibrary` -/

/-- The search loop appends only open-phase events, and its attempts walk the
candidates `path + "/" + name` in order, stopping at the first that opens. -/
theorem TryLoadLibrary.search_spec (P : Platform) (name : String) (flags : Nat) :
    ∀ (paths : List String) (w : World), ∃ evs,
      (TryLoadLibrary.search P name flags paths w).2.trace = w.trace ++ evs ∧
      (∀ e ∈ evs, e.isOpenPhase = true) ∧
      Walk (paths.map (fun p => p ++ "/" ++ name)) flags
        ((TryLoadLibrary.search P name flags paths w).1.getD 0) (opens evs) ∧
      (∀ h, (TryLoadLibrary.search P name flags paths w).1 = some h → h ≠ 0) ∧
      (∀ a ∈ opens evs, ∃ hist, a.2.2 = P.dlopen hist a.1 a.2.1)
  | [], w => ⟨[], by simp [TryLoadLibrary.search, Walk, opens]⟩
  | p :: rest, w => by
    by_cases hopen : P.dlopen (w.trace ++ [Event.dlerror w.dl_error]) (p ++ "/" ++ name) flags = 0
    · have hstep : TryLoadLibrary.search P name flags (p :: rest) w =
          TryLoadLibrary.search P name flags rest
            (LOGW ("Failed to load " ++ name ++ " from " ++ p ++ ": "
              ++ (dlerror (dlopen P (p ++ "/" ++ name) flags (dlerror w).2).2).1.getD
                "unknown error")
              (dlerror (dlopen P (p ++ "/" ++ name) flags (dlerror w).2).2).2) := by
        simp [TryLoadLibrary.search, dlopen, dlerror, hopen]
      obtain ⟨evs, htrace, hphase, hwalk, hsome, hfrom⟩ :=
        TryLoadLibrary.search_spec P name flags rest
        (LOGW ("Failed to load " ++ name ++ " from " ++ p ++ ": "
          ++ (dlerror (dlopen P (p ++ "/" ++ name) flags (dlerror w).2).2).1.getD "unknown error")
          (dlerror (dlopen P (p ++ "/" ++ name) flags (dlerror w).2).2).2)
      rw [hstep]
      refine ⟨[Event.dlerror w.dl_error, Event.dlopen (p ++ "/" ++ name) flags 0,
          Event.dlerror (some (P.dlopen_error (w.trace ++ [Event.dlerror w.dl_error])
            (p ++ "/" ++ name) flags)),
          Event.log LogPriority.ANDROID_LOG_WARN LOG_TAG
            ("Failed to load " ++ name ++ " from " ++ p ++ ": "
              ++ (dlerror (dlopen P (p ++ "/" ++ name) flags (dlerror w).2).2).1.getD
                "unknown error")] ++ evs, ?_, ?_, ?_, hsome, ?_⟩
      · rw [htrace]
        simp [LOGW, World.emit, dlopen, dlerror, hopen]
      · intro e he
        simp only [List.mem_append, List.mem_cons, List.mem_singleton, List.not_mem_nil,
          or_false] at he
        rcases he with (rfl | rfl | rfl | rfl) | he
        · rfl
        · rfl
        · rfl
        · rfl
        · exact hphase e he
      · simp only [opens_append, opens, List.nil_append, List.singleton_append, List.map_cons,
          List.cons_append, List.append_eq]
        rcases hwalk with ⟨h0, hall⟩ | ⟨hne, pre, c, post, hc, hatt⟩
        · exact Or.inl ⟨h0, by rw [hall]; rfl⟩
        · exact Or.inr ⟨hne, (p ++ "/" ++ name) :: pre, c, post, by rw [hc]; rfl,
            by rw [hatt]; rfl⟩
      · intro a ha
        rw [opens_append] at ha
        rcases List.mem_append.1 ha with ha | ha
        · simp only [opens, List.mem_singleton] at ha
          exact ⟨_, by rw [ha]; exact hopen.symm⟩
        · exact hfrom a ha
    · refine ⟨[Event.dlerror w.dl_error,
          Event.dlopen (p ++ "/" ++ name) flags
            (P.dlopen (w.trace ++ [Event.dlerror w.dl_error]) (p ++ "/" ++ name) flags),
          Event.log LogPriority.ANDROID_LOG_INFO LOG_TAG ("✓ Loaded " ++ name ++ " from " ++ p)],
        ?_, ?_, ?_, ?_, ?_⟩
      · simp [TryLoadLibrary.search, dlopen, dlerror, hopen, LOGI, World.emit]
      · intro e he
        simp only [List.mem_cons, List.mem_singleton, List.not_mem_nil, or_false] at he
        rcases he with rfl | rfl | rfl <;> rfl
      · refine Or.inr ⟨?_, [], p ++ "/" ++ name, rest.map (fun p => p ++ "/" ++ name), rfl, ?_⟩
        · simp [TryLoadLibrary.search, dlopen, dlerror, hopen]
        · simp [TryLoadLibrary.search, dlopen, dlerror, hopen, opens]
      · intro h hh
        simp [TryLoadLibrary.search, dlopen, dlerror, hopen] at hh
        exact hh ▸ hopen
      · intro a ha
        simp only [opens, List.mem_singleton] at ha
        exact ⟨_, by rw [ha]⟩

/-- The final report's loop over the searched paths appends log lines only. -/
theorem TryLoadLibrary.report_spec : ∀ (paths : List String) (w : World), ∃ evs,
    (paths.foldl (fun w search_path => LOGE ("     - " ++ search_path) w) w).trace
      = w.trace ++ evs ∧ (∀ e ∈ evs, e.isOpenPhase = true) ∧ opens evs = []
  | [], w => ⟨[], by simp [opens]⟩
  | p :: rest, w => by
    obtain ⟨evs, htrace, hphase, hopens⟩ :=
      TryLoadLibrary.report_spec rest (LOGE ("     - " ++ p) w)
    refine ⟨Event.log LogPriority.ANDROID_LOG_ERROR LOG_TAG ("     - " ++ p) :: evs, ?_, ?_, ?_⟩
    · rw [List.foldl_cons, htrace]
      simp [LOGE, World.emit]
    · intro e he
      rcases List.mem_cons.1 he with rfl | he
      · rfl
      · exact hphase e he
    · simpa [opens] using hopens

/-- The attempts of `TryLoadLibrary.attempt`: the bare name first, then each of
the first `num_paths` search paths in order, stopping at the first success. -/
theorem TryLoadLibrary.attempt_spec (P : Platform) (name : String) (flags : Nat)
    (search_paths : List String) (num_paths : Int) (w : World) : ∃ evs,
      (TryLoadLibrary.attempt P name flags search_paths num_paths w).2.trace = w.trace ++ evs ∧
      (∀ e ∈ evs, e.isOpenPhase = true) ∧
      Walk (name :: (search_paths.take num_paths.toNat).map (fun p => p ++ "/" ++ name)) flags
        (TryLoadLibrary.attempt P name flags search_paths num_paths w).1 (opens evs) ∧
      (∀ a ∈ opens evs, ∃ hist, a.2.2 = P.dlopen hist a.1 a.2.1) := by
  by_cases hopen : P.dlopen (w.trace ++ [Event.dlerror w.dl_error]) name flags = 0
  · -- the bare name failed: `w1` is the world in which the loop starts
    have key : ∃ (w1 : World) (msg : String),
        w1.trace = w.trace ++ [Event.dlerror w.dl_error, Event.dlopen name flags 0,
          Event.dlerror (some (P.dlopen_error (w.trace ++ [Event.dlerror w.dl_error])
            name flags)),
          Event.log LogPriority.ANDROID_LOG_WARN LOG_TAG msg] ∧
        TryLoadLibrary.attempt P name flags search_paths num_paths w =
          match (TryLoadLibrary.search P name flags
              (search_paths.take num_paths.toNat) w1).1 with
          | some h => (h, (TryLoadLibrary.search P name flags
              (search_paths.take num_paths.toNat) w1).2)
          | none => (0, (search_paths.take num_paths.toNat).foldl
              (fun w search_path => LOGE ("     - " ++ search_path) w)
              (LOGE "     - System default paths" (LOGE "   Searched paths:"
                (LOGE ("   Last error: " ++ (dlerror (TryLoadLibrary.search P name flags
                    (search_paths.take num_paths.toNat) w1).2).1.getD "unknown error")
                  (LOGE ("❌ FAILED to load " ++ name ++ " from any location")
                    (dlerror (TryLoadLibrary.search P name flags
                      (search_paths.take num_paths.toNat) w1).2).2))))) :=
      ⟨LOGW ("Failed to load " ++ name ++ " from system paths: "
          ++ (dlerror (dlopen P name flags (dlerror w).2).2).1.getD "unknown error")
          (dlerror (dlopen P name flags (dlerror w).2).2).2,
        "Failed to load " ++ name ++ " from system paths: "
          ++ (dlerror (dlopen P name flags (dlerror w).2).2).1.getD "unknown error",
        by simp [LOGW, World.emit, dlopen, dlerror, hopen],
        by simp only [TryLoadLibrary.attempt]
           rw [if_neg (by simp [dlopen, dlerror, hopen])]⟩
    obtain ⟨w1, msg, hpre, hval⟩ := key
    obtain ⟨evs, htrace, hphase, hwalk, hsome, hfrom⟩ := TryLoadLibrary.search_spec P name flags
      (search_paths.take num_paths.toNat) w1
    have hfrom4 : ∀ a ∈ opens ([Event.dlerror w.dl_error, Event.dlopen name flags 0,
          Event.dlerror (some (P.dlopen_error (w.trace ++ [Event.dlerror w.dl_error])
            name flags)),
          Event.log LogPriority.ANDROID_LOG_WARN LOG_TAG msg]),
        ∃ hist, a.2.2 = P.dlopen hist a.1 a.2.1 := by
      intro a ha
      simp only [opens, List.mem_singleton] at ha
      exact ⟨_, by rw [ha]; exact hopen.symm⟩
    rw [hval]
    generalize TryLoadLibrary.search P name flags (search_paths.take num_paths.toNat) w1 = found
      at htrace hwalk hsome ⊢
    obtain ⟨r, w2⟩ := found
    rw [hpre, List.append_assoc] at htrace
    cases r with
    | some h =>
      refine ⟨_, htrace, ?_, ?_, ?_⟩
      · intro e he
        rcases List.mem_append.1 he with he | he
        · simp only [List.mem_cons, List.mem_singleton, List.not_mem_nil, or_false] at he
          rcases he with rfl | rfl | rfl | rfl <;> rfl
        · exact hphase e he
      · have hne : h ≠ 0 := hsome h rfl
        rcases hwalk with ⟨h0, _⟩ | ⟨_, pre, c, post, hc, hatt⟩
        · exact absurd h0 hne
        · refine Or.inr ⟨hne, name :: pre, c, post, by rw [hc]; rfl, ?_⟩
          rw [opens_append, hatt]
          rfl
      · intro a ha
        rw [opens_append] at ha
        rcases List.mem_append.1 ha with ha | ha
        · exact hfrom4 a ha
        · exact hfrom a ha
    | none =>
      obtain ⟨revs, hrtrace, hrphase, hropens⟩ := TryLoadLibrary.report_spec
        (search_paths.take num_paths.toNat)
        (LOGE "     - System default paths" (LOGE "   Searched paths:"
          (LOGE ("   Last error: " ++ (dlerror w2).1.getD "unknown error")
            (LOGE ("❌ FAILED to load " ++ name ++ " from any location") (dlerror w2).2))))
      simp only at htrace
      refine ⟨[Event.dlerror w.dl_error, Event.dlopen name flags 0,
          Event.dlerror (some (P.dlopen_error (w.trace ++ [Event.dlerror w.dl_error])
            name flags)),
          Event.log LogPriority.ANDROID_LOG_WARN LOG_TAG msg] ++ (evs ++
          ([Event.dlerror w2.dl_error,
            Event.log LogPriority.ANDROID_LOG_ERROR LOG_TAG
              ("❌ FAILED to load " ++ name ++ " from any location"),
            Event.log LogPriority.ANDROID_LOG_ERROR LOG_TAG
              ("   Last error: " ++ (dlerror w2).1.getD "unknown error"),
            Event.log LogPriority.ANDROID_LOG_ERROR LOG_TAG "   Searched paths:",
            Event.log LogPriority.ANDROID_LOG_ERROR LOG_TAG "     - System default paths"]
            ++ revs)), ?_, ?_, ?_, ?_⟩
      · simp only
        rw [hrtrace]
        simp only [LOGE, World.emit, dlerror, htrace, List.append_assoc, List.cons_append,
          List.nil_append]
      · intro e he
        simp only [List.mem_append, List.mem_cons, List.mem_singleton, List.not_mem_nil,
          or_false] at he
        rcases he with (rfl | rfl | rfl | rfl) | he | (rfl | rfl | rfl | rfl | rfl) | he
        · rfl
        · rfl
        · rfl
        · rfl
        · exact hphase e he
        · rfl
        · rfl
        · rfl
        · rfl
        · rfl
        · exact hrphase e he
      · rcases hwalk with ⟨_, hall⟩ | ⟨hne, _⟩
        · refine Or.inl ⟨rfl, ?_⟩
          simp only [opens_append, hall, hropens]
          simp [opens]
        · exact absurd rfl hne
      · intro a ha
        rw [opens_append, opens_append, opens_append, hropens] at ha
        simp only [List.mem_append] at ha
        rcases ha with ha | ha | ha | ha
        · exact hfrom4 a ha
        · exact hfrom a ha
        · simp [opens] at ha
        · simp at ha
  · refine ⟨[Event.dlerror w.dl_error,
        Event.dlopen name flags (P.dlopen (w.trace ++ [Event.dlerror w.dl_error]) name flags),
        Event.log LogPriority.ANDROID_LOG_INFO LOG_TAG
          ("✓ Loaded " ++ name ++ " from system paths")], ?_, ?_, ?_, ?_⟩
    · simp [TryLoadLibrary.attempt, dlopen, dlerror, hopen, LOGI, World.emit]
    · intro e he
      simp only [List.mem_cons, List.mem_singleton, List.not_mem_nil, or_false] at he
      rcases he with rfl | rfl | rfl <;> rfl
    · refine Or.inr ⟨?_, [], name, _, rfl, ?_⟩
      · simp [TryLoadLibrary.attempt, dlopen, dlerror, hopen]
      · simp [TryLoadLibrary.attempt, dlopen, dlerror, hopen, opens]
    · intro a ha
      simp only [opens, List.mem_singleton] at ha
      exact ⟨_, by rw [ha]⟩

/-- `TryLoadLibrary` as a whole: only open-phase events, and the attempts walk
the candidates built from the redirected name, with the flags of the sharing
mode, each result being what the platform's `dlopen` returned. -/
theorem TryLoadLibrary_spec (P : Platform) (libname : String) (search_paths : List String)
    (num_paths : Int) (use_global : Bool) (w : World) : ∃ evs,
      (TryLoadLibrary P libname search_paths num_paths use_global w).2.trace = w.trace ++ evs ∧
      (∀ e ∈ evs, e.isOpenPhase = true) ∧
      Walk ((if libname = "libiGraphicsCore.huawei.so" then "libigs_client.so" else libname) ::
          (search_paths.take num_paths.toNat).map (fun p => p ++ "/" ++
            (if libname = "libiGraphicsCore.huawei.so" then "libigs_client.so" else libname)))
        (P.RTLD_NOW ||| (if use_global = true then P.RTLD_GLOBAL else P.RTLD_LOCAL))
        (TryLoadLibrary P libname search_paths num_paths use_global w).1 (opens evs) ∧
      (∀ a ∈ opens evs, ∃ hist, a.2.2 = P.dlopen hist a.1 a.2.1) := by
  have key : ∃ (w0 : World) (pre : List Event),
      w0.trace = w.trace ++ pre ∧ (∀ e ∈ pre, e.isOpenPhase = true) ∧ opens pre = [] ∧
      TryLoadLibrary P libname search_paths num_paths use_global w =
        TryLoadLibrary.attempt P
          (if libname = "libiGraphicsCore.huawei.so" then "libigs_client.so" else libname)
          (P.RTLD_NOW ||| (if use_global = true then P.RTLD_GLOBAL else P.RTLD_LOCAL))
          search_paths num_paths w0 := by
    by_cases hr : libname = "libiGraphicsCore.huawei.so"
    · cases use_global
      · refine ⟨LOGI ("⚠️  REDIRECT: " ++ libname
            ++ " → libigs_client.so (using official public library)") w,
          [Event.log LogPriority.ANDROID_LOG_INFO LOG_TAG ("⚠️  REDIRECT: " ++ libname
            ++ " → libigs_client.so (using official public library)")], rfl, ?_, rfl, ?_⟩
        · intro e he
          rw [List.mem_singleton.1 he]
          rfl
        · simp [TryLoadLibrary, hr]
      · refine ⟨LOGI "Loading libigs_client.so with RTLD_GLOBAL (symbol sharing enabled)"
            (LOGI ("⚠️  REDIRECT: " ++ libname
              ++ " → libigs_client.so (using official public library)") w),
          [Event.log LogPriority.ANDROID_LOG_INFO LOG_TAG ("⚠️  REDIRECT: " ++ libname
            ++ " → libigs_client.so (using official public library)"),
           Event.log LogPriority.ANDROID_LOG_INFO LOG_TAG
            "Loading libigs_client.so with RTLD_GLOBAL (symbol sharing enabled)"],
          by simp [LOGI, World.emit], ?_, rfl, ?_⟩
        · intro e he
          simp only [List.mem_cons, List.mem_singleton, List.not_mem_nil, or_false] at he
          rcases he with rfl | rfl <;> rfl
        · simp [TryLoadLibrary, hr]
    · cases use_global
      · exact ⟨w, [], by simp, by simp, rfl, by simp [TryLoadLibrary, hr]⟩
      · refine ⟨LOGI ("Loading " ++ libname ++ " with RTLD_GLOBAL (symbol sharing enabled)") w,
          [Event.log LogPriority.ANDROID_LOG_INFO LOG_TAG
            ("Loading " ++ libname ++ " with RTLD_GLOBAL (symbol sharing enabled)")],
          rfl, ?_, rfl, ?_⟩
        · intro e he
          rw [List.mem_singleton.1 he]
          rfl
        · simp [TryLoadLibrary, hr]
  obtain ⟨w0, pre, hpre, hprephase, hpreopens, hval⟩ := key
  obtain ⟨evs, htrace, hphase, hwalk, hfrom⟩ := TryLoadLibrary.attempt_spec P
    (if libname = "libiGraphicsCore.huawei.so" then "libigs_client.so" else libname)
    (P.RTLD_NOW ||| (if use_global = true then P.RTLD_GLOBAL else P.RTLD_LOCAL))
    search_paths num_paths w0
  rw [hval]
  refine ⟨pre ++ evs, by rw [htrace, hpre, List.append_assoc], ?_, ?_, ?_⟩
  · intro e he
    rcases List.mem_append.1 he with he | he
    · exact hprephase e he
    · exact hphase e he
  · rw [opens_append, hpreopens, List.nil_append]
    exact hwalk
  · rw [opens_append, hpreopens, List.nil_append]
    exact hfrom

/-! ## Reading a candidate walk -/

theorem Walk.names_of_all_fail {candidates : List String} {flags : Nat} {result : Ptr}
    {attempts : List (String × Nat × Ptr)} (hw : Walk candidates flags result attempts)
    (hfail : ∀ a ∈ attempts, a.2.2 = 0) : attempts.map (fun a => a.1) = candidates := by
  rcases hw with ⟨_, hall⟩ | ⟨hne, pre, c, post, _, hatt⟩
  · rw [hall, List.map_map]
    exact List.map_id _
  · exact absurd (hfail (c, flags, result) (by rw [hatt]; simp)) hne

theorem Walk.null_iff {candidates : List String} {flags : Nat} {result : Ptr}
    {attempts : List (String × Nat × Ptr)} (hw : Walk candidates flags result attempts) :
    result = 0 ↔ ∀ a ∈ attempts, a.2.2 = 0 := by
  rcases hw with ⟨h0, hall⟩ | ⟨hne, pre, c, post, _, hatt⟩
  · refine ⟨fun _ a ha => ?_, fun _ => h0⟩
    rw [hall] at ha
    obtain ⟨c, _, rfl⟩ := List.mem_map.1 ha
    rfl
  · exact ⟨fun h0 => absurd h0 hne,
      fun hfail => hfail (c, flags, result) (by rw [hatt]; simp)⟩

theorem Walk.mem {candidates : List String} {flags : Nat} {result : Ptr}
    {attempts : List (String × Nat × Ptr)} (hw : Walk candidates flags result attempts) :
    ∀ a ∈ attempts, a.1 ∈ candidates ∧ a.2.1 = flags := by
  intro a ha
  rcases hw with ⟨_, hall⟩ | ⟨_, pre, c, post, hc, hatt⟩
  · rw [hall] at ha
    obtain ⟨c, hc, rfl⟩ := List.mem_map.1 ha
    exact ⟨hc, rfl⟩
  · rw [hatt] at ha
    rcases List.mem_append.1 ha with ha | ha
    · obtain ⟨x, hx, rfl⟩ := List.mem_map.1 ha
      exact ⟨by rw [hc]; exact List.mem_append_left _ hx, rfl⟩
    · rw [List.mem_singleton.1 ha]
      exact ⟨by rw [hc]; simp, rfl⟩

theorem Walk.head {name : String} {others : List String} {flags : Nat} {result : Ptr}
    {attempts : List (String × Nat × Ptr)} (hw : Walk (name :: others) flags result attempts) :
    (attempts.map (fun a => a.1)).head? = some name := by
  rcases hw with ⟨_, hall⟩ | ⟨_, pre, c, post, hc, hatt⟩
  · rw [hall]
    rfl
  · cases pre with
    | nil =>
      rw [hatt]
      simp only [List.nil_append, List.cons.injEq] at hc
      simp [hc.1]
    | cons x pre =>
      rw [hatt]
      simp only [List.cons_append, List.cons.injEq] at hc
      simp [hc.1]

theorem Walk.outcomes {candidates : List String} {flags : Nat} {result : Ptr}
    {attempts : List (String × Nat × Ptr)} (hw : Walk candidates flags result attempts) :
    (result = 0 ∧ outcomes attempts = candidates.map (fun c => (c, 0))) ∨
    (result ≠ 0 ∧ ∃ pre c post, candidates = pre ++ c :: post ∧
      outcomes attempts = pre.map (fun c => (c, 0)) ++ [(c, result)]) := by
  rcases hw with ⟨h0, hall⟩ | ⟨hne, pre, c, post, hc, hatt⟩
  · exact Or.inl ⟨h0, by rw [hall]; simp [HuaweiOSR.outcomes]⟩
  · exact Or.inr ⟨hne, pre, c, post, hc, by rw [hatt]; simp [HuaweiOSR.outcomes]⟩

/-- What `TryLoadLibrary` emitted, read off its specification. -/
theorem TryLoadLibrary_emitted (P : Platform) (libname : String) (search_paths : List String)
    (num_paths : Int) (use_global : Bool) (w : World) :
    (∀ e ∈ emitted w (TryLoadLibrary P libname search_paths num_paths use_global w).2,
      e.isOpenPhase = true) ∧
    Walk ((if libname = "libiGraphicsCore.huawei.so" then "libigs_client.so" else libname) ::
        (search_paths.take num_paths.toNat).map (fun p => p ++ "/" ++
          (if libname = "libiGraphicsCore.huawei.so" then "libigs_client.so" else libname)))
      (P.RTLD_NOW ||| (if use_global = true then P.RTLD_GLOBAL else P.RTLD_LOCAL))
      (TryLoadLibrary P libname search_paths num_paths use_global w).1
      (opens (emitted w (TryLoadLibrary P libname search_paths num_paths use_global w).2)) ∧
    (∀ a ∈ opens (emitted w (TryLoadLibrary P libname search_paths num_paths use_global w).2),
      ∃ hist, a.2.2 = P.dlopen hist a.1 a.2.1) := by
  obtain ⟨evs, htrace, hphase, hwalk, hfrom⟩ :=
    TryLoadLibrary_spec P libname search_paths num_paths use_global w
  rw [emitted_of_trace_eq htrace]
  exact ⟨hphase, hwalk, hfrom⟩

theorem take_length_toNat (search_paths : List String) :
    search_paths.take (search_paths.length : Int).toNat = search_paths := by
  simp

/-! ## Claims about `TryLoadLibrary` -/

/-- C1. When every open attempt of a `TryLoadLibrary` call fails, the files it
tried to open are exactly the bare (redirected) name followed by
`path + "/" + name` for each search path, in the configured order, each once. -/
theorem TryLoadLibrary_attempts_all_candidates (P : Platform) (libname : String)
    (search_paths : List String) (use_global : Bool) (w : World)
    (hfail : ∀ a ∈ opens (emitted w
      (TryLoadLibrary P libname search_paths search_paths.length use_global w).2), a.2.2 = 0) :
    (opens (emitted w
      (TryLoadLibrary P libname search_paths search_paths.length use_global w).2)).map
        (fun a => a.1)
      = (if libname = "libiGraphicsCore.huawei.so" then "libigs_client.so" else libname) ::
          search_paths.map (fun p => p ++ "/" ++
            (if libname = "libiGraphicsCore.huawei.so" then "libigs_client.so" else libname)) := by
  have hw := (TryLoadLibrary_emitted P libname search_paths search_paths.length use_global w).2.1
  rw [take_length_toNat] at hw
  exact hw.names_of_all_fail hfail

/-- C1, at a concrete input: on a platform where nothing opens, asking for
`libai_client.so` with the four system paths tries the five candidates in order. -/
theorem TryLoadLibrary_attempts_all_candidates_witness :
    (∀ a ∈ opens (emitted World.start
      (TryLoadLibrary barePlatform "libai_client.so" Load.system_paths
        Load.system_paths.length true World.start).2), a.2.2 = 0) ∧
    (opens (emitted World.start
      (TryLoadLibrary barePlatform "libai_client.so" Load.system_paths
        Load.system_paths.length true World.start).2)).map (fun a => a.1)
      = ["libai_client.so", "/system/lib64/libai_client.so", "/vendor/lib64/libai_client.so",
         "/vendor/lib64/hw/libai_client.so", "/system/vendor/lib64/libai_client.so"] :=
  ⟨by decide,
   TryLoadLibrary_attempts_all_candidates barePlatform "libai_client.so" Load.system_paths true
     World.start (by decide)⟩

/-- C2. The name `TryLoadLibrary` opens is the requested name, except that
exactly `libiGraphicsCore.huawei.so` is replaced by `libigs_client.so`: the
first attempt is that bare name and every attempt is that name, alone or behind
a search path, whatever the search paths, their count and the sharing mode. -/
theorem TryLoadLibrary_redirect_exact (P : Platform) (libname : String)
    (search_paths : List String) (num_paths : Int) (use_global : Bool) (w : World) :
    ((opens (emitted w
        (TryLoadLibrary P libname search_paths num_paths use_global w).2)).map
          (fun a => a.1)).head?
      = some (if libname = "libiGraphicsCore.huawei.so" then "libigs_client.so" else libname) ∧
    ∀ a ∈ opens (emitted w (TryLoadLibrary P libname search_paths num_paths use_global w).2),
      a.1 = (if libname = "libiGraphicsCore.huawei.so" then "libigs_client.so" else libname) ∨
      ∃ p ∈ search_paths, a.1 = p ++ "/" ++
        (if libname = "libiGraphicsCore.huawei.so" then "libigs_client.so" else libname) := by
  have hw := (TryLoadLibrary_emitted P libname search_paths num_paths use_global w).2.1
  refine ⟨hw.head, fun a ha => ?_⟩
  rcases List.mem_cons.1 (hw.mem a ha).1 with h | h
  · exact Or.inl h
  · obtain ⟨p, hp, hpa⟩ := List.mem_map.1 h
    exact Or.inr ⟨p, List.mem_of_mem_take hp, hpa.symm⟩

/-- C4. `TryLoadLibrary` returns the handle of the first candidate that opens
and tries nothing after it: either it returns null and every candidate was tried
and failed, or the candidates before some candidate `c` failed, `c` returned the
non-null handle that is the result, and `c` is the last attempt.  It returns
null exactly when every attempt failed. -/
theorem TryLoadLibrary_first_success_wins (P : Platform) (libname : String)
    (search_paths : List String) (use_global : Bool) (w : World) :
    (((TryLoadLibrary P libname search_paths search_paths.length use_global w).1 = 0 ∧
        outcomes (opens (emitted w
          (TryLoadLibrary P libname search_paths search_paths.length use_global w).2))
        = ((if libname = "libiGraphicsCore.huawei.so" then "libigs_client.so" else libname) ::
            search_paths.map (fun p => p ++ "/" ++
              (if libname = "libiGraphicsCore.huawei.so" then "libigs_client.so"
                else libname))).map (fun c => (c, 0))) ∨
      ((TryLoadLibrary P libname search_paths search_paths.length use_global w).1 ≠ 0 ∧
        ∃ pre c post,
          (if libname = "libiGraphicsCore.huawei.so" then "libigs_client.so" else libname) ::
            search_paths.map (fun p => p ++ "/" ++
              (if libname = "libiGraphicsCore.huawei.so" then "libigs_client.so"
                else libname)) = pre ++ c :: post ∧
          outcomes (opens (emitted w
            (TryLoadLibrary P libname search_paths search_paths.length use_global w).2))
          = pre.map (fun c => (c, 0)) ++
              [(c, (TryLoadLibrary P libname search_paths search_paths.length
                      use_global w).1)])) ∧
    ((TryLoadLibrary P libname search_paths search_paths.length use_global w).1 = 0 ↔
      ∀ a ∈ opens (emitted w
        (TryLoadLibrary P libname search_paths search_paths.length use_global w).2),
        a.2.2 = 0) := by
  have hw := (TryLoadLibrary_emitted P libname search_paths search_paths.length use_global w).2.1
  rw [take_length_toNat] at hw
  exact ⟨hw.outcomes, hw.null_iff⟩

/-! ## The redirected name in every candidate -/

/-- A run of characters inside `l₁ ++ a :: l₂` that does not contain `a` lies
inside `l₁` or inside `l₂`. -/
theorem infix_append_cons {α : Type} {s l₁ l₂ : List α} {a : α} (ha : a ∉ s)
    (h : s <:+: l₁ ++ a :: l₂) : s <:+: l₁ ∨ s <:+: l₂ := by
  obtain ⟨u, v, huv⟩ := h
  rcases List.append_eq_append_iff.1 huv with ⟨t, ht, _⟩ | ⟨t, ht, htv⟩
  · exact Or.inl ⟨u, t, ht.symm⟩
  · cases t with
    | nil => exact Or.inl ⟨u, [], by simpa using ht⟩
    | cons x t =>
      simp only [List.cons_append, List.cons.injEq] at htv
      obtain ⟨rfl, hl₂⟩ := htv
      rcases List.append_eq_append_iff.1 ht with ⟨t', _, hs⟩ | ⟨t', _, hs⟩
      · exact absurd (by rw [hs]; simp) ha
      · cases t' with
        | nil =>
          simp only [List.nil_append] at hs
          exact absurd (by rw [← hs]; simp) ha
        | cons y t' =>
          simp only [List.cons_append, List.cons.injEq] at hs
          exact Or.inr ⟨t', v, by rw [hl₂, hs.2]⟩

/-- The candidate `path + "/libigs_client.so"` contains the name
`libiGraphicsCore.huawei.so` only if `path` does. -/
theorem containsName_candidate (path : String)
    (h : containsName (path ++ "/" ++ "libigs_client.so") "libiGraphicsCore.huawei.so") :
    containsName path "libiGraphicsCore.huawei.so" := by
  have hdata : (path ++ "/" ++ "libigs_client.so").data
      = path.data ++ '/' :: "libigs_client.so".data := by
    simp [String.data_append]
  unfold containsName at h ⊢
  rw [hdata] at h
  rcases infix_append_cons (by decide) h with h | h
  · exact h
  · exact absurd h.length_le (by decide)

/-- No candidate built from `libigs_client.so` ends in `libiGraphicsCore.huawei.so`. -/
theorem not_suffix_candidate (path : String) :
    ¬ "libiGraphicsCore.huawei.so".data <:+ (path ++ "/" ++ "libigs_client.so").data := by
  intro h
  have hdata : (path ++ "/" ++ "libigs_client.so").data
      = path.data ++ '/' :: "libigs_client.so".data := by
    simp [String.data_append]
  rw [hdata] at h
  have hslash : ('/' :: "libigs_client.so".data) <:+ "libiGraphicsCore.huawei.so".data :=
    List.suffix_of_suffix_length_le (List.suffix_append _ _) h (by decide)
  exact absurd (hslash.subset (List.mem_cons_self _ _)) (by decide)

/-- A walk whose first two candidates can never be opened and whose third always
can: exactly three attempts, the third returning the result. -/
theorem Walk.third_opens {P : Platform} {c0 c1 c2 : String} {others : List String}
    {flags : Nat} {result : Ptr} {attempts : List (String × Nat × Ptr)}
    (hw : Walk (c0 :: c1 :: c2 :: others) flags result attempts)
    (hfrom : ∀ a ∈ attempts, ∃ hist, a.2.2 = P.dlopen hist a.1 a.2.1)
    (h0 : ∀ hist fl, P.dlopen hist c0 fl = 0) (h1 : ∀ hist fl, P.dlopen hist c1 fl = 0)
    (h2 : ∀ hist fl, P.dlopen hist c2 fl ≠ 0) :
    result ≠ 0 ∧ attempts = [(c0, flags, 0), (c1, flags, 0), (c2, flags, result)] := by
  rcases hw with ⟨_, hall⟩ | ⟨hne, pre, c, post, hc, hatt⟩
  · obtain ⟨hist, hh⟩ := hfrom (c2, flags, 0) (by rw [hall]; simp)
    exact absurd hh.symm (h2 hist flags)
  · refine ⟨hne, ?_⟩
    obtain ⟨hist, hh⟩ := hfrom (c, flags, result) (by rw [hatt]; simp)
    simp only at hh
    rcases pre with _ | ⟨x0, _ | ⟨x1, _ | ⟨x2, pre⟩⟩⟩
    · simp only [List.nil_append, List.cons.injEq] at hc
      rw [← hc.1, h0] at hh
      exact absurd hh hne
    · simp only [List.cons_append, List.nil_append, List.cons.injEq] at hc
      rw [← hc.2.1, h1] at hh
      exact absurd hh hne
    · simp only [List.cons_append, List.nil_append, List.cons.injEq] at hc
      rw [hatt, hc.1, hc.2.1, hc.2.2.1]
      rfl
    · simp only [List.cons_append, List.cons.injEq] at hc
      obtain ⟨hist', hh'⟩ := hfrom (x2, flags, 0) (by rw [hatt]; simp)
      simp only at hh'
      rw [← hc.2.2.1] at hh'
      exact absurd hh'.symm (h2 hist' flags)

/-- What the attempts of a call for `libiGraphicsCore.huawei.so` are made of, for
any list of search paths: every attempted candidate is `libigs_client.so` or
`path + "/libigs_client.so"`, none ends in the requested name, and one contains
the requested name only if the search path it was built from does.  If
`libigs_client.so` can be opened under the second search path only, the call
returns the non-null handle of `path2 + "/libigs_client.so"` after exactly three
attempts. -/
theorem TryLoadLibrary_redirect_candidates (P : Platform) (search_paths : List String)
    (use_global : Bool) (w : World) :
    (∀ a ∈ opens (emitted w (TryLoadLibrary P "libiGraphicsCore.huawei.so" search_paths
        search_paths.length use_global w).2),
      (a.1 = "libigs_client.so" ∨ ∃ p ∈ search_paths, a.1 = p ++ "/" ++ "libigs_client.so") ∧
      ¬ "libiGraphicsCore.huawei.so".data <:+ a.1.data ∧
      (containsName a.1 "libiGraphicsCore.huawei.so" →
        ∃ p ∈ search_paths, containsName p "libiGraphicsCore.huawei.so" ∧
          a.1 = p ++ "/" ++ "libigs_client.so")) ∧
    (∀ path1 path2 others, search_paths = path1 :: path2 :: others →
      (∀ hist fl, P.dlopen hist "libigs_client.so" fl = 0) →
      (∀ hist fl, P.dlopen hist (path1 ++ "/" ++ "libigs_client.so") fl = 0) →
      (∀ hist fl, P.dlopen hist (path2 ++ "/" ++ "libigs_client.so") fl ≠ 0) →
      (TryLoadLibrary P "libiGraphicsCore.huawei.so" search_paths
        search_paths.length use_global w).1 ≠ 0 ∧
      outcomes (opens (emitted w (TryLoadLibrary P "libiGraphicsCore.huawei.so" search_paths
        search_paths.length use_global w).2))
        = [("libigs_client.so", 0), (path1 ++ "/" ++ "libigs_client.so", 0),
           (path2 ++ "/" ++ "libigs_client.so",
            (TryLoadLibrary P "libiGraphicsCore.huawei.so" search_paths
              search_paths.length use_global w).1)]) := by
  obtain ⟨_, hw, hfrom⟩ := TryLoadLibrary_emitted P "libiGraphicsCore.huawei.so" search_paths
    search_paths.length use_global w
  rw [take_length_toNat, if_pos rfl] at hw
  refine ⟨fun a ha => ?_, ?_⟩
  · rcases List.mem_cons.1 (hw.mem a ha).1 with h | h
    · refine ⟨Or.inl h, ?_, ?_⟩
      · rw [h]
        decide
      · intro hc
        rw [h] at hc
        exact absurd (List.IsInfix.length_le hc) (by decide)
    · obtain ⟨p, hp, hpa⟩ := List.mem_map.1 h
      refine ⟨Or.inr ⟨p, hp, hpa.symm⟩, ?_, ?_⟩
      · rw [← hpa]
        exact not_suffix_candidate p
      · intro hc
        rw [← hpa] at hc
        exact ⟨p, hp, containsName_candidate p hc, hpa.symm⟩
  · intro path1 path2 others hsp h0 h1 h2
    subst hsp
    simp only [List.map_cons] at hw
    obtain ⟨hne, hatt⟩ := hw.third_opens hfrom h0 h1 h2
    exact ⟨hne, by rw [hatt]; rfl⟩

/-- None of the search directories that `Load()` passes to `TryLoadLibrary`
(`system_paths`, `app_paths`) has `libiGraphicsCore.huawei.so` in its name. -/
theorem Load.paths_without_requested_name :
    ∀ p ∈ Load.system_paths ++ Load.app_paths,
      ¬ containsName p "libiGraphicsCore.huawei.so" := by
  unfold containsName
  decide

/-- C3. The redirected name is used for every candidate.  When
`libiGraphicsCore.huawei.so` is requested with search directories that do not
have that file name in their own name (as is the case of both lists of search
paths in `Load()`, see `Load.paths_without_requested_name`), every attempted
candidate is `libigs_client.so` or `path + "/libigs_client.so"` for one of the
search paths, and no attempted candidate contains the requested name.  If
`libigs_client.so` can be opened under the second search path only, the call
returns the non-null handle of `path2 + "/libigs_client.so"` after exactly three
attempts: the bare name, the first path, the second path. -/
theorem TryLoadLibrary_redirect_consistent (P : Platform) (search_paths : List String)
    (use_global : Bool) (w : World)
    (hpaths : ∀ p ∈ search_paths, ¬ containsName p "libiGraphicsCore.huawei.so") :
    (∀ a ∈ opens (emitted w (TryLoadLibrary P "libiGraphicsCore.huawei.so" search_paths
        search_paths.length use_global w).2),
      (a.1 = "libigs_client.so" ∨ ∃ p ∈ search_paths, a.1 = p ++ "/" ++ "libigs_client.so") ∧
      ¬ containsName a.1 "libiGraphicsCore.huawei.so") ∧
    (∀ path1 path2 others, search_paths = path1 :: path2 :: others →
      (∀ hist fl, P.dlopen hist "libigs_client.so" fl = 0) →
      (∀ hist fl, P.dlopen hist (path1 ++ "/" ++ "libigs_client.so") fl = 0) →
      (∀ hist fl, P.dlopen hist (path2 ++ "/" ++ "libigs_client.so") fl ≠ 0) →
      (TryLoadLibrary P "libiGraphicsCore.huawei.so" search_paths
        search_paths.length use_global w).1 ≠ 0 ∧
      outcomes (opens (emitted w (TryLoadLibrary P "libiGraphicsCore.huawei.so" search_paths
        search_paths.length use_global w).2))
        = [("libigs_client.so", 0), (path1 ++ "/" ++ "libigs_client.so", 0),
           (path2 ++ "/" ++ "libigs_client.so",
            (TryLoadLibrary P "libiGraphicsCore.huawei.so" search_paths
              search_paths.length use_global w).1)]) := by
  obtain ⟨hall, hthree⟩ := TryLoadLibrary_redirect_candidates P search_paths use_global w
  refine ⟨fun a ha => ⟨(hall a ha).1, fun hc => ?_⟩, hthree⟩
  obtain ⟨p, hp, hcontains, -⟩ := (hall a ha).2.2 hc
  exact hpaths p hp hcontains

/-- C3 at a concrete input: `libiGraphicsCore.huawei.so` is requested with the
four `system_paths` of `Load()` on a platform where only
`/vendor/lib64/libigs_client.so`, under the second of them, can be opened.  The
three attempts are the bare `libigs_client.so`, `/system/lib64/libigs_client.so`
and `/vendor/lib64/libigs_client.so`, whose handle 7 is returned; none of them
contains the requested name. -/
theorem TryLoadLibrary_redirect_consistent_witness :
    (∀ p ∈ Load.system_paths, ¬ containsName p "libiGraphicsCore.huawei.so") ∧
    (TryLoadLibrary secondPathPlatform "libiGraphicsCore.huawei.so"
      Load.system_paths 4 true World.start).1 = 7 ∧
    outcomes (opens (emitted World.start (TryLoadLibrary secondPathPlatform
      "libiGraphicsCore.huawei.so" Load.system_paths 4 true World.start).2))
      = [("libigs_client.so", 0), ("/system/lib64/libigs_client.so", 0),
         ("/vendor/lib64/libigs_client.so", 7)] ∧
    (∀ a ∈ opens (emitted World.start (TryLoadLibrary secondPathPlatform
        "libiGraphicsCore.huawei.so" Load.system_paths 4 true World.start).2),
      (a.1 = "libigs_client.so" ∨
        ∃ p ∈ Load.system_paths, a.1 = p ++ "/" ++ "libigs_client.so") ∧
      ¬ containsName a.1 "libiGraphicsCore.huawei.so") :=
  ⟨fun p hp => Load.paths_without_requested_name p (List.mem_append_left _ hp),
   by decide, by decide,
   (TryLoadLibrary_redirect_consistent secondPathPlatform Load.system_paths true World.start
      (fun p hp => Load.paths_without_requested_name p (List.mem_append_left _ hp))).1⟩

/-! ## `Unload` and the stages of `Load` -/

theorem emitted_trans {w w1 w2 : World} {a b : List Event}
    (h1 : w1.trace = w.trace ++ a) (h2 : w2.trace = w1.trace ++ b) :
    emitted w w2 = a ++ b := by
  simp [emitted, h1, h2]

theorem TryLoadLibrary_trace (P : Platform) (libname : String) (search_paths : List String)
    (num_paths : Int) (use_global : Bool) (w : World) :
    (TryLoadLibrary P libname search_paths num_paths use_global w).2.trace
      = w.trace ++ emitted w (TryLoadLibrary P libname search_paths num_paths use_global w).2 := by
  obtain ⟨evs, h, _⟩ := TryLoadLibrary_spec P libname search_paths num_paths use_global w
  rw [emitted_of_trace_eq h]
  exact h

/-- What an `Unload()` does, in one equation: an optional `CUninitialize` call,
the close of the plugin handle, the close of the `libigs_client.so` handle, and
a loader back in its freshly constructed state. -/
theorem Unload_eq (P : Platform) (self : DynamicLoader) (w : World) :
    Unload P self w = ({},
      { trace := w.trace ++
          ((if self.m_CUninitialize ≠ 0 ∧ self.m_initialized = true then
              [Event.call_void self.m_CUninitialize
                 (P.invoke_void w.trace self.m_CUninitialize),
               (match P.invoke_void w.trace self.m_CUninitialize with
                | Outcome.returned _ =>
                  Event.log LogPriority.ANDROID_LOG_INFO LOG_TAG "CUninitialize() completed"
                | Outcome.raised =>
                  Event.log LogPriority.ANDROID_LOG_ERROR LOG_TAG
                    "Exception during uninitialization")]
            else []) ++
           ((if self.m_cgkit_handle ≠ 0 then
               [Event.dlclose self.m_cgkit_handle,
                Event.log LogPriority.ANDROID_LOG_INFO LOG_TAG "CGKit plugin unloaded"]
             else []) ++
            (if self.m_igraphics_handle ≠ 0 then
               [Event.dlclose self.m_igraphics_handle,
                Event.log LogPriority.ANDROID_LOG_INFO LOG_TAG "iGraphicsCore unloaded"]
             else []))),
        dl_error := w.dl_error }) := by
  obtain ⟨cg, ig, f1, f2, f3, f4, f5, f6, ini⟩ := self
  by_cases hu : f2 ≠ 0 ∧ ini = true <;> by_cases hcg : cg = 0 <;> by_cases hig : ig = 0
  all_goals
    cases hr : P.invoke_void w.trace f2 <;>
      simp [Unload, call_void, LOGI, LOGE, dlclose, World.emit, hu, hcg, hig, hr]

/-- An `Unload()` of a loader that is not initialised makes no vendor call. -/
theorem Unload_eq_of_not_initialized (P : Platform) (self : DynamicLoader) (w : World)
    (h : self.m_initialized = false) :
    Unload P self w = ({}, { trace := w.trace ++ Unload.closing self, dl_error := w.dl_error }) := by
  rw [Unload_eq]
  simp [h, Unload.closing]

theorem Unload.closing_projections (self : DynamicLoader) :
    opens (Unload.closing self) = [] ∧ lookups (Unload.closing self) = [] ∧
    vendorCalls (Unload.closing self) = [] ∧
    closes (Unload.closing self) = Unload.closed self := by
  by_cases hcg : self.m_cgkit_handle = 0 <;> by_cases hig : self.m_igraphics_handle = 0 <;>
    simp [Unload.closing, Unload.closed, hcg, hig, opens, lookups, closes, vendorCalls,
      Event.isVendorCall]

/-- Step 4 of `Load()` on a loader that is not yet initialised. -/
theorem Load.init_spec (P : Platform) (self : DynamicLoader) (w : World)
    (h : self.m_initialized = false) :
    (Load.init P self w).2.2.trace = w.trace ++ emitted w (Load.init P self w).2.2 ∧
    opens (emitted w (Load.init P self w).2.2) = [] ∧
    lookups (emitted w (Load.init P self w).2.2) = [] ∧
    Load.InitSummary self (Load.init P self w).1 (Load.init P self w).2.1
      (emitted w (Load.init P self w).2.2) := by
  obtain ⟨hco, hcl, hcv, hcc⟩ := Unload.closing_projections self
  cases hr1 : P.invoke_void w.trace self.m_CInitialize with
  | raised =>
    simp [Load.init, Load.InitSummary, call_void, LOGE, World.emit, hr1,
      Unload_eq_of_not_initialized _ _ _ h, emitted, opens_append, lookups_append,
      closes_append, vendorCalls_append, hco, hcl, hcv, hcc, opens, lookups, closes,
      vendorCalls_nil, vendorCalls_cons, Event.isVendorCall]
  | returned u =>
    cases hr2 : P.invoke_cstr (w.trace ++ [Event.call_void self.m_CInitialize
        (Outcome.returned u), Event.log LogPriority.ANDROID_LOG_INFO LOG_TAG
          "CInitialize() completed"]) self.m_CSetAssetsDir Load.assets_path with
    | raised =>
      simp [Load.init, Load.InitSummary, call_void, call_cstr, LOGE, LOGI, World.emit, hr1, hr2,
        Unload_eq_of_not_initialized _ _ _ h, emitted, opens_append, lookups_append,
        closes_append, vendorCalls_append, hco, hcl, hcv, hcc, opens, lookups, closes,
        vendorCalls_nil, vendorCalls_cons, Event.isVendorCall]
    | returned u2 =>
      simp [Load.init, Load.InitSummary, call_void, call_cstr, LOGE, LOGI, World.emit, hr1, hr2,
        emitted, opens, lookups, closes, vendorCalls_nil, vendorCalls_cons, Event.isVendorCall]


/-- Steps 3 and 4 of `Load()` on a loader that is not yet initialised. -/
theorem Load.resolve_spec (P : Platform) (self : DynamicLoader) (w : World)
    (h : self.m_initialized = false) :
    (Load.resolve P self w).2.2.trace = w.trace ++ emitted w (Load.resolve P self w).2.2 ∧
    opens (emitted w (Load.resolve P self w).2.2) = [] ∧
    Load.ResolveSummary self (Load.resolve P self w).1 (Load.resolve P self w).2.1
      (emitted w (Load.resolve P self w).2.2) := by
  simp only [Load.resolve]
  generalize hw1 : dlsym P self.m_cgkit_handle "CInitialize"
    (LOGI "Loading function pointers..." w) = s1
  generalize hw2 : dlsym P self.m_cgkit_handle "CUninitialize" s1.2 = s2
  generalize hw3 : dlsym P self.m_cgkit_handle "CSetAssetsDir" s2.2 = s3
  generalize hw4 : dlsym P self.m_cgkit_handle "CGetAssetsDir" s3.2 = s4
  generalize hw5 : dlsym P self.m_cgkit_handle "CSuperSamplingSyncExecute" s4.2 = s5
  generalize hw6 : dlsym P self.m_cgkit_handle "CSuperSamplingAsyncExecute" s5.2 = s6
  have ht : s6.2.trace = w.trace ++ [Event.log LogPriority.ANDROID_LOG_INFO LOG_TAG
      "Loading function pointers...",
      Event.dlsym self.m_cgkit_handle "CInitialize" s1.1,
      Event.dlsym self.m_cgkit_handle "CUninitialize" s2.1,
      Event.dlsym self.m_cgkit_handle "CSetAssetsDir" s3.1,
      Event.dlsym self.m_cgkit_handle "CGetAssetsDir" s4.1,
      Event.dlsym self.m_cgkit_handle "CSuperSamplingSyncExecute" s5.1,
      Event.dlsym self.m_cgkit_handle "CSuperSamplingAsyncExecute" s6.1] := by
    subst hw6 hw5 hw4 hw3 hw2 hw1
    simp [dlsym, LOGI, World.emit]
  clear hw1 hw2 hw3 hw4 hw5 hw6
  by_cases hreq : s1.1 = 0 ∨ s3.1 = 0 ∨ s5.1 = 0
  · obtain ⟨hco, hcl, hcv, hcc⟩ := Unload.closing_projections
      { self with
        m_CInitialize := s1.1
        m_CUninitialize := s2.1
        m_CSetAssetsDir := s3.1
        m_CGetAssetsDir := s4.1
        m_CSuperSamplingSyncExecute := s5.1
        m_CSuperSamplingAsyncExecute := s6.1 }
    have hcc' : closes (Unload.closing { self with
        m_CInitialize := s1.1
        m_CUninitialize := s2.1
        m_CSetAssetsDir := s3.1
        m_CGetAssetsDir := s4.1
        m_CSuperSamplingSyncExecute := s5.1
        m_CSuperSamplingAsyncExecute := s6.1 }) = Unload.closed self := hcc
    rw [if_pos hreq, Unload_eq_of_not_initialized P { self with
        m_CInitialize := s1.1
        m_CUninitialize := s2.1
        m_CSetAssetsDir := s3.1
        m_CGetAssetsDir := s4.1
        m_CSuperSamplingSyncExecute := s5.1
        m_CSuperSamplingAsyncExecute := s6.1 } _ h]
    simp only [LOGE, World.emit, ht, emitted, List.append_assoc, List.drop_left, true_and]
    refine ⟨by simp [opens_append, hco, opens], s1.1, s2.1, s3.1, s4.1, s5.1, s6.1,
      by simp [lookups_append, hcl, lookups], Or.inl ⟨hreq, rfl, rfl, ?_, ?_⟩⟩
    · simp [vendorCalls_append, hcv, vendorCalls_cons, vendorCalls_nil, Event.isVendorCall]
    · simp [closes_append, hcc', closes]
  · rw [if_neg hreq]
    obtain ⟨htr, hop, hlk, hsum⟩ := Load.init_spec P
      { self with
        m_CInitialize := s1.1
        m_CUninitialize := s2.1
        m_CSetAssetsDir := s3.1
        m_CGetAssetsDir := s4.1
        m_CSuperSamplingSyncExecute := s5.1
        m_CSuperSamplingAsyncExecute := s6.1 }
      (LOGI "Initializing Huawei OSR plugin..."
        (LOGI "Function pointers loaded successfully" s6.2)) h
    generalize Load.init P { self with
        m_CInitialize := s1.1
        m_CUninitialize := s2.1
        m_CSetAssetsDir := s3.1
        m_CGetAssetsDir := s4.1
        m_CSuperSamplingSyncExecute := s5.1
        m_CSuperSamplingAsyncExecute := s6.1 }
      (LOGI "Initializing Huawei OSR plugin..."
        (LOGI "Function pointers loaded successfully" s6.2)) = run at htr hop hlk hsum ⊢
    generalize hev : emitted (LOGI "Initializing Huawei OSR plugin..."
        (LOGI "Function pointers loaded successfully" s6.2)) run.2.2 = ev at htr hop hlk hsum
    simp only [LOGI, World.emit, ht, List.append_assoc] at htr
    rw [emitted_of_trace_eq htr]
    refine ⟨htr, by simp [opens_append, hop, opens], s1.1, s2.1, s3.1, s4.1, s5.1, s6.1,
      by simp [lookups_append, hlk, lookups], Or.inr ⟨?_, ?_, ?_, ?_⟩⟩
    · exact fun h0 => hreq (Or.inl h0)
    · exact fun h0 => hreq (Or.inr (Or.inl h0))
    · exact fun h0 => hreq (Or.inr (Or.inr h0))
    · rcases hsum with ⟨h1, h2, h3, h4⟩ | ⟨h1, h2, h3, h4⟩
      · refine Or.inl ⟨h1, h2, ?_, ?_⟩
        · simpa [vendorCalls_append, vendorCalls_cons, vendorCalls_nil, Event.isVendorCall]
            using h3
        · simpa [closes_append, closes] using h4
      · refine Or.inr ⟨h1, h2, ?_, ?_⟩
        · simpa [closes_append, closes] using h3
        · simpa [vendorCalls_append, vendorCalls_cons, vendorCalls_nil, Event.isVendorCall]
            using h4

/-- The walk of a `TryLoadLibrary` call whose name is not redirected and whose
count covers the whole list of search paths. -/
theorem TryLoadLibrary_walk (P : Platform) (libname : String) (search_paths : List String)
    (num_paths : Int) (use_global : Bool) (w : World)
    (hname : libname ≠ "libiGraphicsCore.huawei.so")
    (hcount : search_paths.take num_paths.toNat = search_paths) :
    Walk (candidates libname search_paths)
      (P.RTLD_NOW ||| (if use_global = true then P.RTLD_GLOBAL else P.RTLD_LOCAL))
      (TryLoadLibrary P libname search_paths num_paths use_global w).1
      (opens (emitted w (TryLoadLibrary P libname search_paths num_paths use_global w).2)) := by
  have hw := (TryLoadLibrary_emitted P libname search_paths num_paths use_global w).2.1
  rw [hcount, if_neg hname] at hw
  exact hw

/-- Steps 2 to 4 of `Load()` on a loader that is not yet initialised. -/
theorem Load.plugin_spec (P : Platform) (self : DynamicLoader) (w : World)
    (h : self.m_initialized = false) :
    (Load.plugin P self w).2.2.trace = w.trace ++ emitted w (Load.plugin P self w).2.2 ∧
    Load.PluginSummary P self (Load.plugin P self w).1 (Load.plugin P self w).2.1
      (emitted w (Load.plugin P self w).2.2) := by
  have hwalk := TryLoadLibrary_walk P "libcgkit_plugin_offlineSupRes.so" Load.app_paths 2 false
    (LOGI "Namespace primed successfully, loading CGKit OSR plugin..." w) (by decide) rfl
  have hphase := (TryLoadLibrary_emitted P "libcgkit_plugin_offlineSupRes.so" Load.app_paths 2
    false (LOGI "Namespace primed successfully, loading CGKit OSR plugin..." w)).1
  have htrace := TryLoadLibrary_trace P "libcgkit_plugin_offlineSupRes.so" Load.app_paths 2
    false (LOGI "Namespace primed successfully, loading CGKit OSR plugin..." w)
  simp only [Load.plugin]
  generalize TryLoadLibrary P "libcgkit_plugin_offlineSupRes.so" Load.app_paths 2 false
    (LOGI "Namespace primed successfully, loading CGKit OSR plugin..." w) = loaded
    at hwalk hphase htrace ⊢
  generalize emitted (LOGI "Namespace primed successfully, loading CGKit OSR plugin..." w)
    loaded.2 = evL at hwalk hphase htrace
  simp only [Bool.false_eq_true, if_false] at hwalk
  simp only [LOGI, World.emit, List.append_assoc] at htrace
  by_cases hnull : loaded.1 = 0
  · obtain ⟨hco, hcl, hcv, hcc⟩ := Unload.closing_projections
      { self with m_cgkit_handle := loaded.1 }
    rw [if_pos hnull, Unload_eq_of_not_initialized P { self with m_cgkit_handle := loaded.1 } _ h]
    simp only [LOGE, World.emit, htrace, emitted, List.append_assoc, List.drop_left, true_and]
    refine ⟨loaded.1, ?_, Or.inl ⟨hnull, rfl, rfl, ?_, ?_, ?_⟩⟩
    · simpa [opens_append, hco, opens] using hwalk
    · simp [lookups_append, hcl, lookups, lookups_of_openPhase evL hphase]
    · simp [vendorCalls_append, hcv, vendorCalls_cons, vendorCalls_nil, Event.isVendorCall,
        vendorCalls_of_openPhase evL hphase]
    · rw [hnull] at hcc ⊢
      simp [closes_append, hcc, closes, closes_of_openPhase evL hphase]
  · rw [if_neg hnull]
    obtain ⟨htr, hop, hsum⟩ := Load.resolve_spec P { self with m_cgkit_handle := loaded.1 }
      (LOGI "✓ CGKit plugin loaded successfully" loaded.2) h
    generalize Load.resolve P { self with m_cgkit_handle := loaded.1 }
      (LOGI "✓ CGKit plugin loaded successfully" loaded.2) = run at htr hop hsum ⊢
    generalize emitted (LOGI "✓ CGKit plugin loaded successfully" loaded.2) run.2.2 = ev
      at htr hop hsum
    simp only [LOGI, World.emit, htrace, List.append_assoc] at htr
    rw [emitted_of_trace_eq htr]
    refine ⟨htr, loaded.1, ?_, Or.inr ⟨hnull, ?_⟩⟩
    · simpa [opens_append, hop, opens] using hwalk
    · obtain ⟨f1, f2, f3, f4, f5, f6, hlk, hrest⟩ := hsum
      refine ⟨f1, f2, f3, f4, f5, f6, ?_, ?_⟩
      · simpa [lookups_append, lookups, lookups_of_openPhase evL hphase] using hlk
      · rcases hrest with ⟨hreq, h1, h2, h3, h4⟩ | ⟨g1, g3, g5, hinit⟩
        · refine Or.inl ⟨hreq, h1, h2, ?_, ?_⟩
          · simpa [vendorCalls_append, vendorCalls_cons, vendorCalls_nil, Event.isVendorCall,
              vendorCalls_of_openPhase evL hphase] using h3
          · simpa [closes_append, closes, closes_of_openPhase evL hphase] using h4
        · refine Or.inr ⟨g1, g3, g5, ?_⟩
          rcases hinit with ⟨h1, h2, h3, h4⟩ | ⟨h1, h2, h3, h4⟩
          · refine Or.inl ⟨h1, h2, ?_, ?_⟩
            · simpa [vendorCalls_append, vendorCalls_cons, vendorCalls_nil, Event.isVendorCall,
                vendorCalls_of_openPhase evL hphase] using h3
            · simpa [closes_append, closes, closes_of_openPhase evL hphase] using h4
          · refine Or.inr ⟨h1, h2, ?_, ?_⟩
            · simpa [closes_append, closes, closes_of_openPhase evL hphase] using h3
            · simpa [vendorCalls_append, vendorCalls_cons, vendorCalls_nil, Event.isVendorCall,
                vendorCalls_of_openPhase evL hphase] using h4

/-- Step 1 of `Load()`. -/
theorem Load.prime_spec (P : Platform) (self : DynamicLoader) (w : World) :
    (Load.prime P self w).2.trace = w.trace ++ emitted w (Load.prime P self w).2 ∧
    Load.PrimeSummary P self (Load.prime P self w).1 (emitted w (Load.prime P self w).2) := by
  simp only [Load.prime]
  -- libigs_client.so
  have hwalk1 := TryLoadLibrary_walk P "libigs_client.so" Load.system_paths 4 true
    (LOGI "Loading libigs_client.so (Huawei Graphics Core)..."
      (LOGI "Priming namespace with official Huawei libraries..." w)) (by decide) rfl
  have hphase1 := (TryLoadLibrary_emitted P "libigs_client.so" Load.system_paths 4 true
    (LOGI "Loading libigs_client.so (Huawei Graphics Core)..."
      (LOGI "Priming namespace with official Huawei libraries..." w))).1
  have htrace1 := TryLoadLibrary_trace P "libigs_client.so" Load.system_paths 4 true
    (LOGI "Loading libigs_client.so (Huawei Graphics Core)..."
      (LOGI "Priming namespace with official Huawei libraries..." w))
  generalize TryLoadLibrary P "libigs_client.so" Load.system_paths 4 true
    (LOGI "Loading libigs_client.so (Huawei Graphics Core)..."
      (LOGI "Priming namespace with official Huawei libraries..." w)) = igs
    at hwalk1 hphase1 htrace1 ⊢
  generalize emitted (LOGI "Loading libigs_client.so (Huawei Graphics Core)..."
      (LOGI "Priming namespace with official Huawei libraries..." w)) igs.2 = ev1
    at hwalk1 hphase1 htrace1
  -- libai_client.so
  have hwalk2 := TryLoadLibrary_walk P "libai_client.so" Load.system_paths 4 true
    (LOGI "Loading libai_client.so (Huawei AI Core)..."
      (if igs.1 ≠ 0 then
        LOGI "✓ Huawei Graphics Core link established (libigs_client.so loaded)" igs.2
      else LOGW "libigs_client.so not found - may not be available on this device" igs.2))
    (by decide) rfl
  have hphase2 := (TryLoadLibrary_emitted P "libai_client.so" Load.system_paths 4 true
    (LOGI "Loading libai_client.so (Huawei AI Core)..."
      (if igs.1 ≠ 0 then
        LOGI "✓ Huawei Graphics Core link established (libigs_client.so loaded)" igs.2
      else LOGW "libigs_client.so not found - may not be available on this device" igs.2))).1
  have htrace2 := TryLoadLibrary_trace P "libai_client.so" Load.system_paths 4 true
    (LOGI "Loading libai_client.so (Huawei AI Core)..."
      (if igs.1 ≠ 0 then
        LOGI "✓ Huawei Graphics Core link established (libigs_client.so loaded)" igs.2
      else LOGW "libigs_client.so not found - may not be available on this device" igs.2))
  generalize TryLoadLibrary P "libai_client.so" Load.system_paths 4 true
    (LOGI "Loading libai_client.so (Huawei AI Core)..."
      (if igs.1 ≠ 0 then
        LOGI "✓ Huawei Graphics Core link established (libigs_client.so loaded)" igs.2
      else LOGW "libigs_client.so not found - may not be available on this device" igs.2)) = ai
    at hwalk2 hphase2 htrace2 ⊢
  generalize emitted (LOGI "Loading libai_client.so (Huawei AI Core)..."
      (if igs.1 ≠ 0 then
        LOGI "✓ Huawei Graphics Core link established (libigs_client.so loaded)" igs.2
      else LOGW "libigs_client.so not found - may not be available on this device" igs.2))
    ai.2 = ev2 at hwalk2 hphase2 htrace2
  -- libai_infra.so
  have hwalk3 := TryLoadLibrary_walk P "libai_infra.so" Load.system_paths 4 true
    (LOGI "Loading libai_infra.so (Huawei AI Infrastructure)..."
      (if ai.1 ≠ 0 then
        LOGI "✓ Huawei AI Core link established (libai_client.so loaded)" ai.2
      else LOGW "libai_client.so not found - may not be available on this device" ai.2))
    (by decide) rfl
  have hphase3 := (TryLoadLibrary_emitted P "libai_infra.so" Load.system_paths 4 true
    (LOGI "Loading libai_infra.so (Huawei AI Infrastructure)..."
      (if ai.1 ≠ 0 then
        LOGI "✓ Huawei AI Core link established (libai_client.so loaded)" ai.2
      else LOGW "libai_client.so not found - may not be available on this device" ai.2))).1
  have htrace3 := TryLoadLibrary_trace P "libai_infra.so" Load.system_paths 4 true
    (LOGI "Loading libai_infra.so (Huawei AI Infrastructure)..."
      (if ai.1 ≠ 0 then
        LOGI "✓ Huawei AI Core link established (libai_client.so loaded)" ai.2
      else LOGW "libai_client.so not found - may not be available on this device" ai.2))
  generalize TryLoadLibrary P "libai_infra.so" Load.system_paths 4 true
    (LOGI "Loading libai_infra.so (Huawei AI Infrastructure)..."
      (if ai.1 ≠ 0 then
        LOGI "✓ Huawei AI Core link established (libai_client.so loaded)" ai.2
      else LOGW "libai_client.so not found - may not be available on this device" ai.2))
    = ai_infra at hwalk3 hphase3 htrace3 ⊢
  generalize emitted (LOGI "Loading libai_infra.so (Huawei AI Infrastructure)..."
      (if ai.1 ≠ 0 then
        LOGI "✓ Huawei AI Core link established (libai_client.so loaded)" ai.2
      else LOGW "libai_client.so not found - may not be available on this device" ai.2))
    ai_infra.2 = ev3 at hwalk3 hphase3 htrace3
  simp only [if_true] at hwalk1 hwalk2 hwalk3
  have hp1 : ev1.all Event.isOpenPhase = true := List.all_eq_true.2 hphase1
  have hp2 : ev2.all Event.isOpenPhase = true := List.all_eq_true.2 hphase2
  have hp3 : ev3.all Event.isOpenPhase = true := List.all_eq_true.2 hphase3
  unfold Load.PrimeSummary
  by_cases h1 : igs.1 = 0 <;> by_cases h2 : ai.1 = 0 <;> by_cases h3 : ai_infra.1 = 0
  all_goals
    simp only [h1, h2, h3, ne_eq, not_true_eq_false, not_false_eq_true, if_true, if_false,
      and_self, and_false, false_and, LOGI, LOGW, LOGE, World.emit, List.append_assoc]
      at htrace1 htrace2 htrace3 ⊢
    rw [htrace3, htrace2, htrace1]
    simp only [emitted, List.append_assoc, List.drop_left, true_and]
    refine ⟨?_, igs.1, ai.1, ai_infra.1, opens ev1, opens ev2, opens ev3, ?_,
      hwalk1, hwalk2, hwalk3, ?_⟩
    · rw [← List.all_eq_true]
      simp [List.all_append, hp1, hp2, hp3, Event.isOpenPhase]
    · simp [opens_append, opens]
    · simp [h1]

/-- A `Load()` on an initialised loader only logs. -/
theorem Load_eq_of_initialized (P : Platform) (self : DynamicLoader) (w : World)
    (h : self.m_initialized = true) :
    Load P self w = (true, self, LOGI "Already loaded" w) := by
  simp [Load, h]

/-- A `Load()` on a loader that is not initialised. -/
theorem Load_spec (P : Platform) (self : DynamicLoader) (w : World)
    (h : self.m_initialized = false) :
    (Load P self w).2.2.trace = w.trace ++ emitted w (Load P self w).2.2 ∧
    Load.Summary P self (Load P self w).1 (Load P self w).2.1
      (emitted w (Load P self w).2.2) := by
  obtain ⟨htr1, hsum1⟩ := Load.prime_spec P self
    (LOGI "Using OFFICIAL Huawei public libraries for namespace priming"
      (LOGI "Starting Huawei OSR library loading..." w))
  have hprimed : (Load.prime P self
      (LOGI "Using OFFICIAL Huawei public libraries for namespace priming"
        (LOGI "Starting Huawei OSR library loading..." w))).1.m_initialized = false := by
    obtain ⟨_, r1, _, _, _, _, _, _, _, _, _, hafter⟩ := hsum1
    rw [hafter]
    by_cases h1 : r1 = 0 <;> simp [h1, h]
  obtain ⟨htr2, hsum2⟩ := Load.plugin_spec P _ (Load.prime P self
      (LOGI "Using OFFICIAL Huawei public libraries for namespace priming"
        (LOGI "Starting Huawei OSR library loading..." w))).2 hprimed
  have hval : Load P self w = Load.plugin P
      (Load.prime P self
        (LOGI "Using OFFICIAL Huawei public libraries for namespace priming"
          (LOGI "Starting Huawei OSR library loading..." w))).1
      (Load.prime P self
        (LOGI "Using OFFICIAL Huawei public libraries for namespace priming"
          (LOGI "Starting Huawei OSR library loading..." w))).2 := by
    simp [Load, h]
  rw [hval]
  generalize Load.prime P self
      (LOGI "Using OFFICIAL Huawei public libraries for namespace priming"
        (LOGI "Starting Huawei OSR library loading..." w)) = primed at htr1 hsum1 htr2 hsum2 ⊢
  generalize emitted (LOGI "Using OFFICIAL Huawei public libraries for namespace priming"
        (LOGI "Starting Huawei OSR library loading..." w)) primed.2 = evPrime at htr1 hsum1
  generalize Load.plugin P primed.1 primed.2 = run at htr2 hsum2 ⊢
  generalize emitted primed.2 run.2.2 = evPlugin at htr2 hsum2
  simp only [LOGI, World.emit, List.append_assoc] at htr1
  rw [htr1] at htr2
  simp only [List.append_assoc] at htr2
  rw [emitted_of_trace_eq htr2]
  exact ⟨htr2, primed.1, evPrime, evPlugin, rfl, hsum1, hsum2⟩

/-- Nothing that step 1 tries to open is a candidate for the plugin. -/
theorem Load.prime_opens_not_plugin {P : Platform} {self after : DynamicLoader}
    {ev : List Event} (hsum : Load.PrimeSummary P self after ev) :
    ∀ a ∈ opens ev, a.1 ∉ candidates "libcgkit_plugin_offlineSupRes.so" Load.app_paths := by
  obtain ⟨_, r1, r2, r3, a1, a2, a3, hopens, hw1, hw2, hw3, _⟩ := hsum
  intro a ha
  rw [hopens] at ha
  have hmem : a.1 ∈ candidates "libigs_client.so" Load.system_paths ++
      (candidates "libai_client.so" Load.system_paths ++
        candidates "libai_infra.so" Load.system_paths) := by
    rcases List.mem_append.1 ha with ha | ha
    · exact List.mem_append_left _ (hw1.mem a ha).1
    · rcases List.mem_append.1 ha with ha | ha
      · exact List.mem_append_right _ (List.mem_append_left _ (hw2.mem a ha).1)
      · exact List.mem_append_right _ (List.mem_append_right _ (hw3.mem a ha).1)
  revert hmem
  generalize a.1 = name
  intro hmem
  have hall : ∀ c ∈ candidates "libigs_client.so" Load.system_paths ++
      (candidates "libai_client.so" Load.system_paths ++
        candidates "libai_infra.so" Load.system_paths),
      c ∉ candidates "libcgkit_plugin_offlineSupRes.so" Load.app_paths := by decide
  exact hall name hmem

/-! ## Claims about `Load` -/

theorem mem_of_mem_vendorCalls {e : Event} {ev : List Event} (h : e ∈ vendorCalls ev) :
    e ∈ ev :=
  (List.mem_filter.1 h).1

/-- C5. If, during a `Load()`, the lookup of `CInitialize`, `CSetAssetsDir` or
`CSuperSamplingSyncExecute` returns null (lookups are made only once the plugin
library has opened), then `Load()` returns false, `IsAvailable()` is false
afterwards and the call made no vendor call at all, whatever the auxiliary
opens and the other lookups returned. -/
theorem Load_fails_on_missing_required_symbol (P : Platform) (self : DynamicLoader) (w : World)
    (hmissing : ∃ d ∈ lookups (emitted w (Load P self w).2.2),
      Load.isRequired d.2.1 ∧ d.2.2 = 0) :
    (Load P self w).1 = false ∧ IsAvailable (Load P self w).2.1 = false ∧
    vendorCalls (emitted w (Load P self w).2.2) = [] := by
  obtain ⟨d, hd, hreq, hnull⟩ := hmissing
  by_cases hinit : self.m_initialized = true
  · rw [Load_eq_of_initialized P self w hinit] at hd
    simp [emitted, LOGI, World.emit, lookups] at hd
  · have hfalse : self.m_initialized = false := by simpa using hinit
    obtain ⟨_, primed, evPrime, evPlugin, hev, hprime, handle, _, hplugin⟩ :=
      Load_spec P self w hfalse
    rw [hev] at hd ⊢
    have hlkPrime : lookups evPrime = [] := lookups_of_openPhase evPrime hprime.1
    have hvcPrime : vendorCalls evPrime = [] := vendorCalls_of_openPhase evPrime hprime.1
    rw [lookups_append, lookups_append, hlkPrime] at hd
    replace hd : d ∈ lookups evPlugin := by simpa [lookups] using hd
    rcases hplugin with ⟨_, _, _, hlk, _⟩ | ⟨_, f1, f2, f3, f4, f5, f6, hlk, hrest⟩
    · rw [hlk] at hd
      exact absurd hd (List.not_mem_nil _)
    · rw [hlk] at hd
      have hzero : f1 = 0 ∨ f3 = 0 ∨ f5 = 0 := by
        simp only [List.mem_cons, List.mem_singleton, List.not_mem_nil, or_false] at hd
        rcases hd with rfl | rfl | rfl | rfl | rfl | rfl
        · exact Or.inl hnull
        · exact absurd hreq (by simp [Load.isRequired])
        · exact Or.inr (Or.inl hnull)
        · exact absurd hreq (by simp [Load.isRequired])
        · exact Or.inr (Or.inr hnull)
        · exact absurd hreq (by simp [Load.isRequired])
      rcases hrest with ⟨_, hres, hafter, hvc, _⟩ | ⟨g1, g3, g5, _⟩
      · refine ⟨hres, by rw [hafter]; rfl, ?_⟩
        simp [vendorCalls_append, vendorCalls_cons, vendorCalls_nil, Event.isVendorCall,
          hvcPrime, hvc]
      · rcases hzero with h0 | h0 | h0
        · exact absurd h0 g1
        · exact absurd h0 g3
        · exact absurd h0 g5

/-- C5, at a concrete input: the plugin opens but lacks `CSetAssetsDir`. -/
theorem Load_fails_on_missing_required_symbol_witness :
    (∃ d ∈ lookups (emitted World.start (Load brokenPluginPlatform {} World.start).2.2),
      Load.isRequired d.2.1 ∧ d.2.2 = 0) ∧
    (Load brokenPluginPlatform {} World.start).1 = false ∧
    IsAvailable (Load brokenPluginPlatform {} World.start).2.1 = false ∧
    vendorCalls (emitted World.start (Load brokenPluginPlatform {} World.start).2.2) = [] :=
  ⟨⟨(100, "CSetAssetsDir", 0), by decide, Or.inr (Or.inl rfl), rfl⟩,
   Load_fails_on_missing_required_symbol brokenPluginPlatform {} World.start
     ⟨(100, "CSetAssetsDir", 0), by decide, Or.inr (Or.inl rfl), rfl⟩⟩

/-- C6. From a loader that is not initialised, if during the `Load()` one of the
plugin's candidates opens, no lookup of a required symbol returns null and no
vendor call raises, then `Load()` returns true and `IsAvailable()` is true,
whatever the auxiliary opens and the optional lookups returned. -/
theorem Load_succeeds (P : Platform) (self : DynamicLoader) (w : World)
    (hunloaded : self.m_initialized = false)
    (hprimary : ∃ a ∈ opens (emitted w (Load P self w).2.2),
      a.1 ∈ candidates "libcgkit_plugin_offlineSupRes.so" Load.app_paths ∧ a.2.2 ≠ 0)
    (hrequired : ∀ d ∈ lookups (emitted w (Load P self w).2.2),
      Load.isRequired d.2.1 → d.2.2 ≠ 0)
    (hreturn : ∀ e ∈ emitted w (Load P self w).2.2, e.hasRaised = false) :
    (Load P self w).1 = true ∧ IsAvailable (Load P self w).2.1 = true := by
  obtain ⟨_, primed, evPrime, evPlugin, hev, hprime, handle, hwalk, hplugin⟩ :=
    Load_spec P self w hunloaded
  rw [hev] at hprimary hrequired hreturn
  obtain ⟨a, ha, hcand, hopened⟩ := hprimary
  rw [opens_append] at ha
  replace ha : a ∈ opens (evPrime ++ evPlugin) := by simpa [opens] using ha
  rw [opens_append] at ha
  have hlkPrime : lookups evPrime = [] := lookups_of_openPhase evPrime hprime.1
  rw [lookups_append, lookups_append, hlkPrime] at hrequired
  replace hrequired : ∀ d ∈ lookups evPlugin, Load.isRequired d.2.1 → d.2.2 ≠ 0 := by
    simpa [lookups] using hrequired
  have haPlugin : a ∈ opens evPlugin := by
    rcases List.mem_append.1 ha with ha | ha
    · exact absurd hcand (Load.prime_opens_not_plugin hprime a ha)
    · exact ha
  have hhandle : handle ≠ 0 := fun h0 => hopened (hwalk.null_iff.1 h0 a haPlugin)
  rcases hplugin with ⟨h0, _⟩ | ⟨_, f1, f2, f3, f4, f5, f6, hlk, hrest⟩
  · exact absurd h0 hhandle
  · rw [hlk] at hrequired
    have g1 : f1 ≠ 0 := hrequired (handle, "CInitialize", f1) (by simp) (Or.inl rfl)
    have g3 : f3 ≠ 0 := hrequired (handle, "CSetAssetsDir", f3) (by simp) (Or.inr (Or.inl rfl))
    have g5 : f5 ≠ 0 :=
      hrequired (handle, "CSuperSamplingSyncExecute", f5) (by simp) (Or.inr (Or.inr rfl))
    have hraised : ∀ e ∈ vendorCalls evPlugin, e.hasRaised = false := fun e he =>
      hreturn e (List.mem_append_right _ (List.mem_append_right _ (mem_of_mem_vendorCalls he)))
    rcases hrest with ⟨hzero, _⟩ | ⟨_, _, _, hinit⟩
    · rcases hzero with h0 | h0 | h0
      · exact absurd h0 g1
      · exact absurd h0 g3
      · exact absurd h0 g5
    · rcases hinit with ⟨hres, hafter, _, _⟩ | ⟨_, _, _, hvc | hvc⟩
      · refine ⟨hres, ?_⟩
        rw [hafter]
        simp [IsAvailable, g5]
      · have := hraised _ (by rw [hvc]; exact List.mem_cons_self _ _)
        simp [Event.hasRaised] at this
      · have := hraised _ (by rw [hvc]; exact List.mem_cons_of_mem _ (List.mem_cons_self _ _))
        simp [Event.hasRaised] at this

/-- C6, at a concrete input: a fresh loader on a platform with no auxiliary
library and a plugin that exports the three required symbols only. -/
theorem Load_succeeds_witness :
    (Load pluginPlatform {} World.start).1 = true ∧
    IsAvailable (Load pluginPlatform {} World.start).2.1 = true :=
  Load_succeeds pluginPlatform {} World.start rfl
    ⟨("/data/data/dev.eden.eden_emulator/lib/libcgkit_plugin_offlineSupRes.so",
      2, 100), by decide, by decide, by decide⟩
    (by decide) (by decide)

/-- C7. `Load()` on an initialised loader returns true, leaves every field of
the loader as it was, and does nothing but write one log line: no open, no
lookup, no close, no vendor call. -/
theorem Load_when_initialized (P : Platform) (self : DynamicLoader) (w : World)
    (hready : self.m_initialized = true) :
    (Load P self w).1 = true ∧ (Load P self w).2.1 = self ∧
    emitted w (Load P self w).2.2
      = [Event.log LogPriority.ANDROID_LOG_INFO LOG_TAG "Already loaded"] ∧
    opens (emitted w (Load P self w).2.2) = [] ∧
    lookups (emitted w (Load P self w).2.2) = [] ∧
    closes (emitted w (Load P self w).2.2) = [] ∧
    vendorCalls (emitted w (Load P self w).2.2) = [] := by
  rw [Load_eq_of_initialized P self w hready]
  simp [emitted, LOGI, World.emit, opens, lookups, closes, vendorCalls_cons, vendorCalls_nil,
    Event.isVendorCall]

/-- C7, at a concrete input: a second `Load()` right after a successful one. -/
theorem Load_when_initialized_witness :
    (Load pluginPlatform (Load pluginPlatform {} World.start).2.1
      (Load pluginPlatform {} World.start).2.2).1 = true ∧
    (Load pluginPlatform (Load pluginPlatform {} World.start).2.1
      (Load pluginPlatform {} World.start).2.2).2.1 = (Load pluginPlatform {} World.start).2.1 ∧
    opens (emitted (Load pluginPlatform {} World.start).2.2
      (Load pluginPlatform (Load pluginPlatform {} World.start).2.1
        (Load pluginPlatform {} World.start).2.2).2.2) = [] :=
  have h := Load_when_initialized pluginPlatform (Load pluginPlatform {} World.start).2.1
    (Load pluginPlatform {} World.start).2.2 (by decide)
  ⟨h.1, h.2.1, h.2.2.2.1⟩

/-! ## Claims about the execute operations -/

/-- C8. The execute operations fail fast: `SuperSample` returns false without a
vendor call whenever `IsAvailable()` is false, in particular on a freshly
constructed loader; `SuperSampleAsync` returns false without a vendor call
whenever `IsAvailable()` is false or the `CSuperSamplingAsyncExecute` pointer
is null. -/
theorem SuperSample_fails_fast :
    (∀ (P : Platform) (self : DynamicLoader) (inBuffer outBuffer : Ptr) (timeout : Int)
        (w : World), IsAvailable self = false →
      (SuperSample P self inBuffer outBuffer timeout w).1 = Outcome.returned false ∧
      vendorCalls (emitted w (SuperSample P self inBuffer outBuffer timeout w).2.2) = []) ∧
    (∀ (P : Platform) (inBuffer outBuffer : Ptr) (timeout : Int) (w : World),
      (SuperSample P {} inBuffer outBuffer timeout w).1 = Outcome.returned false ∧
      vendorCalls (emitted w (SuperSample P {} inBuffer outBuffer timeout w).2.2) = []) ∧
    (∀ (P : Platform) (self : DynamicLoader) (inBuffer outBuffer callback : Ptr) (w : World),
      IsAvailable self = false ∨ self.m_CSuperSamplingAsyncExecute = 0 →
      (SuperSampleAsync P self inBuffer outBuffer callback w).1 = Outcome.returned false ∧
      vendorCalls (emitted w (SuperSampleAsync P self inBuffer outBuffer callback w).2.2)
        = []) := by
  have hsync : ∀ (P : Platform) (self : DynamicLoader) (inBuffer outBuffer : Ptr)
      (timeout : Int) (w : World), IsAvailable self = false →
      (SuperSample P self inBuffer outBuffer timeout w).1 = Outcome.returned false ∧
      vendorCalls (emitted w (SuperSample P self inBuffer outBuffer timeout w).2.2) = [] := by
    intro P self inBuffer outBuffer timeout w h
    simp [SuperSample, h, emitted, LOGE, World.emit, vendorCalls_cons, vendorCalls_nil,
      Event.isVendorCall]
  refine ⟨hsync, fun P inBuffer outBuffer timeout w =>
    hsync P {} inBuffer outBuffer timeout w rfl, ?_⟩
  intro P self inBuffer outBuffer callback w h
  simp [SuperSampleAsync, h, emitted, LOGE, World.emit, vendorCalls_cons, vendorCalls_nil,
    Event.isVendorCall]

/-- C8, at concrete inputs: a fresh loader, and a ready loader without the
asynchronous entry point. -/
theorem SuperSample_fails_fast_witness :
    ((SuperSample pluginPlatform {} 1 2 5000 World.start).1 = Outcome.returned false ∧
      vendorCalls (emitted World.start
        (SuperSample pluginPlatform {} 1 2 5000 World.start).2.2) = []) ∧
    ((SuperSampleAsync pluginPlatform readyLoader 1 2 3 World.start).1
        = Outcome.returned false ∧
      vendorCalls (emitted World.start
        (SuperSampleAsync pluginPlatform readyLoader 1 2 3 World.start).2.2) = []) :=
  ⟨SuperSample_fails_fast.1 pluginPlatform {} 1 2 5000 World.start rfl,
   SuperSample_fails_fast.2.2 pluginPlatform readyLoader 1 2 3 World.start (Or.inr rfl)⟩

/-- C9. When `IsAvailable()` is true, `SuperSample(inBuffer, outBuffer, timeout)`
makes exactly one call, to the stored `CSuperSamplingSyncExecute` pointer with
exactly these three arguments, and returns what that call returned; so does
`SuperSampleAsync(inBuffer, outBuffer, callback)` with the stored
`CSuperSamplingAsyncExecute` pointer when that pointer is not null. -/
theorem SuperSample_passes_through :
    (∀ (P : Platform) (self : DynamicLoader) (inBuffer outBuffer : Ptr) (timeout : Int)
        (w : World), IsAvailable self = true →
      emitted w (SuperSample P self inBuffer outBuffer timeout w).2.2
        = [Event.call_sync self.m_CSuperSamplingSyncExecute inBuffer outBuffer timeout
            (SuperSample P self inBuffer outBuffer timeout w).1] ∧
      (SuperSample P self inBuffer outBuffer timeout w).1
        = P.invoke_sync w.trace self.m_CSuperSamplingSyncExecute inBuffer outBuffer timeout) ∧
    (∀ (P : Platform) (self : DynamicLoader) (inBuffer outBuffer callback : Ptr) (w : World),
      IsAvailable self = true → self.m_CSuperSamplingAsyncExecute ≠ 0 →
      emitted w (SuperSampleAsync P self inBuffer outBuffer callback w).2.2
        = [Event.call_async self.m_CSuperSamplingAsyncExecute inBuffer outBuffer callback
            (SuperSampleAsync P self inBuffer outBuffer callback w).1] ∧
      (SuperSampleAsync P self inBuffer outBuffer callback w).1
        = P.invoke_async w.trace self.m_CSuperSamplingAsyncExecute inBuffer outBuffer
            callback) := by
  refine ⟨?_, ?_⟩
  · intro P self inBuffer outBuffer timeout w h
    simp [SuperSample, h, emitted, call_sync, World.emit]
  · intro P self inBuffer outBuffer callback w h hasync
    simp [SuperSampleAsync, h, hasync, emitted, call_async, World.emit]

/-- C9, at a concrete input: the ready loader passes `(1, 2, 5000)` to the
function at address 205 and returns its answer. -/
theorem SuperSample_passes_through_witness :
    emitted World.start (SuperSample pluginPlatform readyLoader 1 2 5000 World.start).2.2
      = [Event.call_sync 205 1 2 5000 (Outcome.returned true)] ∧
    (SuperSample pluginPlatform readyLoader 1 2 5000 World.start).1 = Outcome.returned true :=
  SuperSample_passes_through.1 pluginPlatform readyLoader 1 2 5000 World.start rfl

/-- C10. `SuperSample` and `SuperSampleAsync` leave every field of the loader as
it was, for every loader state and whatever the vendor call does (return true,
return false, raise); so `IsAvailable()` is the same after the call as before. -/
theorem SuperSample_preserves_loader (P : Platform) (self : DynamicLoader)
    (inBuffer outBuffer callback : Ptr) (timeout : Int) (w : World) :
    (SuperSample P self inBuffer outBuffer timeout w).2.1 = self ∧
    (SuperSampleAsync P self inBuffer outBuffer callback w).2.1 = self ∧
    IsAvailable (SuperSample P self inBuffer outBuffer timeout w).2.1 = IsAvailable self ∧
    IsAvailable (SuperSampleAsync P self inBuffer outBuffer callback w).2.1
      = IsAvailable self := by
  have hsync : (SuperSample P self inBuffer outBuffer timeout w).2.1 = self := by
    unfold SuperSample
    split <;> rfl
  have hasync : (SuperSampleAsync P self inBuffer outBuffer callback w).2.1 = self := by
    unfold SuperSampleAsync
    split <;> rfl
  exact ⟨hsync, hasync, by rw [hsync], by rw [hasync]⟩

/-! ## The opens of a `Load` -/

/-- The opens of a `Load()` that passes the re-entry guard: the three walks of
step 1 followed by the walk for the plugin. -/
theorem Load_opens (P : Platform) (self : DynamicLoader) (w : World)
    (h : self.m_initialized = false) :
    ∃ (igs_handle ai_handle ai_infra_handle handle : Ptr)
      (igs ai ai_infra plugin : List (String × Nat × Ptr)),
      opens (emitted w (Load P self w).2.2) = igs ++ (ai ++ (ai_infra ++ plugin)) ∧
      Walk (candidates "libigs_client.so" Load.system_paths)
        (P.RTLD_NOW ||| P.RTLD_GLOBAL) igs_handle igs ∧
      Walk (candidates "libai_client.so" Load.system_paths)
        (P.RTLD_NOW ||| P.RTLD_GLOBAL) ai_handle ai ∧
      Walk (candidates "libai_infra.so" Load.system_paths)
        (P.RTLD_NOW ||| P.RTLD_GLOBAL) ai_infra_handle ai_infra ∧
      Walk (candidates "libcgkit_plugin_offlineSupRes.so" Load.app_paths)
        (P.RTLD_NOW ||| P.RTLD_LOCAL) handle plugin := by
  obtain ⟨_, primed, evPrime, evPlugin, hev, hprime, handle, hwalk, _⟩ := Load_spec P self w h
  obtain ⟨_, r1, r2, r3, a1, a2, a3, hopens, hw1, hw2, hw3, _⟩ := hprime
  refine ⟨r1, r2, r3, handle, a1, a2, a3, opens evPlugin, ?_, hw1, hw2, hw3, hwalk⟩
  rw [hev, opens_append, opens_append, hopens]
  simp [opens]

/-- C14. Priming never aborts the session: in every `Load()` that passes the
re-entry guard, whatever the auxiliary opens return, the opens are a run of
attempts for the three auxiliary libraries (none of them a candidate for the
plugin) followed by a non-empty run of attempts for the plugin that starts
with the bare name `libcgkit_plugin_offlineSupRes.so`. -/
theorem Load_attempts_plugin_after_priming (P : Platform) (self : DynamicLoader) (w : World)
    (hunloaded : self.m_initialized = false) :
    ∃ aux plugin : List (String × Nat × Ptr),
      opens (emitted w (Load P self w).2.2) = aux ++ plugin ∧
      (∀ a ∈ aux, a.1 ∈ candidates "libigs_client.so" Load.system_paths ++
        (candidates "libai_client.so" Load.system_paths ++
          candidates "libai_infra.so" Load.system_paths)) ∧
      (∀ a ∈ aux, a.1 ∉ candidates "libcgkit_plugin_offlineSupRes.so" Load.app_paths) ∧
      (plugin.map (fun a => a.1)).head? = some "libcgkit_plugin_offlineSupRes.so" ∧
      (∀ a ∈ plugin, a.1 ∈ candidates "libcgkit_plugin_offlineSupRes.so" Load.app_paths) := by
  obtain ⟨r1, r2, r3, handle, a1, a2, a3, plugin, hopens, hw1, hw2, hw3, hw4⟩ :=
    Load_opens P self w hunloaded
  have haux : ∀ a ∈ a1 ++ (a2 ++ a3),
      a.1 ∈ candidates "libigs_client.so" Load.system_paths ++
        (candidates "libai_client.so" Load.system_paths ++
          candidates "libai_infra.so" Load.system_paths) := by
    intro a ha
    rcases List.mem_append.1 ha with ha | ha
    · exact List.mem_append_left _ (hw1.mem a ha).1
    · rcases List.mem_append.1 ha with ha | ha
      · exact List.mem_append_right _ (List.mem_append_left _ (hw2.mem a ha).1)
      · exact List.mem_append_right _ (List.mem_append_right _ (hw3.mem a ha).1)
  have hdisjoint : ∀ c ∈ candidates "libigs_client.so" Load.system_paths ++
      (candidates "libai_client.so" Load.system_paths ++
        candidates "libai_infra.so" Load.system_paths),
      c ∉ candidates "libcgkit_plugin_offlineSupRes.so" Load.app_paths := by decide
  refine ⟨a1 ++ (a2 ++ a3), plugin, ?_, haux, fun a ha => hdisjoint a.1 (haux a ha),
    hw4.head, fun a ha => (hw4.mem a ha).1⟩
  rw [hopens]
  simp only [List.append_assoc]

/-- C14, at a concrete input: a fresh loader on a platform where no library
opens at all. -/
theorem Load_attempts_plugin_after_priming_witness :
    ∃ aux plugin : List (String × Nat × Ptr),
      opens (emitted World.start (Load barePlatform {} World.start).2.2) = aux ++ plugin ∧
      (∀ a ∈ aux, a.1 ∈ candidates "libigs_client.so" Load.system_paths ++
        (candidates "libai_client.so" Load.system_paths ++
          candidates "libai_infra.so" Load.system_paths)) ∧
      (∀ a ∈ aux, a.1 ∉ candidates "libcgkit_plugin_offlineSupRes.so" Load.app_paths) ∧
      (plugin.map (fun a => a.1)).head? = some "libcgkit_plugin_offlineSupRes.so" ∧
      (∀ a ∈ plugin, a.1 ∈ candidates "libcgkit_plugin_offlineSupRes.so" Load.app_paths) :=
  Load_attempts_plugin_after_priming barePlatform {} World.start rfl

/-- C17. In every `Load()` that passes the re-entry guard the opens are four
runs of attempts, for `libigs_client.so`, `libai_client.so`, `libai_infra.so`
and the plugin, in that order; each run starts with the bare name of its
library whatever the other runs returned; every attempt for an auxiliary
library is made with the flags `RTLD_NOW | RTLD_GLOBAL` and every attempt for
the plugin with `RTLD_NOW | RTLD_LOCAL`. -/
theorem Load_sharing_modes (P : Platform) (self : DynamicLoader) (w : World)
    (hunloaded : self.m_initialized = false) :
    ∃ igs ai ai_infra plugin : List (String × Nat × Ptr),
      opens (emitted w (Load P self w).2.2) = igs ++ (ai ++ (ai_infra ++ plugin)) ∧
      (igs.map (fun a => a.1)).head? = some "libigs_client.so" ∧
      (∀ a ∈ igs, a.1 ∈ candidates "libigs_client.so" Load.system_paths ∧
        a.2.1 = P.RTLD_NOW ||| P.RTLD_GLOBAL) ∧
      (ai.map (fun a => a.1)).head? = some "libai_client.so" ∧
      (∀ a ∈ ai, a.1 ∈ candidates "libai_client.so" Load.system_paths ∧
        a.2.1 = P.RTLD_NOW ||| P.RTLD_GLOBAL) ∧
      (ai_infra.map (fun a => a.1)).head? = some "libai_infra.so" ∧
      (∀ a ∈ ai_infra, a.1 ∈ candidates "libai_infra.so" Load.system_paths ∧
        a.2.1 = P.RTLD_NOW ||| P.RTLD_GLOBAL) ∧
      (plugin.map (fun a => a.1)).head? = some "libcgkit_plugin_offlineSupRes.so" ∧
      (∀ a ∈ plugin, a.1 ∈ candidates "libcgkit_plugin_offlineSupRes.so" Load.app_paths ∧
        a.2.1 = P.RTLD_NOW ||| P.RTLD_LOCAL) := by
  obtain ⟨r1, r2, r3, handle, a1, a2, a3, plugin, hopens, hw1, hw2, hw3, hw4⟩ :=
    Load_opens P self w hunloaded
  exact ⟨a1, a2, a3, plugin, hopens, hw1.head, hw1.mem, hw2.head, hw2.mem, hw3.head, hw3.mem,
    hw4.head, hw4.mem⟩

/-- C17, at a concrete input: on `auxOnlyPlatform` (flags 2, 256 and 0) the three
auxiliary libraries open at once with the flags 258 and the three candidates
for the plugin are tried with the flags 2. -/
theorem Load_sharing_modes_witness :
    opens (emitted World.start (Load auxOnlyPlatform {} World.start).2.2)
      = [("libigs_client.so", 258, 10), ("libai_client.so", 258, 11),
         ("libai_infra.so", 258, 12), ("libcgkit_plugin_offlineSupRes.so", 2, 0),
         ("/data/app/~~*/dev.eden.eden_emulator*/lib/arm64/libcgkit_plugin_offlineSupRes.so",
          2, 0),
         ("/data/data/dev.eden.eden_emulator/lib/libcgkit_plugin_offlineSupRes.so", 2, 0)] ∧
    ∃ igs ai ai_infra plugin : List (String × Nat × Ptr),
      opens (emitted World.start (Load auxOnlyPlatform {} World.start).2.2)
        = igs ++ (ai ++ (ai_infra ++ plugin)) ∧
      (igs.map (fun a => a.1)).head? = some "libigs_client.so" ∧
      (ai.map (fun a => a.1)).head? = some "libai_client.so" ∧
      (ai_infra.map (fun a => a.1)).head? = some "libai_infra.so" ∧
      (plugin.map (fun a => a.1)).head? = some "libcgkit_plugin_offlineSupRes.so" :=
  ⟨by decide,
   (Load_sharing_modes auxOnlyPlatform {} World.start rfl).imp fun _ h =>
     h.imp fun _ h => h.imp fun _ h => h.imp fun _ h =>
       ⟨h.1, h.2.1, h.2.2.2.1, h.2.2.2.2.2.1, h.2.2.2.2.2.2.2.1⟩⟩

/-! ## Vendor initialisation that raises -/

theorem Event.isVendorCall_of_hasRaised {e : Event} (h : e.hasRaised = true) :
    e.isVendorCall = true := by
  cases e <;> simp_all [Event.hasRaised, Event.isVendorCall]

theorem mem_vendorCalls_of_hasRaised {e : Event} {ev : List Event} (he : e ∈ ev)
    (h : e.hasRaised = true) : e ∈ vendorCalls ev :=
  List.mem_filter.2 ⟨he, Event.isVendorCall_of_hasRaised h⟩

/-- A walk that ended with a non-null handle contains the attempt that returned it. -/
theorem Walk.mem_of_ne_zero {candidates : List String} {flags : Nat} {result : Ptr}
    {attempts : List (String × Nat × Ptr)} (hw : Walk candidates flags result attempts)
    (hne : result ≠ 0) : ∃ c ∈ candidates, (c, flags, result) ∈ attempts := by
  rcases hw with ⟨h0, _⟩ | ⟨_, pre, c, post, hc, hatt⟩
  · exact absurd h0 hne
  · exact ⟨c, by rw [hc]; simp, by rw [hatt]; simp⟩

/-- C15. If a vendor call raises during a `Load()` (the call of `CInitialize`,
or the call of `CSetAssetsDir` once `CInitialize` has returned: `Load()` makes
no other), then `Load()` returns false, `IsAvailable()` is false afterwards,
the handle the plugin was opened with has been passed to `dlclose`, and the
stored plugin handle, the six function pointers and the initialised flag are
all reset. -/
theorem Load_fails_when_init_raises (P : Platform) (self : DynamicLoader) (w : World)
    (hraise : ∃ e ∈ emitted w (Load P self w).2.2, e.hasRaised = true) :
    (Load P self w).1 = false ∧ IsAvailable (Load P self w).2.1 = false ∧
    (∃ a ∈ opens (emitted w (Load P self w).2.2),
      a.1 ∈ candidates "libcgkit_plugin_offlineSupRes.so" Load.app_paths ∧ a.2.2 ≠ 0 ∧
      a.2.2 ∈ closes (emitted w (Load P self w).2.2)) ∧
    (Load P self w).2.1.m_cgkit_handle = 0 ∧
    (Load P self w).2.1.m_CInitialize = 0 ∧
    DynamicLoader.m_CUninitialize (Load P self w).2.1 = 0 ∧
    (Load P self w).2.1.m_CSetAssetsDir = 0 ∧
    (Load P self w).2.1.m_CGetAssetsDir = 0 ∧
    (Load P self w).2.1.m_CSuperSamplingSyncExecute = 0 ∧
    (Load P self w).2.1.m_CSuperSamplingAsyncExecute = 0 ∧
    (Load P self w).2.1.m_initialized = false := by
  obtain ⟨e, he, hraised⟩ := hraise
  by_cases hinit : self.m_initialized = true
  · rw [Load_eq_of_initialized P self w hinit] at he
    simp only [emitted, LOGI, World.emit, List.drop_left, List.mem_singleton] at he
    rw [he] at hraised
    simp [Event.hasRaised] at hraised
  · have hfalse : self.m_initialized = false := by simpa using hinit
    obtain ⟨_, primed, evPrime, evPlugin, hev, hprime, handle, hwalk, hplugin⟩ :=
      Load_spec P self w hfalse
    have hvc : e ∈ vendorCalls (emitted w (Load P self w).2.2) :=
      mem_vendorCalls_of_hasRaised he hraised
    rw [hev, vendorCalls_append, vendorCalls_append,
      vendorCalls_of_openPhase evPrime hprime.1] at hvc
    replace hvc : e ∈ vendorCalls evPlugin := by
      simpa [vendorCalls_cons, vendorCalls_nil, Event.isVendorCall] using hvc
    have hclose : closes (emitted w (Load P self w).2.2) = closes evPlugin := by
      rw [hev, closes_append, closes_append, closes_of_openPhase evPrime hprime.1]
      simp [closes]
    have hopen : ∀ a ∈ opens evPlugin, a ∈ opens (emitted w (Load P self w).2.2) := by
      intro a ha
      rw [hev, opens_append, opens_append]
      exact List.mem_append_right _ (List.mem_append_right _ ha)
    rcases hplugin with ⟨_, _, _, _, hnone, _⟩ | ⟨hne, f1, f2, f3, f4, f5, f6, _, hrest⟩
    · rw [hnone] at hvc
      exact absurd hvc (List.not_mem_nil _)
    · rcases hrest with ⟨_, _, _, hnone, _⟩ | ⟨_, _, _, hinitsum⟩
      · rw [hnone] at hvc
        exact absurd hvc (List.not_mem_nil _)
      · rcases hinitsum with ⟨_, _, hcalls, _⟩ | ⟨hres, hafter, hcl, _⟩
        · rw [hcalls] at hvc
          simp only [List.mem_cons, List.mem_singleton, List.not_mem_nil, or_false] at hvc
          rcases hvc with rfl | rfl <;> simp [Event.hasRaised] at hraised
        · obtain ⟨c, hc, hmem⟩ := hwalk.mem_of_ne_zero hne
          refine ⟨hres, by rw [hafter]; rfl, ⟨_, hopen _ hmem, hc, hne, ?_⟩, ?_⟩
          · rw [hclose, hcl]
            simp [Unload.closed, hne]
          · rw [hafter]
            exact ⟨rfl, rfl, rfl, rfl, rfl, rfl, rfl, rfl⟩

/-- C15, at a concrete input: on a Huawei device whose `CSetAssetsDir` raises. -/
theorem Load_fails_when_init_raises_witness :
    (∃ e ∈ emitted World.start (Load raisingSetupPlatform {} World.start).2.2,
      e.hasRaised = true) ∧
    (Load raisingSetupPlatform {} World.start).1 = false ∧
    IsAvailable (Load raisingSetupPlatform {} World.start).2.1 = false ∧
    100 ∈ closes (emitted World.start (Load raisingSetupPlatform {} World.start).2.2) ∧
    (Load raisingSetupPlatform {} World.start).2.1 = {} :=
  have hraise : ∃ e ∈ emitted World.start (Load raisingSetupPlatform {} World.start).2.2,
      e.hasRaised = true :=
    ⟨Event.call_cstr 203 Load.assets_path Outcome.raised, by decide, rfl⟩
  have h := Load_fails_when_init_raises raisingSetupPlatform {} World.start hraise
  ⟨hraise, h.1, h.2.1, by decide, by decide⟩

/-! ## A `Load` that succeeds -/

/-- Step 4 of `Load()` when it returns true. -/
theorem Load.init_of_success (P : Platform) (self : DynamicLoader) (w : World)
    (hres : (Load.init P self w).1 = true) :
    (Load.init P self w).2.2.trace = w.trace ++
      [Event.call_void self.m_CInitialize (Outcome.returned ()),
       Event.log LogPriority.ANDROID_LOG_INFO LOG_TAG "CInitialize() completed",
       Event.call_cstr self.m_CSetAssetsDir Load.assets_path (Outcome.returned ()),
       Event.log LogPriority.ANDROID_LOG_INFO LOG_TAG
         ("CSetAssetsDir(" ++ Load.assets_path ++ ") completed"),
       Event.log LogPriority.ANDROID_LOG_INFO LOG_TAG
         "Huawei OSR plugin initialized successfully!"] ∧
    (Load.init P self w).2.1 = { self with m_initialized := true } := by
  cases hr1 : P.invoke_void w.trace self.m_CInitialize with
  | raised => simp [Load.init, call_void, hr1] at hres
  | returned u =>
    cases hr2 : P.invoke_cstr (w.trace ++ [Event.call_void self.m_CInitialize
        (Outcome.returned u), Event.log LogPriority.ANDROID_LOG_INFO LOG_TAG
          "CInitialize() completed"]) self.m_CSetAssetsDir Load.assets_path with
    | raised => simp [Load.init, call_void, call_cstr, LOGI, World.emit, hr1, hr2] at hres
    | returned u2 => simp [Load.init, call_void, call_cstr, LOGI, World.emit, hr1, hr2]

/-- Steps 3 and 4 of `Load()` when they return true. -/
theorem Load.resolve_of_success (P : Platform) (self : DynamicLoader) (w : World)
    (hres : (Load.resolve P self w).1 = true) :
    ∃ f1 f2 f3 f4 f5 f6 : Ptr, f1 ≠ 0 ∧ f3 ≠ 0 ∧ f5 ≠ 0 ∧
      (Load.resolve P self w).2.2.trace = w.trace ++
        Load.successTail self.m_cgkit_handle f1 f2 f3 f4 f5 f6 ∧
      (Load.resolve P self w).2.1 = { self with
        m_CInitialize := f1
        m_CUninitialize := f2
        m_CSetAssetsDir := f3
        m_CGetAssetsDir := f4
        m_CSuperSamplingSyncExecute := f5
        m_CSuperSamplingAsyncExecute := f6
        m_initialized := true } := by
  simp only [Load.resolve] at hres ⊢
  generalize hw1 : dlsym P self.m_cgkit_handle "CInitialize"
    (LOGI "Loading function pointers..." w) = s1 at hres ⊢
  generalize hw2 : dlsym P self.m_cgkit_handle "CUninitialize" s1.2 = s2 at hres ⊢
  generalize hw3 : dlsym P self.m_cgkit_handle "CSetAssetsDir" s2.2 = s3 at hres ⊢
  generalize hw4 : dlsym P self.m_cgkit_handle "CGetAssetsDir" s3.2 = s4 at hres ⊢
  generalize hw5 : dlsym P self.m_cgkit_handle "CSuperSamplingSyncExecute" s4.2 = s5 at hres ⊢
  generalize hw6 : dlsym P self.m_cgkit_handle "CSuperSamplingAsyncExecute" s5.2 = s6 at hres ⊢
  have ht : s6.2.trace = w.trace ++ [Event.log LogPriority.ANDROID_LOG_INFO LOG_TAG
      "Loading function pointers...",
      Event.dlsym self.m_cgkit_handle "CInitialize" s1.1,
      Event.dlsym self.m_cgkit_handle "CUninitialize" s2.1,
      Event.dlsym self.m_cgkit_handle "CSetAssetsDir" s3.1,
      Event.dlsym self.m_cgkit_handle "CGetAssetsDir" s4.1,
      Event.dlsym self.m_cgkit_handle "CSuperSamplingSyncExecute" s5.1,
      Event.dlsym self.m_cgkit_handle "CSuperSamplingAsyncExecute" s6.1] := by
    subst hw6 hw5 hw4 hw3 hw2 hw1
    simp [dlsym, LOGI, World.emit]
  clear hw1 hw2 hw3 hw4 hw5 hw6
  by_cases hreq : s1.1 = 0 ∨ s3.1 = 0 ∨ s5.1 = 0
  · rw [if_pos hreq] at hres
    simp at hres
  · rw [if_neg hreq] at hres ⊢
    obtain ⟨htr, hafter⟩ := Load.init_of_success P _ _ hres
    refine ⟨s1.1, s2.1, s3.1, s4.1, s5.1, s6.1, fun h0 => hreq (Or.inl h0),
      fun h0 => hreq (Or.inr (Or.inl h0)), fun h0 => hreq (Or.inr (Or.inr h0)), ?_, ?_⟩
    · rw [htr]
      simp [LOGI, World.emit, ht, Load.successTail]
    · rw [hafter]

/-- Steps 2 to 4 of `Load()` when they return true. -/
theorem Load.plugin_of_success (P : Platform) (self : DynamicLoader) (w : World)
    (hres : (Load.plugin P self w).1 = true) :
    ∃ (evL : List Event) (handle f1 f2 f3 f4 f5 f6 : Ptr),
      (∀ e ∈ evL, e.isOpenPhase = true) ∧ handle ≠ 0 ∧ f1 ≠ 0 ∧ f3 ≠ 0 ∧ f5 ≠ 0 ∧
      (Load.plugin P self w).2.2.trace = w.trace ++ (evL ++
        Load.successTail handle f1 f2 f3 f4 f5 f6) ∧
      (Load.plugin P self w).2.1 = { self with
        m_cgkit_handle := handle
        m_CInitialize := f1
        m_CUninitialize := f2
        m_CSetAssetsDir := f3
        m_CGetAssetsDir := f4
        m_CSuperSamplingSyncExecute := f5
        m_CSuperSamplingAsyncExecute := f6
        m_initialized := true } := by
  have hphase := (TryLoadLibrary_emitted P "libcgkit_plugin_offlineSupRes.so" Load.app_paths 2
    false (LOGI "Namespace primed successfully, loading CGKit OSR plugin..." w)).1
  have htrace := TryLoadLibrary_trace P "libcgkit_plugin_offlineSupRes.so" Load.app_paths 2
    false (LOGI "Namespace primed successfully, loading CGKit OSR plugin..." w)
  simp only [Load.plugin] at hres ⊢
  generalize TryLoadLibrary P "libcgkit_plugin_offlineSupRes.so" Load.app_paths 2 false
    (LOGI "Namespace primed successfully, loading CGKit OSR plugin..." w) = loaded
    at hphase htrace hres ⊢
  generalize emitted (LOGI "Namespace primed successfully, loading CGKit OSR plugin..." w)
    loaded.2 = evL at hphase htrace
  simp only [LOGI, World.emit, List.append_assoc] at htrace
  by_cases hnull : loaded.1 = 0
  · rw [if_pos hnull] at hres
    simp at hres
  · rw [if_neg hnull] at hres ⊢
    obtain ⟨f1, f2, f3, f4, f5, f6, g1, g3, g5, htr, hafter⟩ :=
      Load.resolve_of_success P _ _ hres
    refine ⟨[Event.log LogPriority.ANDROID_LOG_INFO LOG_TAG
        "Namespace primed successfully, loading CGKit OSR plugin..."] ++ evL ++
        [Event.log LogPriority.ANDROID_LOG_INFO LOG_TAG "✓ CGKit plugin loaded successfully"],
      loaded.1, f1, f2, f3, f4, f5, f6, ?_, hnull, g1, g3, g5, ?_, ?_⟩
    · intro e he
      simp only [List.mem_append, List.mem_singleton] at he
      rcases he with (rfl | he) | rfl
      · rfl
      · exact hphase e he
      · rfl
    · rw [htr]
      simp [LOGI, World.emit, htrace]
    · rw [hafter]

/-- A `Load()` that passes the re-entry guard and returns true: open-phase
events, then the six lookups and the two vendor calls. -/
theorem Load_of_success (P : Platform) (self : DynamicLoader) (w : World)
    (h : self.m_initialized = false) (hres : (Load P self w).1 = true) :
    ∃ (pre : List Event) (handle f1 f2 f3 f4 f5 f6 : Ptr),
      (∀ e ∈ pre, e.isOpenPhase = true) ∧ handle ≠ 0 ∧ f1 ≠ 0 ∧ f3 ≠ 0 ∧ f5 ≠ 0 ∧
      emitted w (Load P self w).2.2 = pre ++ Load.successTail handle f1 f2 f3 f4 f5 f6 ∧
      (Load P self w).2.1.m_cgkit_handle = handle ∧
      (Load P self w).2.1.m_CInitialize = f1 ∧
      DynamicLoader.m_CUninitialize (Load P self w).2.1 = f2 ∧
      (Load P self w).2.1.m_CSetAssetsDir = f3 ∧
      (Load P self w).2.1.m_CGetAssetsDir = f4 ∧
      (Load P self w).2.1.m_CSuperSamplingSyncExecute = f5 ∧
      (Load P self w).2.1.m_CSuperSamplingAsyncExecute = f6 ∧
      (Load P self w).2.1.m_initialized = true := by
  obtain ⟨htr1, hphase1, _⟩ := Load.prime_spec P self
    (LOGI "Using OFFICIAL Huawei public libraries for namespace priming"
      (LOGI "Starting Huawei OSR library loading..." w))
  have hval : Load P self w = Load.plugin P
      (Load.prime P self
        (LOGI "Using OFFICIAL Huawei public libraries for namespace priming"
          (LOGI "Starting Huawei OSR library loading..." w))).1
      (Load.prime P self
        (LOGI "Using OFFICIAL Huawei public libraries for namespace priming"
          (LOGI "Starting Huawei OSR library loading..." w))).2 := by
    simp [Load, h]
  rw [hval] at hres ⊢
  generalize Load.prime P self
      (LOGI "Using OFFICIAL Huawei public libraries for namespace priming"
        (LOGI "Starting Huawei OSR library loading..." w)) = primed at htr1 hphase1 hres ⊢
  generalize emitted (LOGI "Using OFFICIAL Huawei public libraries for namespace priming"
        (LOGI "Starting Huawei OSR library loading..." w)) primed.2 = evPrime at htr1 hphase1
  obtain ⟨evL, handle, f1, f2, f3, f4, f5, f6, hphaseL, hne, g1, g3, g5, htr, hafter⟩ :=
    Load.plugin_of_success P primed.1 primed.2 hres
  simp only [LOGI, World.emit, List.append_assoc] at htr1
  rw [htr1] at htr
  simp only [List.append_assoc] at htr
  rw [emitted_of_trace_eq htr, hafter]
  refine ⟨[Event.log LogPriority.ANDROID_LOG_INFO LOG_TAG
        "Starting Huawei OSR library loading...",
      Event.log LogPriority.ANDROID_LOG_INFO LOG_TAG
        "Using OFFICIAL Huawei public libraries for namespace priming"] ++ (evPrime ++ evL),
    handle, f1, f2, f3, f4, f5, f6, ?_, hne, g1, g3, g5, by simp,
    rfl, rfl, rfl, rfl, rfl, rfl, rfl, rfl⟩
  intro e he
  simp only [List.mem_append, List.mem_cons, List.mem_singleton, List.not_mem_nil,
    or_false] at he
  rcases he with (rfl | rfl) | he | he
  · rfl
  · rfl
  · exact hphase1 e he
  · exact hphaseL e he

/-- After a `Load()` that passes the re-entry guard the initialised flag is set
exactly when `Load()` returned true. -/
theorem Load_initialized_iff (P : Platform) (self : DynamicLoader) (w : World)
    (h : self.m_initialized = false) :
    (Load P self w).2.1.m_initialized = true ↔ (Load P self w).1 = true := by
  obtain ⟨_, primed, evPrime, evPlugin, _, _, handle, _, hplugin⟩ := Load_spec P self w h
  rcases hplugin with ⟨_, hres, hafter, _⟩ | ⟨_, f1, f2, f3, f4, f5, f6, _, hrest⟩
  · simp [hres, hafter]
  · rcases hrest with ⟨_, hres, hafter, _⟩ | ⟨_, _, _, hinit⟩
    · simp [hres, hafter]
    · rcases hinit with ⟨hres, hafter, _⟩ | ⟨hres, hafter, _⟩
      · simp [hres, hafter]
      · simp [hres, hafter]

/-- C18. In a `Load()` that passes the re-entry guard, the initialised flag is
set afterwards only if `Load()` returned true; and when it returned true, the
events of the run end with the six lookups on the plugin handle followed by the
call of the resolved `CInitialize` and then the call of the resolved
`CSetAssetsDir` with the assets directory, both returning: these two are the
only vendor calls, no lookup follows them and none precedes the six. -/
theorem Load_vendor_calls_on_success (P : Platform) (self : DynamicLoader) (w : World)
    (hunloaded : self.m_initialized = false) :
    ((Load P self w).2.1.m_initialized = true → (Load P self w).1 = true) ∧
    ((Load P self w).1 = true →
      ∃ (pre : List Event) (handle f1 f2 f3 f4 f5 f6 : Ptr),
        emitted w (Load P self w).2.2 = pre ++ Load.successTail handle f1 f2 f3 f4 f5 f6 ∧
        lookups pre = [] ∧ vendorCalls pre = [] ∧
        lookups (emitted w (Load P self w).2.2)
          = [(handle, "CInitialize", f1), (handle, "CUninitialize", f2),
             (handle, "CSetAssetsDir", f3), (handle, "CGetAssetsDir", f4),
             (handle, "CSuperSamplingSyncExecute", f5),
             (handle, "CSuperSamplingAsyncExecute", f6)] ∧
        vendorCalls (emitted w (Load P self w).2.2)
          = [Event.call_void f1 (Outcome.returned ()),
             Event.call_cstr f3 "/data/data/dev.eden.eden_emulator/assets/huawei_osr"
               (Outcome.returned ())] ∧
        (Load P self w).2.1.m_initialized = true) := by
  refine ⟨(Load_initialized_iff P self w hunloaded).1, fun hsuccess => ?_⟩
  obtain ⟨pre, handle, f1, f2, f3, f4, f5, f6, hphase, _, _, _, _, hev, _, _, _, _, _, _, _,
    hinit⟩ := Load_of_success P self w hunloaded hsuccess
  have hl : lookups pre = [] := lookups_of_openPhase pre hphase
  have hv : vendorCalls pre = [] := vendorCalls_of_openPhase pre hphase
  refine ⟨pre, handle, f1, f2, f3, f4, f5, f6, hev, hl, hv, ?_, ?_, hinit⟩
  · rw [hev, lookups_append, hl]
    rfl
  · rw [hev, vendorCalls_append, hv]
    rfl

/-- C18, at a concrete input: a fresh loader on a Huawei device. -/
theorem Load_vendor_calls_on_success_witness :
    (Load huaweiPlatform {} World.start).1 = true ∧
    ∃ (pre : List Event) (handle f1 f2 f3 f4 f5 f6 : Ptr),
      emitted World.start (Load huaweiPlatform {} World.start).2.2
        = pre ++ Load.successTail handle f1 f2 f3 f4 f5 f6 ∧
      lookups pre = [] ∧ vendorCalls pre = [] ∧
      lookups (emitted World.start (Load huaweiPlatform {} World.start).2.2)
        = [(handle, "CInitialize", f1), (handle, "CUninitialize", f2),
           (handle, "CSetAssetsDir", f3), (handle, "CGetAssetsDir", f4),
           (handle, "CSuperSamplingSyncExecute", f5),
           (handle, "CSuperSamplingAsyncExecute", f6)] ∧
      vendorCalls (emitted World.start (Load huaweiPlatform {} World.start).2.2)
        = [Event.call_void f1 (Outcome.returned ()),
           Event.call_cstr f3 "/data/data/dev.eden.eden_emulator/assets/huawei_osr"
             (Outcome.returned ())] ∧
      (Load huaweiPlatform {} World.start).2.1.m_initialized = true :=
  ⟨by decide, (Load_vendor_calls_on_success huaweiPlatform {} World.start rfl).2 (by decide)⟩

/-! ## `Unload` from the initialised state -/

/-- C19. `Unload()` on an initialised loader: its events are a first part, which
is the call of `CUninitialize` with its log line when that pointer is not null
and nothing otherwise, followed by the closes of the stored handles.  So
`CUninitialize` is called exactly once or not at all, before any close, and the
closes are the same whether the call returns or raises. -/
theorem Unload_when_initialized (P : Platform) (self : DynamicLoader) (w : World)
    (hready : self.m_initialized = true) :
    ∃ uninit : List Event,
      emitted w (Unload P self w).2 = uninit ++ Unload.closing self ∧
      vendorCalls uninit
        = (if self.m_CUninitialize ≠ 0 then
            [Event.call_void self.m_CUninitialize (P.invoke_void w.trace self.m_CUninitialize)]
           else []) ∧
      closes uninit = [] ∧
      vendorCalls (Unload.closing self) = [] ∧
      closes (Unload.closing self) = Unload.closed self ∧
      vendorCalls (emitted w (Unload P self w).2)
        = (if self.m_CUninitialize ≠ 0 then
            [Event.call_void self.m_CUninitialize (P.invoke_void w.trace self.m_CUninitialize)]
           else []) ∧
      closes (emitted w (Unload P self w).2) = Unload.closed self := by
  obtain ⟨_, _, hcv, hcc⟩ := Unload.closing_projections self
  have key : ∃ uninit : List Event,
      emitted w (Unload P self w).2 = uninit ++ Unload.closing self ∧
      vendorCalls uninit
        = (if self.m_CUninitialize ≠ 0 then
            [Event.call_void self.m_CUninitialize (P.invoke_void w.trace self.m_CUninitialize)]
           else []) ∧
      closes uninit = [] := by
    rw [Unload_eq]
    by_cases hu : self.m_CUninitialize = 0
    · exact ⟨[], by simp [emitted, hu, Unload.closing], by simp [hu, vendorCalls_nil], rfl⟩
    · refine ⟨[Event.call_void self.m_CUninitialize
          (P.invoke_void w.trace self.m_CUninitialize),
        (match P.invoke_void w.trace self.m_CUninitialize with
          | Outcome.returned _ =>
            Event.log LogPriority.ANDROID_LOG_INFO LOG_TAG "CUninitialize() completed"
          | Outcome.raised =>
            Event.log LogPriority.ANDROID_LOG_ERROR LOG_TAG
              "Exception during uninitialization")], ?_, ?_, ?_⟩
      · simp [emitted, hu, hready, Unload.closing]
      · cases P.invoke_void w.trace self.m_CUninitialize <;>
          simp [hu, vendorCalls_cons, vendorCalls_nil, Event.isVendorCall]
      · cases P.invoke_void w.trace self.m_CUninitialize <;> simp [closes]
  obtain ⟨uninit, hev, hvu, hcu⟩ := key
  refine ⟨uninit, hev, hvu, hcu, hcv, hcc, ?_, ?_⟩
  · rw [hev, vendorCalls_append, hcv, hvu, List.append_nil]
  · rw [hev, closes_append, hcu, hcc, List.nil_append]

/-- C19, at a concrete input: the loader of a Huawei device whose
`CUninitialize` raises still closes the plugin and `libigs_client.so`. -/
theorem Unload_when_initialized_witness :
    emitted World.start (Unload raisingUninitPlatform huaweiLoader World.start).2
      = [Event.call_void 202 Outcome.raised,
         Event.log LogPriority.ANDROID_LOG_ERROR LOG_TAG "Exception during uninitialization",
         Event.dlclose 100,
         Event.log LogPriority.ANDROID_LOG_INFO LOG_TAG "CGKit plugin unloaded",
         Event.dlclose 10,
         Event.log LogPriority.ANDROID_LOG_INFO LOG_TAG "iGraphicsCore unloaded"] ∧
    ∃ uninit : List Event,
      emitted World.start (Unload raisingUninitPlatform huaweiLoader World.start).2
        = uninit ++ Unload.closing huaweiLoader ∧
      closes uninit = [] ∧ vendorCalls (Unload.closing huaweiLoader) = [] ∧
      closes (emitted World.start (Unload raisingUninitPlatform huaweiLoader World.start).2)
        = [100, 10] :=
  ⟨by decide,
   (Unload_when_initialized raisingUninitPlatform huaweiLoader World.start rfl).imp
     fun _ h => ⟨h.1, h.2.2.1, h.2.2.2.1, h.2.2.2.2.2.2⟩⟩

/-! ## Handles that are never closed -/

/-- C11, evaluated on a Huawei device: `Load()` succeeds after four successful
opens, with the handles 10 (`libigs_client.so`), 11 (`libai_client.so`),
12 (`libai_infra.so`) and 100 (the plugin); over `Load()` and the `Unload()`
that follows, only 100 and 10 are passed to `dlclose`. -/
theorem Load_Unload_leaves_auxiliary_handles_open :
    (Load huaweiPlatform {} World.start).1 = true ∧
    openedHandles (opens (emitted World.start
      (Unload huaweiPlatform (Load huaweiPlatform {} World.start).2.1
        (Load huaweiPlatform {} World.start).2.2).2)) = [10, 11, 12, 100] ∧
    closes (emitted World.start
      (Unload huaweiPlatform (Load huaweiPlatform {} World.start).2.1
        (Load huaweiPlatform {} World.start).2.2).2) = [100, 10] := by
  decide

/-- C12, evaluated on a Huawei device without the plugin: `Load()` returns false
and `IsAvailable()` is false afterwards, but of the three handles it opened
(10, 11 and 12) only 10 has been passed to `dlclose` when it returns. -/
theorem Load_failure_leaves_auxiliary_handles_open :
    (Load auxOnlyPlatform {} World.start).1 = false ∧
    IsAvailable (Load auxOnlyPlatform {} World.start).2.1 = false ∧
    openedHandles (opens (emitted World.start (Load auxOnlyPlatform {} World.start).2.2))
      = [10, 11, 12] ∧
    closes (emitted World.start (Load auxOnlyPlatform {} World.start).2.2) = [10] := by
  decide

/-- C13, evaluated on a Huawei device: the successful opens of `Load()` are 10,
11, 12, 100 in that order, and the closes of the `Unload()` that follows are
100, 10: the reverse order for the two handles that are closed, without the
closes of 12 and 11. -/
theorem Unload_close_log_is_not_reverse_of_opens :
    openedHandles (opens (emitted World.start (Load huaweiPlatform {} World.start).2.2))
      = [10, 11, 12, 100] ∧
    closes (emitted (Load huaweiPlatform {} World.start).2.2
      (Unload huaweiPlatform (Load huaweiPlatform {} World.start).2.1
        (Load huaweiPlatform {} World.start).2.2).2) = [100, 10] ∧
    closes (emitted (Load huaweiPlatform {} World.start).2.2
      (Unload huaweiPlatform (Load huaweiPlatform {} World.start).2.1
        (Load huaweiPlatform {} World.start).2.2).2)
      ≠ (openedHandles (opens (emitted World.start
          (Load huaweiPlatform {} World.start).2.2))).reverse := by
  decide

/-! ## The last error in the final report of `TryLoadLibrary` -/

/-- Log lines and error queries never make the check `clearedAtOpens` fail. -/
theorem clearStep_of_no_opens : ∀ (evs : List Event) (s : Bool × Bool),
    (∀ e ∈ evs, e.isOpenPhase = true) → opens evs = [] →
    (evs.foldl Event.clearStep s).1 = s.1
  | [], _, _, _ => rfl
  | e :: rest, (ok, cleared), hphase, hopens => by
    have hrest : ∀ e ∈ rest, e.isOpenPhase = true :=
      fun e he => hphase e (List.mem_cons_of_mem _ he)
    cases e with
    | log prio tag msg =>
      exact clearStep_of_no_opens rest (ok, cleared) hrest (by simpa [opens] using hopens)
    | dlerror result =>
      exact clearStep_of_no_opens rest (ok, true) hrest (by simpa [opens] using hopens)
    | dlopen filename flags result => simp [opens] at hopens
    | dlsym handle symbol result => simpa [Event.isOpenPhase] using hphase _ (List.mem_cons_self _ _)
    | dlclose handle => simpa [Event.isOpenPhase] using hphase _ (List.mem_cons_self _ _)
    | call_void fn result => simpa [Event.isOpenPhase] using hphase _ (List.mem_cons_self _ _)
    | call_cstr fn arg result =>
      simpa [Event.isOpenPhase] using hphase _ (List.mem_cons_self _ _)
    | call_sync fn a b t result =>
      simpa [Event.isOpenPhase] using hphase _ (List.mem_cons_self _ _)
    | call_async fn a b c result =>
      simpa [Event.isOpenPhase] using hphase _ (List.mem_cons_self _ _)

/-- Every open of the search loop is made right after a `dlerror()`. -/
theorem TryLoadLibrary.search_cleared (P : Platform) (name : String) (flags : Nat) :
    ∀ (paths : List String) (w : World), ∃ evs,
      (TryLoadLibrary.search P name flags paths w).2.trace = w.trace ++ evs ∧
      ∀ s : Bool × Bool, (evs.foldl Event.clearStep s).1 = s.1
  | [], w => ⟨[], by simp [TryLoadLibrary.search]⟩
  | p :: rest, w => by
    by_cases hopen : P.dlopen (w.trace ++ [Event.dlerror w.dl_error]) (p ++ "/" ++ name) flags = 0
    · have hstep : TryLoadLibrary.search P name flags (p :: rest) w =
          TryLoadLibrary.search P name flags rest
            (LOGW ("Failed to load " ++ name ++ " from " ++ p ++ ": "
              ++ (dlerror (dlopen P (p ++ "/" ++ name) flags (dlerror w).2).2).1.getD
                "unknown error")
              (dlerror (dlopen P (p ++ "/" ++ name) flags (dlerror w).2).2).2) := by
        simp [TryLoadLibrary.search, dlopen, dlerror, hopen]
      obtain ⟨evs, htrace, hclear⟩ :=
        TryLoadLibrary.search_cleared P name flags rest
        (LOGW ("Failed to load " ++ name ++ " from " ++ p ++ ": "
          ++ (dlerror (dlopen P (p ++ "/" ++ name) flags (dlerror w).2).2).1.getD "unknown error")
          (dlerror (dlopen P (p ++ "/" ++ name) flags (dlerror w).2).2).2)
      rw [hstep]
      refine ⟨[Event.dlerror w.dl_error, Event.dlopen (p ++ "/" ++ name) flags 0,
          Event.dlerror (some (P.dlopen_error (w.trace ++ [Event.dlerror w.dl_error])
            (p ++ "/" ++ name) flags)),
          Event.log LogPriority.ANDROID_LOG_WARN LOG_TAG
            ("Failed to load " ++ name ++ " from " ++ p ++ ": "
              ++ (dlerror (dlopen P (p ++ "/" ++ name) flags (dlerror w).2).2).1.getD
                "unknown error")] ++ evs, ?_, ?_⟩
      · rw [htrace]
        simp [LOGW, World.emit, dlopen, dlerror, hopen]
      · rintro ⟨ok, cleared⟩
        simp [List.foldl_append, Event.clearStep, hclear]
    · refine ⟨[Event.dlerror w.dl_error,
          Event.dlopen (p ++ "/" ++ name) flags
            (P.dlopen (w.trace ++ [Event.dlerror w.dl_error]) (p ++ "/" ++ name) flags),
          Event.log LogPriority.ANDROID_LOG_INFO LOG_TAG ("✓ Loaded " ++ name ++ " from " ++ p)],
        ?_, ?_⟩
      · simp [TryLoadLibrary.search, dlopen, dlerror, hopen, LOGI, World.emit]
      · rintro ⟨ok, cleared⟩
        simp [Event.clearStep]

/-- Every open of `TryLoadLibrary.attempt` is made right after a `dlerror()`. -/
theorem TryLoadLibrary.attempt_cleared (P : Platform) (name : String) (flags : Nat)
    (search_paths : List String) (num_paths : Int) (w : World) : ∃ evs,
      (TryLoadLibrary.attempt P name flags search_paths num_paths w).2.trace = w.trace ++ evs ∧
      ∀ s : Bool × Bool, (evs.foldl Event.clearStep s).1 = s.1 := by
  by_cases hopen : P.dlopen (w.trace ++ [Event.dlerror w.dl_error]) name flags = 0
  · have key : ∃ (w1 : World) (front : List Event), w1.trace = w.trace ++ front ∧
        (∀ s : Bool × Bool, (front.foldl Event.clearStep s).1 = s.1) ∧
        TryLoadLibrary.attempt P name flags search_paths num_paths w =
          match (TryLoadLibrary.search P name flags
              (search_paths.take num_paths.toNat) w1).1 with
          | some h => (h, (TryLoadLibrary.search P name flags
              (search_paths.take num_paths.toNat) w1).2)
          | none => (0, (search_paths.take num_paths.toNat).foldl
              (fun w search_path => LOGE ("     - " ++ search_path) w)
              (LOGE "     - System default paths" (LOGE "   Searched paths:"
                (LOGE ("   Last error: " ++ (dlerror (TryLoadLibrary.search P name flags
                    (search_paths.take num_paths.toNat) w1).2).1.getD "unknown error")
                  (LOGE ("❌ FAILED to load " ++ name ++ " from any location")
                    (dlerror (TryLoadLibrary.search P name flags
                      (search_paths.take num_paths.toNat) w1).2).2))))) :=
      ⟨LOGW ("Failed to load " ++ name ++ " from system paths: "
          ++ (dlerror (dlopen P name flags (dlerror w).2).2).1.getD "unknown error")
          (dlerror (dlopen P name flags (dlerror w).2).2).2,
        [Event.dlerror w.dl_error, Event.dlopen name flags 0,
          Event.dlerror (some (P.dlopen_error (w.trace ++ [Event.dlerror w.dl_error])
            name flags)),
          Event.log LogPriority.ANDROID_LOG_WARN LOG_TAG
            ("Failed to load " ++ name ++ " from system paths: "
              ++ (dlerror (dlopen P name flags (dlerror w).2).2).1.getD "unknown error")],
        by simp [LOGW, World.emit, dlopen, dlerror, hopen],
        by rintro ⟨ok, cleared⟩
           simp [Event.clearStep],
        by simp only [TryLoadLibrary.attempt]
           rw [if_neg (by simp [dlopen, dlerror, hopen])]⟩
    obtain ⟨w1, front, hfront, hfrontClear, hval⟩ := key
    obtain ⟨evs, htrace, hclear⟩ := TryLoadLibrary.search_cleared P name flags
      (search_paths.take num_paths.toNat) w1
    rw [hval]
    generalize TryLoadLibrary.search P name flags (search_paths.take num_paths.toNat) w1 = found
      at htrace ⊢
    obtain ⟨r, w2⟩ := found
    simp only at htrace ⊢
    have hmid : w2.trace = w.trace ++ (front ++ evs) := by
      rw [htrace, hfront, List.append_assoc]
    cases r with
    | some h =>
      refine ⟨front ++ evs, hmid, fun s => ?_⟩
      rw [List.foldl_append, hclear, hfrontClear]
    | none =>
      obtain ⟨revs, hrtrace, hrphase, hropens⟩ := TryLoadLibrary.report_spec
        (search_paths.take num_paths.toNat)
        (LOGE "     - System default paths" (LOGE "   Searched paths:"
          (LOGE ("   Last error: " ++ (dlerror w2).1.getD "unknown error")
            (LOGE ("❌ FAILED to load " ++ name ++ " from any location") (dlerror w2).2))))
      refine ⟨(front ++ evs) ++ ([Event.dlerror w2.dl_error,
          Event.log LogPriority.ANDROID_LOG_ERROR LOG_TAG
            ("❌ FAILED to load " ++ name ++ " from any location"),
          Event.log LogPriority.ANDROID_LOG_ERROR LOG_TAG
            ("   Last error: " ++ (dlerror w2).1.getD "unknown error"),
          Event.log LogPriority.ANDROID_LOG_ERROR LOG_TAG "   Searched paths:",
          Event.log LogPriority.ANDROID_LOG_ERROR LOG_TAG "     - System default paths"]
          ++ revs), ?_, fun s => ?_⟩
      · rw [hrtrace]
        simp [LOGE, World.emit, dlerror, hmid]
      · rw [List.foldl_append, List.foldl_append, List.foldl_append,
          clearStep_of_no_opens revs _ hrphase hropens]
        have h5 : ∀ t : Bool × Bool, (List.foldl Event.clearStep t [Event.dlerror w2.dl_error,
            Event.log LogPriority.ANDROID_LOG_ERROR LOG_TAG
              ("❌ FAILED to load " ++ name ++ " from any location"),
            Event.log LogPriority.ANDROID_LOG_ERROR LOG_TAG
              ("   Last error: " ++ (dlerror w2).1.getD "unknown error"),
            Event.log LogPriority.ANDROID_LOG_ERROR LOG_TAG "   Searched paths:",
            Event.log LogPriority.ANDROID_LOG_ERROR LOG_TAG "     - System default paths"]).1
            = t.1 := by
          rintro ⟨ok, cleared⟩
          simp [Event.clearStep]
        rw [h5, hclear, hfrontClear]
  · refine ⟨[Event.dlerror w.dl_error,
        Event.dlopen name flags (P.dlopen (w.trace ++ [Event.dlerror w.dl_error]) name flags),
        Event.log LogPriority.ANDROID_LOG_INFO LOG_TAG
          ("✓ Loaded " ++ name ++ " from system paths")], ?_, ?_⟩
    · simp [TryLoadLibrary.attempt, dlopen, dlerror, hopen, LOGI, World.emit]
    · rintro ⟨ok, cleared⟩
      simp [Event.clearStep]

/-- When the search loop starts with no pending error and falls through, it
ends with no pending error: each failed open is followed by a `dlerror()`. -/
theorem TryLoadLibrary.search_dl_error (P : Platform) (name : String) (flags : Nat) :
    ∀ (paths : List String) (w : World), w.dl_error = none →
      (TryLoadLibrary.search P name flags paths w).1 = none →
      (TryLoadLibrary.search P name flags paths w).2.dl_error = none
  | [], w => by
    intro h _
    simpa [TryLoadLibrary.search] using h
  | p :: rest, w => by
    intro _ hnone
    by_cases hopen : P.dlopen (w.trace ++ [Event.dlerror w.dl_error]) (p ++ "/" ++ name) flags = 0
    · have hstep : TryLoadLibrary.search P name flags (p :: rest) w =
          TryLoadLibrary.search P name flags rest
            (LOGW ("Failed to load " ++ name ++ " from " ++ p ++ ": "
              ++ (dlerror (dlopen P (p ++ "/" ++ name) flags (dlerror w).2).2).1.getD
                "unknown error")
              (dlerror (dlopen P (p ++ "/" ++ name) flags (dlerror w).2).2).2) := by
        simp [TryLoadLibrary.search, dlopen, dlerror, hopen]
      rw [hstep] at hnone ⊢
      exact TryLoadLibrary.search_dl_error P name flags rest _ rfl hnone
    · simp [TryLoadLibrary.search, dlopen, dlerror, hopen] at hnone

/-- When `TryLoadLibrary.attempt` returns null, the `dlerror()` of its final
report returns null, and the report says `Last error: unknown error`. -/
theorem TryLoadLibrary.attempt_report (P : Platform) (name : String) (flags : Nat)
    (search_paths : List String) (num_paths : Int) (w : World)
    (hnull : (TryLoadLibrary.attempt P name flags search_paths num_paths w).1 = 0) :
    ∃ pre post : List Event,
      (TryLoadLibrary.attempt P name flags search_paths num_paths w).2.trace = w.trace ++
        (pre ++ ([Event.dlerror none,
          Event.log LogPriority.ANDROID_LOG_ERROR LOG_TAG
            ("❌ FAILED to load " ++ name ++ " from any location"),
          Event.log LogPriority.ANDROID_LOG_ERROR LOG_TAG "   Last error: unknown error"]
          ++ post)) := by
  by_cases hopen : P.dlopen (w.trace ++ [Event.dlerror w.dl_error]) name flags = 0
  · have key : ∃ (w1 : World) (front : List Event), w1.trace = w.trace ++ front ∧
        w1.dl_error = none ∧
        TryLoadLibrary.attempt P name flags search_paths num_paths w =
          match (TryLoadLibrary.search P name flags
              (search_paths.take num_paths.toNat) w1).1 with
          | some h => (h, (TryLoadLibrary.search P name flags
              (search_paths.take num_paths.toNat) w1).2)
          | none => (0, (search_paths.take num_paths.toNat).foldl
              (fun w search_path => LOGE ("     - " ++ search_path) w)
              (LOGE "     - System default paths" (LOGE "   Searched paths:"
                (LOGE ("   Last error: " ++ (dlerror (TryLoadLibrary.search P name flags
                    (search_paths.take num_paths.toNat) w1).2).1.getD "unknown error")
                  (LOGE ("❌ FAILED to load " ++ name ++ " from any location")
                    (dlerror (TryLoadLibrary.search P name flags
                      (search_paths.take num_paths.toNat) w1).2).2))))) :=
      ⟨LOGW ("Failed to load " ++ name ++ " from system paths: "
          ++ (dlerror (dlopen P name flags (dlerror w).2).2).1.getD "unknown error")
          (dlerror (dlopen P name flags (dlerror w).2).2).2,
        [Event.dlerror w.dl_error, Event.dlopen name flags 0,
          Event.dlerror (some (P.dlopen_error (w.trace ++ [Event.dlerror w.dl_error])
            name flags)),
          Event.log LogPriority.ANDROID_LOG_WARN LOG_TAG
            ("Failed to load " ++ name ++ " from system paths: "
              ++ (dlerror (dlopen P name flags (dlerror w).2).2).1.getD "unknown error")],
        by simp [LOGW, World.emit, dlopen, dlerror, hopen], rfl,
        by simp only [TryLoadLibrary.attempt]
           rw [if_neg (by simp [dlopen, dlerror, hopen])]⟩
    obtain ⟨w1, front, hfront, hclear, hval⟩ := key
    obtain ⟨evs, htrace, _, _, hsome, _⟩ := TryLoadLibrary.search_spec P name flags
      (search_paths.take num_paths.toNat) w1
    have hslot := TryLoadLibrary.search_dl_error P name flags
      (search_paths.take num_paths.toNat) w1 hclear
    rw [hval] at hnull ⊢
    generalize TryLoadLibrary.search P name flags (search_paths.take num_paths.toNat) w1 = found
      at htrace hsome hslot hnull ⊢
    obtain ⟨r, w2⟩ := found
    cases r with
    | some h => exact absurd hnull (hsome h rfl)
    | none =>
      obtain ⟨revs, hrtrace, _⟩ := TryLoadLibrary.report_spec
        (search_paths.take num_paths.toNat)
        (LOGE "     - System default paths" (LOGE "   Searched paths:"
          (LOGE ("   Last error: " ++ (dlerror w2).1.getD "unknown error")
            (LOGE ("❌ FAILED to load " ++ name ++ " from any location") (dlerror w2).2))))
      have hw2 : w2.dl_error = none := hslot rfl
      simp only at htrace ⊢
      have hmid : w2.trace = w.trace ++ (front ++ evs) := by
        rw [htrace, hfront, List.append_assoc]
      refine ⟨front ++ evs, [Event.log LogPriority.ANDROID_LOG_ERROR LOG_TAG "   Searched paths:",
        Event.log LogPriority.ANDROID_LOG_ERROR LOG_TAG "     - System default paths"] ++ revs,
        ?_⟩
      rw [hrtrace]
      simp [LOGE, World.emit, dlerror, hw2, hmid]
  · exfalso
    apply hopen
    simp [TryLoadLibrary.attempt, dlopen, dlerror, hopen] at hnull

/-- The first half of `TryLoadLibrary` only writes log lines before it hands
over to `TryLoadLibrary.attempt`. -/
theorem TryLoadLibrary_eq_attempt (P : Platform) (libname : String)
    (search_paths : List String) (num_paths : Int) (use_global : Bool) (w : World) :
    ∃ (w0 : World) (front : List Event), w0.trace = w.trace ++ front ∧
      (∀ e ∈ front, ∃ prio tag msg, e = Event.log prio tag msg) ∧
      TryLoadLibrary P libname search_paths num_paths use_global w =
        TryLoadLibrary.attempt P
          (if libname = "libiGraphicsCore.huawei.so" then "libigs_client.so" else libname)
          (P.RTLD_NOW ||| (if use_global = true then P.RTLD_GLOBAL else P.RTLD_LOCAL))
          search_paths num_paths w0 := by
  by_cases hr : libname = "libiGraphicsCore.huawei.so"
  · cases use_global
    · refine ⟨LOGI ("⚠️  REDIRECT: " ++ libname
          ++ " → libigs_client.so (using official public library)") w,
        [Event.log LogPriority.ANDROID_LOG_INFO LOG_TAG ("⚠️  REDIRECT: " ++ libname
          ++ " → libigs_client.so (using official public library)")], rfl, ?_, ?_⟩
      · intro e he
        exact ⟨_, _, _, List.mem_singleton.1 he⟩
      · simp [TryLoadLibrary, hr]
    · refine ⟨LOGI "Loading libigs_client.so with RTLD_GLOBAL (symbol sharing enabled)"
          (LOGI ("⚠️  REDIRECT: " ++ libname
            ++ " → libigs_client.so (using official public library)") w),
        [Event.log LogPriority.ANDROID_LOG_INFO LOG_TAG ("⚠️  REDIRECT: " ++ libname
          ++ " → libigs_client.so (using official public library)"),
         Event.log LogPriority.ANDROID_LOG_INFO LOG_TAG
          "Loading libigs_client.so with RTLD_GLOBAL (symbol sharing enabled)"],
        by simp [LOGI, World.emit], ?_, ?_⟩
      · intro e he
        simp only [List.mem_cons, List.mem_singleton, List.not_mem_nil, or_false] at he
        rcases he with rfl | rfl
        · exact ⟨_, _, _, rfl⟩
        · exact ⟨_, _, _, rfl⟩
      · simp [TryLoadLibrary, hr]
  · cases use_global
    · exact ⟨w, [], by simp, by simp, by simp [TryLoadLibrary, hr]⟩
    · refine ⟨LOGI ("Loading " ++ libname ++ " with RTLD_GLOBAL (symbol sharing enabled)") w,
        [Event.log LogPriority.ANDROID_LOG_INFO LOG_TAG
          ("Loading " ++ libname ++ " with RTLD_GLOBAL (symbol sharing enabled)")],
        rfl, ?_, ?_⟩
      · intro e he
        exact ⟨_, _, _, List.mem_singleton.1 he⟩
      · simp [TryLoadLibrary, hr]

/-- When `TryLoadLibrary` returns null, the `dlerror()` of its final report
returns null and the report says `Last error: unknown error`, whatever error
messages the failed opens left: each was consumed by the `dlerror()` that
follows the failed open. -/
theorem TryLoadLibrary_report (P : Platform) (libname : String) (search_paths : List String)
    (num_paths : Int) (use_global : Bool) (w : World)
    (hnull : (TryLoadLibrary P libname search_paths num_paths use_global w).1 = 0) :
    ∃ pre post : List Event,
      emitted w (TryLoadLibrary P libname search_paths num_paths use_global w).2 =
        pre ++ ([Event.dlerror none,
          Event.log LogPriority.ANDROID_LOG_ERROR LOG_TAG
            ("❌ FAILED to load " ++
              (if libname = "libiGraphicsCore.huawei.so" then "libigs_client.so" else libname)
              ++ " from any location"),
          Event.log LogPriority.ANDROID_LOG_ERROR LOG_TAG "   Last error: unknown error"]
          ++ post) := by
  obtain ⟨w0, front, hfront, _, hval⟩ :=
    TryLoadLibrary_eq_attempt P libname search_paths num_paths use_global w
  rw [hval] at hnull ⊢
  obtain ⟨pre, post, htrace⟩ := TryLoadLibrary.attempt_report P _ _ search_paths num_paths w0
    hnull
  rw [hfront, List.append_assoc, ← List.append_assoc front] at htrace
  exact ⟨front ++ pre, post, emitted_of_trace_eq htrace⟩

theorem clearStep_of_logs : ∀ (evs : List Event) (s : Bool × Bool),
    (∀ e ∈ evs, ∃ prio tag msg, e = Event.log prio tag msg) →
    (evs.foldl Event.clearStep s).1 = s.1
  | [], _, _ => rfl
  | e :: rest, (ok, cleared), hlogs => by
    obtain ⟨prio, tag, msg, rfl⟩ := hlogs e (List.mem_cons_self _ _)
    exact clearStep_of_logs rest (ok, cleared) (fun e he => hlogs e (List.mem_cons_of_mem _ he))

/-- The first half of C20, for every platform and every call: each open of
`TryLoadLibrary` is made with the error slot cleared, a `dlerror()` having been
called since the previous open with nothing but log lines in between. -/
theorem TryLoadLibrary_clears_before_every_open (P : Platform) (libname : String)
    (search_paths : List String) (num_paths : Int) (use_global : Bool) (w : World) :
    clearedAtOpens (emitted w
      (TryLoadLibrary P libname search_paths num_paths use_global w).2) = true := by
  obtain ⟨w0, front, hfront, hlogs, heq⟩ :=
    TryLoadLibrary_eq_attempt P libname search_paths num_paths use_global w
  obtain ⟨evs, htrace, hclear⟩ := TryLoadLibrary.attempt_cleared P
    (if libname = "libiGraphicsCore.huawei.so" then "libigs_client.so" else libname)
    (P.RTLD_NOW ||| (if use_global = true then P.RTLD_GLOBAL else P.RTLD_LOCAL))
    search_paths num_paths w0
  have hall : (TryLoadLibrary P libname search_paths num_paths use_global w).2.trace
      = w.trace ++ (front ++ evs) := by
    rw [heq, htrace, hfront, List.append_assoc]
  rw [emitted_of_trace_eq hall]
  unfold clearedAtOpens
  rw [List.foldl_append, hclear, clearStep_of_logs front _ hlogs]

/-- C20, evaluated where no library can be opened, on the call
`TryLoadLibrary("libai_infra.so", system_paths, 4, true)` of `Load()`: the call
returns null; the last attempted candidate left the error message
`dlopen failed: library "/system/vendor/lib64/libai_infra.so" not found`, which
the `dlerror()` after that attempt returned; the final report says
`Last error: unknown error`, not that message; and every open was made with
the error slot cleared. -/
theorem TryLoadLibrary_final_report_has_no_last_error :
    (TryLoadLibrary barePlatform "libai_infra.so" Load.system_paths 4 true World.start).1 = 0 ∧
    (opens (emitted World.start (TryLoadLibrary barePlatform "libai_infra.so"
      Load.system_paths 4 true World.start).2)).getLast?
      = some ("/system/vendor/lib64/libai_infra.so", 258, 0) ∧
    Event.dlerror
        (some "dlopen failed: library \"/system/vendor/lib64/libai_infra.so\" not found")
      ∈ emitted World.start (TryLoadLibrary barePlatform "libai_infra.so"
          Load.system_paths 4 true World.start).2 ∧
    Event.log LogPriority.ANDROID_LOG_ERROR LOG_TAG "   Last error: unknown error"
      ∈ emitted World.start (TryLoadLibrary barePlatform "libai_infra.so"
          Load.system_paths 4 true World.start).2 ∧
    Event.log LogPriority.ANDROID_LOG_ERROR LOG_TAG
        ("   Last error: "
          ++ "dlopen failed: library \"/system/vendor/lib64/libai_infra.so\" not found")
      ∉ emitted World.start (TryLoadLibrary barePlatform "libai_infra.so"
          Load.system_paths 4 true World.start).2 ∧
    clearedAtOpens (emitted World.start (TryLoadLibrary barePlatform "libai_infra.so"
          Load.system_paths 4 true World.start).2) = true := by
  decide

/-! ## `Load` on a stationary platform -/

theorem actions_append (a b : List Event) : actions (a ++ b) = actions a ++ actions b := by
  simp [actions]

theorem actions_LOGI (msg : String) (w : World) :
    actions (LOGI msg w).trace = actions w.trace := by
  simp [LOGI, World.emit, actions, Event.isAction]

theorem actions_LOGW (msg : String) (w : World) :
    actions (LOGW msg w).trace = actions w.trace := by
  simp [LOGW, World.emit, actions, Event.isAction]

theorem actions_LOGE (msg : String) (w : World) :
    actions (LOGE msg w).trace = actions w.trace := by
  simp [LOGE, World.emit, actions, Event.isAction]

theorem actions_dlerror (w : World) : actions (dlerror w).2.trace = actions w.trace := by
  simp [dlerror, actions, Event.isAction]

theorem actions_dlclose (handle : Ptr) (w : World) :
    actions (dlclose handle w).trace = actions w.trace ++ [Event.dlclose handle] := by
  simp [dlclose, World.emit, actions, Event.isAction]

theorem dlopen_of_stationary {P : Platform} (hS : P.Stationary) (filename : String)
    (flags : Nat) (w : World) :
    (dlopen P filename flags w).1 = P.dlopen [] filename flags ∧
    actions (dlopen P filename flags w).2.trace
      = actions w.trace ++ [Event.dlopen filename flags (P.dlopen [] filename flags)] := by
  simp [dlopen, actions, Event.isAction, hS.1 w.trace]

theorem dlsym_of_stationary {P : Platform} (hS : P.Stationary) (handle : Ptr)
    (symbol : String) (w : World) :
    (dlsym P handle symbol w).1 = P.dlsym [] handle symbol ∧
    actions (dlsym P handle symbol w).2.trace
      = actions w.trace ++ [Event.dlsym handle symbol (P.dlsym [] handle symbol)] := by
  simp [dlsym, actions, Event.isAction, hS.2.1 w.trace]

theorem call_void_of_stationary {P : Platform} (hS : P.Stationary) (fn : Ptr) (w : World) :
    (call_void P fn w).1 = P.invoke_void [] fn ∧
    actions (call_void P fn w).2.trace
      = actions w.trace ++ [Event.call_void fn (P.invoke_void [] fn)] := by
  simp [call_void, World.emit, actions, Event.isAction, hS.2.2.1 w.trace]

theorem call_cstr_of_stationary {P : Platform} (hS : P.Stationary) (fn : Ptr) (arg : String)
    (w : World) :
    (call_cstr P fn arg w).1 = P.invoke_cstr [] fn arg ∧
    actions (call_cstr P fn arg w).2.trace
      = actions w.trace ++ [Event.call_cstr fn arg (P.invoke_cstr [] fn arg)] := by
  simp [call_cstr, World.emit, actions, Event.isAction, hS.2.2.2 w.trace]

/-- On a stationary platform the search loop returns the same handle and does
the same opens wherever it starts. -/
theorem TryLoadLibrary.search_of_stationary {P : Platform} (hS : P.Stationary)
    (name : String) (flags : Nat) :
    ∀ paths : List String, ∃ (r : Option Ptr) (A : List Event), ∀ w : World,
      (TryLoadLibrary.search P name flags paths w).1 = r ∧
      actions (TryLoadLibrary.search P name flags paths w).2.trace = actions w.trace ++ A
  | [] => ⟨none, [], fun w => by simp [TryLoadLibrary.search]⟩
  | p :: rest => by
    obtain ⟨r, A, ih⟩ := TryLoadLibrary.search_of_stationary hS name flags rest
    by_cases h0 : P.dlopen [] (p ++ "/" ++ name) flags = 0
    · refine ⟨r, Event.dlopen (p ++ "/" ++ name) flags 0 :: A, fun w => ?_⟩
      simp only [TryLoadLibrary.search, (dlopen_of_stationary hS _ _ _).1, h0, ne_eq,
        not_true_eq_false, if_false, (ih _).1, (ih _).2, actions_LOGW, actions_dlerror,
        (dlopen_of_stationary hS _ _ _).2, List.append_assoc, List.singleton_append, true_and]
    · refine ⟨some (P.dlopen [] (p ++ "/" ++ name) flags),
        [Event.dlopen (p ++ "/" ++ name) flags (P.dlopen [] (p ++ "/" ++ name) flags)],
        fun w => ?_⟩
      simp only [TryLoadLibrary.search, (dlopen_of_stationary hS _ _ _).1, h0, ne_eq,
        not_false_eq_true, if_true, actions_LOGI, actions_dlerror,
        (dlopen_of_stationary hS _ _ _).2, true_and]

theorem actions_report : ∀ (paths : List String) (w : World),
    actions (paths.foldl (fun w search_path => LOGE ("     - " ++ search_path) w) w).trace
      = actions w.trace
  | [], _ => rfl
  | p :: rest, w => by
    simp only [List.foldl_cons]
    rw [actions_report rest, actions_LOGE]

/-- On a stationary platform the bare-name attempt and the search loop return the
same handle and do the same opens wherever they start. -/
theorem TryLoadLibrary.attempt_of_stationary {P : Platform} (hS : P.Stationary)
    (name : String) (flags : Nat) (search_paths : List String) (num_paths : Int) :
    ∃ (r : Ptr) (A : List Event), ∀ w : World,
      (TryLoadLibrary.attempt P name flags search_paths num_paths w).1 = r ∧
      actions (TryLoadLibrary.attempt P name flags search_paths num_paths w).2.trace
        = actions w.trace ++ A := by
  obtain ⟨r, A, ih⟩ :=
    TryLoadLibrary.search_of_stationary hS name flags (search_paths.take num_paths.toNat)
  by_cases h0 : P.dlopen [] name flags = 0
  · cases r with
    | none =>
      refine ⟨0, Event.dlopen name flags 0 :: A, fun w => ?_⟩
      simp only [TryLoadLibrary.attempt, (dlopen_of_stationary hS _ _ _).1, h0, ne_eq,
        not_true_eq_false, if_false, (ih _).1, (ih _).2, actions_LOGW, actions_LOGE,
        actions_dlerror, actions_report, (dlopen_of_stationary hS _ _ _).2,
        List.append_assoc, List.singleton_append, true_and]
    | some handle =>
      refine ⟨handle, Event.dlopen name flags 0 :: A, fun w => ?_⟩
      simp only [TryLoadLibrary.attempt, (dlopen_of_stationary hS _ _ _).1, h0, ne_eq,
        not_true_eq_false, if_false, (ih _).1, (ih _).2, actions_LOGW, actions_LOGE,
        actions_dlerror, actions_report, (dlopen_of_stationary hS _ _ _).2,
        List.append_assoc, List.singleton_append, true_and]
  · refine ⟨P.dlopen [] name flags, [Event.dlopen name flags (P.dlopen [] name flags)],
      fun w => ?_⟩
    simp only [TryLoadLibrary.attempt, (dlopen_of_stationary hS _ _ _).1, h0, ne_eq,
      not_false_eq_true, if_true, actions_LOGI, actions_dlerror,
      (dlopen_of_stationary hS _ _ _).2, true_and]

/-- On a stationary platform `TryLoadLibrary` returns the same handle and does the
same opens wherever it starts. -/
theorem TryLoadLibrary_of_stationary {P : Platform} (hS : P.Stationary)
    (libname : String) (search_paths : List String) (num_paths : Int) (use_global : Bool) :
    ∃ (r : Ptr) (A : List Event), ∀ w : World,
      (TryLoadLibrary P libname search_paths num_paths use_global w).1 = r ∧
      actions (TryLoadLibrary P libname search_paths num_paths use_global w).2.trace
        = actions w.trace ++ A := by
  obtain ⟨r, A, ih⟩ := TryLoadLibrary.attempt_of_stationary hS
    (if libname = "libiGraphicsCore.huawei.so" then "libigs_client.so" else libname)
    (P.RTLD_NOW ||| (if use_global = true then P.RTLD_GLOBAL else P.RTLD_LOCAL))
    search_paths num_paths
  refine ⟨r, A, fun w => ?_⟩
  obtain ⟨w0, front, htrace, hlogs, heq⟩ :=
    TryLoadLibrary_eq_attempt P libname search_paths num_paths use_global w
  have hfront : actions front = [] := by
    apply List.filter_eq_nil_iff.2
    intro e he
    obtain ⟨prio, tag, msg, rfl⟩ := hlogs e he
    simp [Event.isAction]
  rw [heq, (ih w0).1, (ih w0).2, htrace, actions_append, hfront, List.append_nil]
  exact ⟨rfl, rfl⟩

/-- On a stationary platform `Unload()` does the same vendor call and the same
closes wherever it starts. -/
theorem Unload_of_stationary {P : Platform} (hS : P.Stationary) (self : DynamicLoader) :
    ∃ A : List Event, ∀ w : World,
      (Unload P self w).1 = {} ∧
      actions (Unload P self w).2.trace = actions w.trace ++ A := by
  refine ⟨(if self.m_CUninitialize ≠ 0 ∧ self.m_initialized = true then
      [Event.call_void self.m_CUninitialize (P.invoke_void [] self.m_CUninitialize)]
    else []) ++
    ((if self.m_cgkit_handle ≠ 0 then [Event.dlclose self.m_cgkit_handle] else []) ++
     (if self.m_igraphics_handle ≠ 0 then [Event.dlclose self.m_igraphics_handle] else [])),
    fun w => ?_⟩
  rw [Unload_eq]
  refine ⟨rfl, ?_⟩
  rw [hS.2.2.1 w.trace]
  by_cases hu : self.m_CUninitialize ≠ 0 ∧ self.m_initialized = true <;>
    by_cases hcg : self.m_cgkit_handle = 0 <;> by_cases hig : self.m_igraphics_handle = 0 <;>
    cases hr : P.invoke_void [] self.m_CUninitialize <;>
    simp [actions, Event.isAction, hu, hcg, hig]

/-- On a stationary platform step 4 of `Load()` ends the same way wherever it
starts. -/
theorem Load.init_of_stationary {P : Platform} (hS : P.Stationary) (self : DynamicLoader) :
    ∃ (r : Bool) (after : DynamicLoader) (A : List Event), ∀ w : World,
      (Load.init P self w).1 = r ∧ (Load.init P self w).2.1 = after ∧
      actions (Load.init P self w).2.2.trace = actions w.trace ++ A := by
  obtain ⟨U, hU⟩ := Unload_of_stationary hS self
  cases h1 : P.invoke_void [] self.m_CInitialize with
  | raised =>
    refine ⟨false, {}, Event.call_void self.m_CInitialize Outcome.raised :: U, fun w => ?_⟩
    simp only [Load.init, (call_void_of_stationary hS _ _).1, h1, (hU _).1, (hU _).2,
      actions_LOGE, (call_void_of_stationary hS _ _).2, List.append_assoc,
      List.singleton_append, true_and]
  | returned u =>
    cases h3 : P.invoke_cstr [] self.m_CSetAssetsDir Load.assets_path with
    | raised =>
      refine ⟨false, {}, Event.call_void self.m_CInitialize (Outcome.returned u) ::
        Event.call_cstr self.m_CSetAssetsDir Load.assets_path Outcome.raised :: U, fun w => ?_⟩
      simp only [Load.init, (call_void_of_stationary hS _ _).1, h1,
        (call_cstr_of_stationary hS _ _ _).1, h3, (hU _).1, (hU _).2,
        actions_LOGE, actions_LOGI, (call_void_of_stationary hS _ _).2,
        (call_cstr_of_stationary hS _ _ _).2, List.append_assoc,
        List.singleton_append, List.cons_append, List.nil_append, true_and]
    | returned v =>
      refine ⟨true, { self with m_initialized := true },
        [Event.call_void self.m_CInitialize (Outcome.returned u),
         Event.call_cstr self.m_CSetAssetsDir Load.assets_path (Outcome.returned v)],
        fun w => ?_⟩
      simp only [Load.init, (call_void_of_stationary hS _ _).1, h1,
        (call_cstr_of_stationary hS _ _ _).1, h3,
        actions_LOGE, actions_LOGI, (call_void_of_stationary hS _ _).2,
        (call_cstr_of_stationary hS _ _ _).2, List.append_assoc,
        List.singleton_append, List.cons_append, List.nil_append, true_and]

/-- On a stationary platform steps 3 and 4 of `Load()` end the same way wherever
they start. -/
theorem Load.resolve_of_stationary {P : Platform} (hS : P.Stationary) (self : DynamicLoader) :
    ∃ (r : Bool) (after : DynamicLoader) (A : List Event), ∀ w : World,
      (Load.resolve P self w).1 = r ∧ (Load.resolve P self w).2.1 = after ∧
      actions (Load.resolve P self w).2.2.trace = actions w.trace ++ A := by
  obtain ⟨U, hU⟩ := Unload_of_stationary hS
    { self with
      m_CInitialize := P.dlsym [] self.m_cgkit_handle "CInitialize"
      m_CUninitialize := P.dlsym [] self.m_cgkit_handle "CUninitialize"
      m_CSetAssetsDir := P.dlsym [] self.m_cgkit_handle "CSetAssetsDir"
      m_CGetAssetsDir := P.dlsym [] self.m_cgkit_handle "CGetAssetsDir"
      m_CSuperSamplingSyncExecute := P.dlsym [] self.m_cgkit_handle "CSuperSamplingSyncExecute"
      m_CSuperSamplingAsyncExecute :=
        P.dlsym [] self.m_cgkit_handle "CSuperSamplingAsyncExecute" }
  obtain ⟨r, after, I, hI⟩ := Load.init_of_stationary hS
    { self with
      m_CInitialize := P.dlsym [] self.m_cgkit_handle "CInitialize"
      m_CUninitialize := P.dlsym [] self.m_cgkit_handle "CUninitialize"
      m_CSetAssetsDir := P.dlsym [] self.m_cgkit_handle "CSetAssetsDir"
      m_CGetAssetsDir := P.dlsym [] self.m_cgkit_handle "CGetAssetsDir"
      m_CSuperSamplingSyncExecute := P.dlsym [] self.m_cgkit_handle "CSuperSamplingSyncExecute"
      m_CSuperSamplingAsyncExecute :=
        P.dlsym [] self.m_cgkit_handle "CSuperSamplingAsyncExecute" }
  by_cases hreq : P.dlsym [] self.m_cgkit_handle "CInitialize" = 0
      ∨ P.dlsym [] self.m_cgkit_handle "CSetAssetsDir" = 0
      ∨ P.dlsym [] self.m_cgkit_handle "CSuperSamplingSyncExecute" = 0
  · refine ⟨false, {},
      [Event.dlsym self.m_cgkit_handle "CInitialize"
         (P.dlsym [] self.m_cgkit_handle "CInitialize"),
       Event.dlsym self.m_cgkit_handle "CUninitialize"
         (P.dlsym [] self.m_cgkit_handle "CUninitialize"),
       Event.dlsym self.m_cgkit_handle "CSetAssetsDir"
         (P.dlsym [] self.m_cgkit_handle "CSetAssetsDir"),
       Event.dlsym self.m_cgkit_handle "CGetAssetsDir"
         (P.dlsym [] self.m_cgkit_handle "CGetAssetsDir"),
       Event.dlsym self.m_cgkit_handle "CSuperSamplingSyncExecute"
         (P.dlsym [] self.m_cgkit_handle "CSuperSamplingSyncExecute"),
       Event.dlsym self.m_cgkit_handle "CSuperSamplingAsyncExecute"
         (P.dlsym [] self.m_cgkit_handle "CSuperSamplingAsyncExecute")] ++ U, fun w => ?_⟩
    simp only [Load.resolve, (dlsym_of_stationary hS _ _ _).1, hreq, if_true,
      (hU _).1, (hU _).2, actions_LOGE, actions_LOGI, (dlsym_of_stationary hS _ _ _).2,
      List.append_assoc, List.singleton_append, List.cons_append, List.nil_append, true_and]
  · refine ⟨r, after,
      [Event.dlsym self.m_cgkit_handle "CInitialize"
         (P.dlsym [] self.m_cgkit_handle "CInitialize"),
       Event.dlsym self.m_cgkit_handle "CUninitialize"
         (P.dlsym [] self.m_cgkit_handle "CUninitialize"),
       Event.dlsym self.m_cgkit_handle "CSetAssetsDir"
         (P.dlsym [] self.m_cgkit_handle "CSetAssetsDir"),
       Event.dlsym self.m_cgkit_handle "CGetAssetsDir"
         (P.dlsym [] self.m_cgkit_handle "CGetAssetsDir"),
       Event.dlsym self.m_cgkit_handle "CSuperSamplingSyncExecute"
         (P.dlsym [] self.m_cgkit_handle "CSuperSamplingSyncExecute"),
       Event.dlsym self.m_cgkit_handle "CSuperSamplingAsyncExecute"
         (P.dlsym [] self.m_cgkit_handle "CSuperSamplingAsyncExecute")] ++ I, fun w => ?_⟩
    simp only [Load.resolve, (dlsym_of_stationary hS _ _ _).1, hreq, if_false,
      (hI _).1, (hI _).2.1, (hI _).2.2, actions_LOGE, actions_LOGI,
      (dlsym_of_stationary hS _ _ _).2,
      List.append_assoc, List.singleton_append, List.cons_append, List.nil_append, true_and]

/-- On a stationary platform step 2 of `Load()` and what follows end the same way
wherever they start. -/
theorem Load.plugin_of_stationary {P : Platform} (hS : P.Stationary) (self : DynamicLoader) :
    ∃ (r : Bool) (after : DynamicLoader) (A : List Event), ∀ w : World,
      (Load.plugin P self w).1 = r ∧ (Load.plugin P self w).2.1 = after ∧
      actions (Load.plugin P self w).2.2.trace = actions w.trace ++ A := by
  obtain ⟨handle, T, hT⟩ :=
    TryLoadLibrary_of_stationary hS "libcgkit_plugin_offlineSupRes.so" Load.app_paths 2 false
  obtain ⟨U, hU⟩ := Unload_of_stationary hS { self with m_cgkit_handle := handle }
  obtain ⟨r, after, R, hR⟩ :=
    Load.resolve_of_stationary hS { self with m_cgkit_handle := handle }
  by_cases h0 : handle = 0
  · refine ⟨false, {}, T ++ U, fun w => ?_⟩
    simp only [Load.plugin, (hT _).1, h0, if_true, (hU _).1, (hU _).2, (hT _).2,
      actions_LOGE, actions_LOGI, List.append_assoc, true_and]
    rw [h0] at hU
    simp only [(hU _).1, (hU _).2, (hT _).2, actions_LOGE, actions_LOGI, List.append_assoc,
      true_and]
  · refine ⟨r, after, T ++ R, fun w => ?_⟩
    simp only [Load.plugin, (hT _).1, h0, if_false, (hR _).1, (hR _).2.1, (hR _).2.2,
      (hT _).2, actions_LOGE, actions_LOGI, List.append_assoc, true_and]

/-- On a stationary platform step 1 of `Load()` ends the same way wherever it
starts. -/
theorem Load.prime_of_stationary {P : Platform} (hS : P.Stationary) (self : DynamicLoader) :
    ∃ (after : DynamicLoader) (A : List Event), ∀ w : World,
      (Load.prime P self w).1 = after ∧
      actions (Load.prime P self w).2.trace = actions w.trace ++ A := by
  obtain ⟨igs, A1, h1⟩ :=
    TryLoadLibrary_of_stationary hS "libigs_client.so" Load.system_paths 4 true
  obtain ⟨ai, A2, h2⟩ :=
    TryLoadLibrary_of_stationary hS "libai_client.so" Load.system_paths 4 true
  obtain ⟨infra, A3, h3⟩ :=
    TryLoadLibrary_of_stationary hS "libai_infra.so" Load.system_paths 4 true
  refine ⟨if igs ≠ 0 then { self with m_igraphics_handle := igs } else self,
    A1 ++ (A2 ++ A3), fun w => ?_⟩
  by_cases g1 : igs = 0 <;> by_cases g2 : ai = 0 <;> by_cases g3 : infra = 0 <;>
    simp [Load.prime, (h1 _).1, (h2 _).1, (h3 _).1, (h1 _).2, (h2 _).2, (h3 _).2, g1, g2, g3,
      actions_LOGE, actions_LOGI, actions_LOGW]

/-- On a stationary platform `Load()` returns the same result, leaves the same
loader and does the same opens, lookups, vendor calls and closes wherever it
starts. -/
theorem Load_of_stationary {P : Platform} (hS : P.Stationary) (self : DynamicLoader) :
    ∃ (r : Bool) (after : DynamicLoader) (A : List Event), ∀ w : World,
      (Load P self w).1 = r ∧ (Load P self w).2.1 = after ∧
      actions (Load P self w).2.2.trace = actions w.trace ++ A := by
  by_cases hinit : self.m_initialized = true
  · exact ⟨true, self, [], fun w => by simp [Load, hinit, actions_LOGI]⟩
  · obtain ⟨primed, A1, h1⟩ := Load.prime_of_stationary hS self
    obtain ⟨r, after, A2, h2⟩ := Load.plugin_of_stationary hS primed
    refine ⟨r, after, A1 ++ A2, fun w => ?_⟩
    have e := h2 (Load.prime P self
      (LOGI "Using OFFICIAL Huawei public libraries for namespace priming"
        (LOGI "Starting Huawei OSR library loading..." w))).2
    have hf : self.m_initialized = false := by simpa using hinit
    simp only [Load, hf, Bool.false_eq_true, if_false, (h1 _).1]
    refine ⟨e.1, e.2.1, ?_⟩
    rw [e.2.2, (h1 _).2, actions_LOGI, actions_LOGI, List.append_assoc]

theorem opens_actions (evs : List Event) : opens (actions evs) = opens evs := by
  induction evs with
  | nil => rfl
  | cons e rest ih => cases e <;> simp_all [actions, Event.isAction, opens]

theorem lookups_actions (evs : List Event) : lookups (actions evs) = lookups evs := by
  induction evs with
  | nil => rfl
  | cons e rest ih => cases e <;> simp_all [actions, Event.isAction, lookups]

theorem closes_actions (evs : List Event) : closes (actions evs) = closes evs := by
  induction evs with
  | nil => rfl
  | cons e rest ih => cases e <;> simp_all [actions, Event.isAction, closes]

theorem vendorCalls_actions (evs : List Event) :
    vendorCalls (actions evs) = vendorCalls evs := by
  induction evs with
  | nil => rfl
  | cons e rest ih =>
    cases e <;> simp_all [actions, Event.isAction, vendorCalls, Event.isVendorCall,
      List.filter_cons]

/-- A `Load()` that returns false leaves a loader equal to a freshly constructed
one. -/
theorem Load_fresh_of_failure (P : Platform) (self : DynamicLoader) (w : World)
    (hfail : (Load P self w).1 = false) : (Load P self w).2.1 = {} := by
  by_cases hinit : self.m_initialized = true
  · rw [Load_eq_of_initialized P self w hinit] at hfail
    simp at hfail
  · have hf : self.m_initialized = false := by simpa using hinit
    obtain ⟨-, primed, evPrime, evPlugin, -, -, handle, -, hplugin⟩ := Load_spec P self w hf
    rcases hplugin with ⟨-, -, hafter, -⟩ | ⟨-, f1, f2, f3, f4, f5, f6, -, hresolve⟩
    · exact hafter
    · rcases hresolve with ⟨-, -, hafter, -⟩ | ⟨-, -, -, hinitSummary⟩
      · exact hafter
      · rcases hinitSummary with ⟨hres, -⟩ | ⟨-, hafter, -⟩
        · rw [hres] at hfail
          simp at hfail
        · exact hafter

/-- The events of a `Load()` are appended to the trace. -/
theorem Load_trace (P : Platform) (self : DynamicLoader) (w : World) :
    (Load P self w).2.2.trace = w.trace ++ emitted w (Load P self w).2.2 := by
  by_cases hinit : self.m_initialized = true
  · rw [Load_eq_of_initialized P self w hinit]
    simp [emitted, LOGI, World.emit]
  · exact (Load_spec P self w (by simpa using hinit)).1

/-- On a stationary platform two runs of `Load()` from the same loader cannot be
told apart, whatever happened before each of them. -/
theorem Load_sameRun_of_stationary {P : Platform} (hS : P.Stationary) (self : DynamicLoader)
    (w₂ w₁ : World) : Load.sameRun P self w₂ self w₁ := by
  obtain ⟨r, after, A, h⟩ := Load_of_stationary hS self
  have key : ∀ w : World, actions (emitted w (Load P self w).2.2) = A := by
    intro w
    have h3 := (h w).2.2
    rw [Load_trace, actions_append] at h3
    exact List.append_cancel_left h3
  have hact : actions (emitted w₂ (Load P self w₂).2.2)
      = actions (emitted w₁ (Load P self w₁).2.2) := by
    rw [key w₂, key w₁]
  refine ⟨by rw [(h w₂).1, (h w₁).1], by rw [(h w₂).2.1, (h w₁).2.1], hact, ?_, ?_, ?_⟩
  · rw [← opens_actions, hact, opens_actions]
  · rw [← lookups_actions, hact, lookups_actions]
  · rw [← vendorCalls_actions, hact, vendorCalls_actions]

/-! ## A fresh `Load` after a failure or an `Unload` -/

/-- C16: after `Unload()`, and after a `Load()` that returned false, every field
of the loader equals its value in a freshly constructed loader.  On a stationary
platform (the same loader environment: the same file opens with the same handle,
the same symbol resolves to the same address, the same vendor call ends the same
way) the next `Load()` therefore cannot be told apart from a first-time `Load()`
run in any world `w`: it returns the same result, leaves the same loader, and
makes the same opens, lookups and vendor calls in the same order. -/
theorem Load_after_failure_or_Unload_is_first_time (P : Platform) (self : DynamicLoader)
    (w₀ w : World) :
    ((Unload P self w₀).1 = {} ∧
     ((Load P self w₀).1 = false → (Load P self w₀).2.1 = {})) ∧
    (P.Stationary →
      Load.sameRun P (Unload P self w₀).1 (Unload P self w₀).2 {} w ∧
      ((Load P self w₀).1 = false →
        Load.sameRun P (Load P self w₀).2.1 (Load P self w₀).2.2 {} w)) := by
  have hU : (Unload P self w₀).1 = {} := by rw [Unload_eq]
  refine ⟨⟨hU, Load_fresh_of_failure P self w₀⟩, fun hS => ⟨?_, fun hfail => ?_⟩⟩
  · rw [hU]
    exact Load_sameRun_of_stationary hS {} _ w
  · rw [Load_fresh_of_failure P self w₀ hfail]
    exact Load_sameRun_of_stationary hS {} _ w

theorem auxOnlyPlatform_stationary : auxOnlyPlatform.Stationary :=
  ⟨fun _ _ _ => rfl, fun _ _ _ => rfl, fun _ _ => rfl, fun _ _ _ => rfl⟩

/-- C16 where the three auxiliary libraries open and the plugin does not: the
first `Load()` fails, and the `Load()` that follows it does what the first did. -/
theorem Load_after_failure_or_Unload_is_first_time_witness :
    auxOnlyPlatform.Stationary ∧
    (Load auxOnlyPlatform {} World.start).1 = false ∧
    Load.sameRun auxOnlyPlatform (Load auxOnlyPlatform {} World.start).2.1
      (Load auxOnlyPlatform {} World.start).2.2 {} World.start :=
  ⟨auxOnlyPlatform_stationary, by decide,
   ((Load_after_failure_or_Unload_is_first_time auxOnlyPlatform {} World.start World.start).2
      auxOnlyPlatform_stationary).2 (by decide)⟩

/-! ## `Unload` on a loader that holds nothing -/

/-- An `Unload()` of a freshly constructed loader does nothing at all. -/
theorem Unload_fresh (P : Platform) (w : World) : Unload P {} w = ({}, w) := by
  rw [Unload_eq]
  simp

/-- C22. `Unload()` is idempotent.  On a freshly constructed loader it records
no event (no close, no vendor call, not even a log line) and leaves every field
as it was; the same holds for the loader left by a previous `Unload()` and for
the loader left by a `Load()` that returned false.  So `Unload(); Unload()`
ends in the same loader and the same world as a single `Unload()`, with the
same closes. -/
theorem Unload_idempotent (P : Platform) (self : DynamicLoader) (w : World) :
    Unload P {} w = ({}, w) ∧
    Unload P (Unload P self w).1 (Unload P self w).2 = Unload P self w ∧
    emitted (Unload P self w).2 (Unload P (Unload P self w).1 (Unload P self w).2).2 = [] ∧
    closes (emitted w (Unload P (Unload P self w).1 (Unload P self w).2).2)
      = closes (emitted w (Unload P self w).2) ∧
    ((Load P self w).1 = false →
      Unload P (Load P self w).2.1 (Load P self w).2.2 = (Load P self w).2 ∧
      emitted (Load P self w).2.2
        (Unload P (Load P self w).2.1 (Load P self w).2.2).2 = []) := by
  have hU : (Unload P self w).1 = {} := by rw [Unload_eq]
  have h2 : Unload P (Unload P self w).1 (Unload P self w).2 = Unload P self w := by
    rw [hU, Unload_fresh]
    exact Prod.ext hU.symm rfl
  refine ⟨Unload_fresh P w, h2, ?_, ?_, fun hfail => ?_⟩
  · rw [h2]
    simp [emitted]
  · rw [h2]
  · have hL := Load_fresh_of_failure P self w hfail
    have h3 : Unload P (Load P self w).2.1 (Load P self w).2.2 = (Load P self w).2 := by
      rw [hL, Unload_fresh]
      exact Prod.ext hL.symm rfl
    refine ⟨h3, ?_⟩
    rw [h3]
    simp [emitted]

/-! ## The states a loader can reach -/

theorem DynamicLoader.consistent_fresh : DynamicLoader.Consistent {} := by
  simp [DynamicLoader.Consistent]

/-- `Load()` keeps the state invariant: it leaves the loader alone, or resets it,
or stores the plugin handle and the six pointers and sets the flag. -/
theorem Load_consistent (P : Platform) (self : DynamicLoader) (w : World)
    (h : self.Consistent) : (Load P self w).2.1.Consistent := by
  by_cases hinit : self.m_initialized = true
  · rw [Load_eq_of_initialized P self w hinit]
    exact h
  · have hf : self.m_initialized = false := by simpa using hinit
    cases hres : (Load P self w).1 with
    | false =>
      rw [Load_fresh_of_failure P self w hres]
      exact DynamicLoader.consistent_fresh
    | true =>
      obtain ⟨pre, handle, f1, f2, f3, f4, f5, f6, -, hh, h1, h3, h5, -, ehandle, e1, -, e3,
        -, e5, -, einit⟩ := Load_of_success P self w hf hres
      refine ⟨fun _ => ?_, fun hnot => ?_⟩
      · rw [ehandle, e1, e3, e5]
        exact ⟨hh, h1, h3, h5⟩
      · rw [einit] at hnot
        simp at hnot

/-- Every public operation keeps the state invariant. -/
theorem runOperation_consistent (P : Platform) (op : Operation) (s : DynamicLoader × World)
    (h : s.1.Consistent) : (runOperation P op s).1.Consistent := by
  cases op with
  | Load => exact Load_consistent P s.1 s.2 h
  | Unload =>
    simp only [runOperation]
    rw [Unload_eq]
    exact DynamicLoader.consistent_fresh
  | SuperSample inBuffer outBuffer timeout =>
    have hsame : (SuperSample P s.1 inBuffer outBuffer timeout s.2).2.1 = s.1 := by
      unfold SuperSample
      split <;> rfl
    simp only [runOperation]
    rw [hsame]
    exact h
  | SuperSampleAsync inBuffer outBuffer callback =>
    have hsame : (SuperSampleAsync P s.1 inBuffer outBuffer callback s.2).2.1 = s.1 := by
      unfold SuperSampleAsync
      split <;> rfl
    simp only [runOperation]
    rw [hsame]
    exact h

/-- A sequence of public operations keeps the state invariant. -/
theorem runOperations_consistent (P : Platform) :
    ∀ (ops : List Operation) (s : DynamicLoader × World),
      s.1.Consistent → (runOperations P ops s).1.Consistent
  | [], _, h => h
  | op :: rest, s, h => by
    simp only [runOperations, List.foldl_cons]
    exact runOperations_consistent P rest (runOperation P op s)
      (runOperation_consistent P op s h)

/-- In a loader that satisfies the state invariant `IsAvailable()` is the
initialised flag. -/
theorem IsAvailable_of_consistent (self : DynamicLoader) (h : self.Consistent) :
    IsAvailable self = self.m_initialized := by
  cases hinit : self.m_initialized with
  | false => simp [IsAvailable, hinit]
  | true =>
    have h5 := (h.1 hinit).2.2.2
    simp [IsAvailable, hinit, h5]

/-- C21. After any finite sequence of `Load`, `Unload`, `SuperSample` and
`SuperSampleAsync` calls (with any arguments, on any platform, from any world)
on a freshly constructed loader: if the initialised flag is true, the plugin
handle and the pointers for `CInitialize`, `CSetAssetsDir` and
`CSuperSamplingSyncExecute` are not null; if it is false, both stored handles
and all six pointers are null; and `IsAvailable()` is the initialised flag. -/
theorem DynamicLoader_reachable_invariant (P : Platform) (ops : List Operation) (w : World) :
    ((runOperations P ops ({}, w)).1.m_initialized = true →
      (runOperations P ops ({}, w)).1.m_cgkit_handle ≠ 0 ∧
      (runOperations P ops ({}, w)).1.m_CInitialize ≠ 0 ∧
      (runOperations P ops ({}, w)).1.m_CSetAssetsDir ≠ 0 ∧
      (runOperations P ops ({}, w)).1.m_CSuperSamplingSyncExecute ≠ 0) ∧
    ((runOperations P ops ({}, w)).1.m_initialized = false →
      (runOperations P ops ({}, w)).1.m_cgkit_handle = 0 ∧
      (runOperations P ops ({}, w)).1.m_igraphics_handle = 0 ∧
      (runOperations P ops ({}, w)).1.m_CInitialize = 0 ∧
      DynamicLoader.m_CUninitialize (runOperations P ops ({}, w)).1 = 0 ∧
      (runOperations P ops ({}, w)).1.m_CSetAssetsDir = 0 ∧
      (runOperations P ops ({}, w)).1.m_CGetAssetsDir = 0 ∧
      (runOperations P ops ({}, w)).1.m_CSuperSamplingSyncExecute = 0 ∧
      (runOperations P ops ({}, w)).1.m_CSuperSamplingAsyncExecute = 0) ∧
    IsAvailable (runOperations P ops ({}, w)).1
      = (runOperations P ops ({}, w)).1.m_initialized := by
  have h := runOperations_consistent P ops ({}, w) DynamicLoader.consistent_fresh
  exact ⟨h.1, h.2, IsAvailable_of_consistent _ h⟩

/-- The initialised state is reached: on a Huawei device `Load()` after a
`Load()`, an `Unload()` and a `SuperSample` leaves the flag set, and a further
`Unload()` clears it. -/
theorem runOperations_reaches_both :
    (runOperations huaweiPlatform
      [Operation.Load, Operation.Unload, Operation.SuperSample 1 2 5000, Operation.Load]
      ({}, World.start)).1.m_initialized = true ∧
    (runOperations huaweiPlatform
      [Operation.Load, Operation.SuperSampleAsync 1 2 3, Operation.Unload]
      ({}, World.start)).1.m_initialized = false := by
  decide

/-! ## The teardown of a `Load` that fails -/

/-- Step 4 of `Load()`, when it fails: a vendor call raised, and `Unload()` is
entered on the loader as it was, right after the log line of the `catch`. -/
theorem Load.init_failure (P : Platform) (self : DynamicLoader) (w : World)
    (hfail : (Load.init P self w).1 = false) :
    ∃ (before : World) (pre : List Event),
      before.trace = w.trace ++ pre ∧ (Load.init P self w).2 = Unload P self before ∧
      lookups pre = [] ∧
      (vendorCalls pre = [Event.call_void self.m_CInitialize Outcome.raised] ∨
       vendorCalls pre = [Event.call_void self.m_CInitialize (Outcome.returned ()),
         Event.call_cstr self.m_CSetAssetsDir Load.assets_path Outcome.raised]) := by
  cases hr1 : P.invoke_void w.trace self.m_CInitialize with
  | raised =>
    refine ⟨LOGE "Exception during initialization" (call_void P self.m_CInitialize w).2,
      [Event.call_void self.m_CInitialize Outcome.raised,
       Event.log LogPriority.ANDROID_LOG_ERROR LOG_TAG "Exception during initialization"],
      ?_, ?_, ?_, Or.inl ?_⟩
    · simp [LOGE, World.emit, call_void, hr1]
    · simp [Load.init, call_void, hr1]
    · simp [lookups]
    · simp [vendorCalls_cons, vendorCalls_nil, Event.isVendorCall]
  | returned u =>
    cases hr2 : P.invoke_cstr (w.trace ++ [Event.call_void self.m_CInitialize
        (Outcome.returned u), Event.log LogPriority.ANDROID_LOG_INFO LOG_TAG
          "CInitialize() completed"]) self.m_CSetAssetsDir Load.assets_path with
    | raised =>
      refine ⟨LOGE "Exception during initialization"
          (call_cstr P self.m_CSetAssetsDir Load.assets_path
            (LOGI "CInitialize() completed" (call_void P self.m_CInitialize w).2)).2,
        [Event.call_void self.m_CInitialize (Outcome.returned ()),
         Event.log LogPriority.ANDROID_LOG_INFO LOG_TAG "CInitialize() completed",
         Event.call_cstr self.m_CSetAssetsDir Load.assets_path Outcome.raised,
         Event.log LogPriority.ANDROID_LOG_ERROR LOG_TAG "Exception during initialization"],
        ?_, ?_, ?_, Or.inr ?_⟩
      · simp [LOGE, LOGI, World.emit, call_void, call_cstr, hr1, hr2]
      · simp [Load.init, call_void, call_cstr, LOGI, World.emit, hr1, hr2]
      · simp [lookups]
      · simp [vendorCalls_cons, vendorCalls_nil, Event.isVendorCall]
    | returned u2 =>
      simp [Load.init, call_void, call_cstr, LOGI, World.emit, hr1, hr2] at hfail

/-- Steps 3 and 4 of `Load()`, when they fail on a loader that is not
initialised. -/
theorem Load.resolve_failure (P : Platform) (self : DynamicLoader) (w : World)
    (h : self.m_initialized = false) (hfail : (Load.resolve P self w).1 = false) :
    Load.Teardown P w (Load.resolve P self w) := by
  unfold Load.Teardown
  simp only [Load.resolve] at hfail ⊢
  generalize hw1 : dlsym P self.m_cgkit_handle "CInitialize"
    (LOGI "Loading function pointers..." w) = s1 at hfail ⊢
  generalize hw2 : dlsym P self.m_cgkit_handle "CUninitialize" s1.2 = s2 at hfail ⊢
  generalize hw3 : dlsym P self.m_cgkit_handle "CSetAssetsDir" s2.2 = s3 at hfail ⊢
  generalize hw4 : dlsym P self.m_cgkit_handle "CGetAssetsDir" s3.2 = s4 at hfail ⊢
  generalize hw5 : dlsym P self.m_cgkit_handle "CSuperSamplingSyncExecute" s4.2 = s5
    at hfail ⊢
  generalize hw6 : dlsym P self.m_cgkit_handle "CSuperSamplingAsyncExecute" s5.2 = s6
    at hfail ⊢
  have ht : s6.2.trace = w.trace ++ [Event.log LogPriority.ANDROID_LOG_INFO LOG_TAG
      "Loading function pointers...",
      Event.dlsym self.m_cgkit_handle "CInitialize" s1.1,
      Event.dlsym self.m_cgkit_handle "CUninitialize" s2.1,
      Event.dlsym self.m_cgkit_handle "CSetAssetsDir" s3.1,
      Event.dlsym self.m_cgkit_handle "CGetAssetsDir" s4.1,
      Event.dlsym self.m_cgkit_handle "CSuperSamplingSyncExecute" s5.1,
      Event.dlsym self.m_cgkit_handle "CSuperSamplingAsyncExecute" s6.1] := by
    subst hw6 hw5 hw4 hw3 hw2 hw1
    simp [dlsym, LOGI, World.emit]
  clear hw1 hw2 hw3 hw4 hw5 hw6
  by_cases hreq : s1.1 = 0 ∨ s3.1 = 0 ∨ s5.1 = 0
  · rw [if_pos hreq]
    refine ⟨{ self with
        m_CInitialize := s1.1
        m_CUninitialize := s2.1
        m_CSetAssetsDir := s3.1
        m_CGetAssetsDir := s4.1
        m_CSuperSamplingSyncExecute := s5.1
        m_CSuperSamplingAsyncExecute := s6.1 },
      LOGE "Failed to load required function pointers" s6.2,
      [Event.log LogPriority.ANDROID_LOG_INFO LOG_TAG "Loading function pointers...",
       Event.dlsym self.m_cgkit_handle "CInitialize" s1.1,
       Event.dlsym self.m_cgkit_handle "CUninitialize" s2.1,
       Event.dlsym self.m_cgkit_handle "CSetAssetsDir" s3.1,
       Event.dlsym self.m_cgkit_handle "CGetAssetsDir" s4.1,
       Event.dlsym self.m_cgkit_handle "CSuperSamplingSyncExecute" s5.1,
       Event.dlsym self.m_cgkit_handle "CSuperSamplingAsyncExecute" s6.1,
       Event.log LogPriority.ANDROID_LOG_ERROR LOG_TAG
         "Failed to load required function pointers"], ?_, h, rfl, Or.inl ?_⟩
    · simp [LOGE, World.emit, ht]
    · simp [vendorCalls_cons, vendorCalls_nil, Event.isVendorCall]
  · rw [if_neg hreq] at hfail ⊢
    obtain ⟨before, pre, htr, heq, -, hv⟩ := Load.init_failure P
      { self with
        m_CInitialize := s1.1
        m_CUninitialize := s2.1
        m_CSetAssetsDir := s3.1
        m_CGetAssetsDir := s4.1
        m_CSuperSamplingSyncExecute := s5.1
        m_CSuperSamplingAsyncExecute := s6.1 }
      (LOGI "Initializing Huawei OSR plugin..."
        (LOGI "Function pointers loaded successfully" s6.2)) hfail
    refine ⟨{ self with
        m_CInitialize := s1.1
        m_CUninitialize := s2.1
        m_CSetAssetsDir := s3.1
        m_CGetAssetsDir := s4.1
        m_CSuperSamplingSyncExecute := s5.1
        m_CSuperSamplingAsyncExecute := s6.1 }, before,
      [Event.log LogPriority.ANDROID_LOG_INFO LOG_TAG "Loading function pointers...",
       Event.dlsym self.m_cgkit_handle "CInitialize" s1.1,
       Event.dlsym self.m_cgkit_handle "CUninitialize" s2.1,
       Event.dlsym self.m_cgkit_handle "CSetAssetsDir" s3.1,
       Event.dlsym self.m_cgkit_handle "CGetAssetsDir" s4.1,
       Event.dlsym self.m_cgkit_handle "CSuperSamplingSyncExecute" s5.1,
       Event.dlsym self.m_cgkit_handle "CSuperSamplingAsyncExecute" s6.1,
       Event.log LogPriority.ANDROID_LOG_INFO LOG_TAG "Function pointers loaded successfully",
       Event.log LogPriority.ANDROID_LOG_INFO LOG_TAG "Initializing Huawei OSR plugin..."]
        ++ pre, ?_, h, heq, Or.inr ⟨?_, ?_, ?_⟩⟩
    · rw [htr]
      simp [LOGI, World.emit, ht]
    · simp [lookups_append, lookups]
    · simp [lookups_append, lookups]
    · rcases hv with hv | hv
      · left
        simpa [vendorCalls_append, vendorCalls_cons, vendorCalls_nil, Event.isVendorCall]
          using hv
      · right
        simpa [vendorCalls_append, vendorCalls_cons, vendorCalls_nil, Event.isVendorCall]
          using hv

/-- A teardown seen from an earlier world: what was recorded in between held no
vendor call. -/
theorem Load.Teardown.of_later {P : Platform} {w : World}
    {run : Bool × DynamicLoader × World} (w1 : World) (front : List Event)
    (hfront : w1.trace = w.trace ++ front) (hcalls : vendorCalls front = [])
    (h : Load.Teardown P w1 run) : Load.Teardown P w run := by
  obtain ⟨entry, before, pre, htr, hinit, heq, hv⟩ := h
  refine ⟨entry, before, front ++ pre, ?_, hinit, heq, ?_⟩
  · rw [htr, hfront, List.append_assoc]
  · rcases hv with hv | ⟨hl1, hl3, hv⟩
    · left
      rw [vendorCalls_append, hcalls, hv]
      rfl
    · right
      refine ⟨?_, ?_, ?_⟩
      · rw [lookups_append]
        exact List.mem_append_right _ hl1
      · rw [lookups_append]
        exact List.mem_append_right _ hl3
      · rw [vendorCalls_append, hcalls, List.nil_append]
        exact hv

/-- Steps 2 to 4 of `Load()`, when they fail on a loader that is not
initialised. -/
theorem Load.plugin_failure (P : Platform) (self : DynamicLoader) (w : World)
    (h : self.m_initialized = false) (hfail : (Load.plugin P self w).1 = false) :
    Load.Teardown P w (Load.plugin P self w) := by
  have hphase := (TryLoadLibrary_emitted P "libcgkit_plugin_offlineSupRes.so" Load.app_paths 2
    false (LOGI "Namespace primed successfully, loading CGKit OSR plugin..." w)).1
  have htrace := TryLoadLibrary_trace P "libcgkit_plugin_offlineSupRes.so" Load.app_paths 2
    false (LOGI "Namespace primed successfully, loading CGKit OSR plugin..." w)
  simp only [Load.plugin] at hfail ⊢
  generalize TryLoadLibrary P "libcgkit_plugin_offlineSupRes.so" Load.app_paths 2 false
    (LOGI "Namespace primed successfully, loading CGKit OSR plugin..." w) = loaded
    at hphase htrace hfail ⊢
  generalize emitted (LOGI "Namespace primed successfully, loading CGKit OSR plugin..." w)
    loaded.2 = evL at hphase htrace
  simp only [LOGI, World.emit, List.append_assoc] at htrace
  have hcalls := vendorCalls_of_openPhase evL hphase
  by_cases hnull : loaded.1 = 0
  · rw [if_pos hnull]
    refine ⟨{ self with m_cgkit_handle := loaded.1 },
      LOGE "Failed to load libcgkit_plugin_offlineSupRes.so" loaded.2,
      [Event.log LogPriority.ANDROID_LOG_INFO LOG_TAG
        "Namespace primed successfully, loading CGKit OSR plugin..."] ++ (evL ++
       [Event.log LogPriority.ANDROID_LOG_ERROR LOG_TAG
        "Failed to load libcgkit_plugin_offlineSupRes.so"]), ?_, h, rfl, Or.inl ?_⟩
    · simp [LOGE, World.emit, htrace]
    · simp [vendorCalls_append, vendorCalls_cons, vendorCalls_nil, Event.isVendorCall, hcalls]
  · rw [if_neg hnull] at hfail ⊢
    refine Load.Teardown.of_later (LOGI "✓ CGKit plugin loaded successfully" loaded.2)
      ([Event.log LogPriority.ANDROID_LOG_INFO LOG_TAG
        "Namespace primed successfully, loading CGKit OSR plugin..."] ++ (evL ++
       [Event.log LogPriority.ANDROID_LOG_INFO LOG_TAG
        "✓ CGKit plugin loaded successfully"])) ?_ ?_
      (Load.resolve_failure P { self with m_cgkit_handle := loaded.1 } _ h hfail)
    · simp [LOGI, World.emit, htrace]
    · simp [vendorCalls_append, vendorCalls_cons, vendorCalls_nil, Event.isVendorCall, hcalls]

/-- A `Load()` that returns false ends in an `Unload()` entered with the
initialised flag false. -/
theorem Load_failure (P : Platform) (self : DynamicLoader) (w : World)
    (hfail : (Load P self w).1 = false) : Load.Teardown P w (Load P self w) := by
  by_cases hinit : self.m_initialized = true
  · rw [Load_eq_of_initialized P self w hinit] at hfail
    simp at hfail
  · have h : self.m_initialized = false := by simpa using hinit
    obtain ⟨htr1, hphase1, hsum1⟩ := Load.prime_spec P self
      (LOGI "Using OFFICIAL Huawei public libraries for namespace priming"
        (LOGI "Starting Huawei OSR library loading..." w))
    have hprimed : (Load.prime P self
        (LOGI "Using OFFICIAL Huawei public libraries for namespace priming"
          (LOGI "Starting Huawei OSR library loading..." w))).1.m_initialized = false := by
      obtain ⟨r1, _, _, _, _, _, _, _, _, _, hafter⟩ := hsum1
      rw [hafter]
      by_cases h1 : r1 = 0 <;> simp [h1, h]
    have hval : Load P self w = Load.plugin P
        (Load.prime P self
          (LOGI "Using OFFICIAL Huawei public libraries for namespace priming"
            (LOGI "Starting Huawei OSR library loading..." w))).1
        (Load.prime P self
          (LOGI "Using OFFICIAL Huawei public libraries for namespace priming"
            (LOGI "Starting Huawei OSR library loading..." w))).2 := by
      simp [Load, h]
    rw [hval] at hfail ⊢
    generalize Load.prime P self
        (LOGI "Using OFFICIAL Huawei public libraries for namespace priming"
          (LOGI "Starting Huawei OSR library loading..." w)) = primed
      at htr1 hphase1 hprimed hfail ⊢
    generalize emitted (LOGI "Using OFFICIAL Huawei public libraries for namespace priming"
          (LOGI "Starting Huawei OSR library loading..." w)) primed.2 = evPrime
      at htr1 hphase1
    simp only [LOGI, World.emit, List.append_assoc] at htr1
    refine Load.Teardown.of_later primed.2
      ([Event.log LogPriority.ANDROID_LOG_INFO LOG_TAG
          "Starting Huawei OSR library loading...",
        Event.log LogPriority.ANDROID_LOG_INFO LOG_TAG
          "Using OFFICIAL Huawei public libraries for namespace priming"] ++ evPrime) ?_ ?_
      (Load.plugin_failure P primed.1 primed.2 hprimed hfail)
    · simpa using htr1
    · simp [vendorCalls_append, vendorCalls_cons, vendorCalls_nil, Event.isVendorCall,
        vendorCalls_of_openPhase evPrime hphase1]

/-- C23. A `Load()` that returns false never invokes `CUninitialize`.  Such a
run ends in the `Unload()` of its failure path, entered on a loader `entry`
whose initialised flag is false, in a world `before`; its events are the events
`pre` recorded up to there followed by the events of that `Unload()`.  The
`Unload()` makes no vendor call at all.  The vendor calls of `pre`, hence of the
whole run, are none, or the call of the pointer looked up as `CInitialize`,
which raised, or that call, which returned, followed by the call of the pointer
looked up as `CSetAssetsDir`, which raised. -/
theorem Load_failure_makes_no_uninit_call (P : Platform) (self : DynamicLoader) (w : World)
    (hfail : (Load P self w).1 = false) :
    ∃ (entry : DynamicLoader) (before : World) (pre : List Event),
      before.trace = w.trace ++ pre ∧ entry.m_initialized = false ∧
      (Load P self w).2 = Unload P entry before ∧
      emitted w (Load P self w).2.2 = pre ++ emitted before (Unload P entry before).2 ∧
      vendorCalls (emitted before (Unload P entry before).2) = [] ∧
      vendorCalls (emitted w (Load P self w).2.2) = vendorCalls pre ∧
      (vendorCalls pre = [] ∨
       ((entry.m_cgkit_handle, "CInitialize", entry.m_CInitialize) ∈ lookups pre ∧
        (entry.m_cgkit_handle, "CSetAssetsDir", entry.m_CSetAssetsDir) ∈ lookups pre ∧
        (vendorCalls pre = [Event.call_void entry.m_CInitialize Outcome.raised] ∨
         vendorCalls pre = [Event.call_void entry.m_CInitialize (Outcome.returned ()),
           Event.call_cstr entry.m_CSetAssetsDir Load.assets_path Outcome.raised]))) := by
  obtain ⟨entry, before, pre, htr, hinit, heq, hv⟩ := Load_failure P self w hfail
  have hU := Unload_eq_of_not_initialized P entry before hinit
  have hUtrace : (Unload P entry before).2.trace = before.trace ++ Unload.closing entry := by
    rw [hU]
  have hUev : emitted before (Unload P entry before).2 = Unload.closing entry :=
    emitted_of_trace_eq hUtrace
  have hall : (Load P self w).2.2.trace = w.trace ++ (pre ++ Unload.closing entry) := by
    rw [heq, hUtrace, htr, List.append_assoc]
  have hnone := (Unload.closing_projections entry).2.2.1
  refine ⟨entry, before, pre, htr, hinit, heq, ?_, ?_, ?_, hv⟩
  · rw [emitted_of_trace_eq hall, hUev]
  · rw [hUev]
    exact hnone
  · rw [emitted_of_trace_eq hall, vendorCalls_append, hnone, List.append_nil]

/-- C23 on a Huawei device whose `CSetAssetsDir` raises after `CInitialize`
returned: `Load()` returns false, `CUninitialize` was resolved to the address
202, and the vendor calls of the run are the two calls at 201 and 203; nothing
is called at 202. -/
theorem Load_failure_makes_no_uninit_call_witness :
    (Load raisingSetupPlatform {} World.start).1 = false ∧
    (100, "CUninitialize", 202)
      ∈ lookups (emitted World.start (Load raisingSetupPlatform {} World.start).2.2) ∧
    vendorCalls (emitted World.start (Load raisingSetupPlatform {} World.start).2.2)
      = [Event.call_void 201 (Outcome.returned ()),
         Event.call_cstr 203 Load.assets_path Outcome.raised] ∧
    ∃ (entry : DynamicLoader) (before : World) (pre : List Event),
      before.trace = World.start.trace ++ pre ∧ entry.m_initialized = false ∧
      (Load raisingSetupPlatform {} World.start).2 = Unload raisingSetupPlatform entry before ∧
      emitted World.start (Load raisingSetupPlatform {} World.start).2.2
        = pre ++ emitted before (Unload raisingSetupPlatform entry before).2 ∧
      vendorCalls (emitted before (Unload raisingSetupPlatform entry before).2) = [] ∧
      vendorCalls (emitted World.start (Load raisingSetupPlatform {} World.start).2.2)
        = vendorCalls pre ∧
      (vendorCalls pre = [] ∨
       ((entry.m_cgkit_handle, "CInitialize", entry.m_CInitialize) ∈ lookups pre ∧
        (entry.m_cgkit_handle, "CSetAssetsDir", entry.m_CSetAssetsDir) ∈ lookups pre ∧
        (vendorCalls pre = [Event.call_void entry.m_CInitialize Outcome.raised] ∨
         vendorCalls pre = [Event.call_void entry.m_CInitialize (Outcome.returned ()),
           Event.call_cstr entry.m_CSetAssetsDir Load.assets_path Outcome.raised]))) :=
  ⟨by decide, by decide, by decide,
   Load_failure_makes_no_uninit_call raisingSetupPlatform {} World.start (by decide)⟩

/-! ## `Param::Set(u32, const Param&)` -/

/-- The copy loop of `Set` overwrites the elements `i, i+1, ...` of the new
vector with the elements still to be copied, when they fit. -/
theorem Param.Set.copy_spec : ∀ (rest : List Param) (i : Nat) (newArrayValue : Param.Array),
    i + rest.length ≤ newArrayValue.length →
    ∃ r, Param.Set.copy rest i newArrayValue = some r ∧ r.length = newArrayValue.length ∧
      ∀ j, r[j]? = if i ≤ j ∧ j < i + rest.length then rest[j - i]? else newArrayValue[j]?
  | [], i, newArrayValue, _ => ⟨newArrayValue, rfl, rfl, fun j => by
      have : ¬ (i ≤ j ∧ j < i + ([] : List Param).length) := by
        simp only [List.length_nil]
        omega
      rw [if_neg this]⟩
  | x :: rest, i, newArrayValue, h => by
    simp only [List.length_cons] at h
    have hi : i < newArrayValue.length := by omega
    obtain ⟨r, hr, hlen, hget⟩ := Param.Set.copy_spec rest (i + 1) (newArrayValue.set i x)
      (by rw [List.length_set]; omega)
    refine ⟨r, ?_, ?_, fun j => ?_⟩
    · simp only [Param.Set.copy, Param.Array.assign, if_pos hi]
      exact hr
    · rw [hlen, List.length_set]
    · rw [hget j]
      by_cases hj : j = i
      · subst hj
        have h1 : ¬ (j + 1 ≤ j ∧ j < j + 1 + rest.length) := by omega
        have h2 : j ≤ j ∧ j < j + (x :: rest).length := by
          simp only [List.length_cons]
          omega
        rw [if_neg h1, if_pos h2]
        simp [hi]
      · by_cases hin : i + 1 ≤ j ∧ j < i + 1 + rest.length
        · have h2 : i ≤ j ∧ j < i + (x :: rest).length := by
            simp only [List.length_cons]
            omega
          rw [if_pos hin, if_pos h2]
          have hsub : j - i = (j - (i + 1)) + 1 := by omega
          rw [hsub, List.getElem?_cons_succ]
        · have h2 : ¬ (i ≤ j ∧ j < i + (x :: rest).length) := by
            simp only [List.length_cons]
            omega
          rw [if_neg hin, if_neg h2]
          exact List.getElem?_set_ne (fun h => hj h.symm)

/-- The vector `Set` writes into, before the element assignment: long enough
for the index, as long as the larger of the old size and `idx + 1`, and with the
old elements in place.  This needs `idx + 1` not to wrap. -/
theorem Param.Set.resized_spec (arrayValue : List Param) (idx : Nat) :
    ∃ r : Param.Array,
      (if arrayValue.length = 0 then some (Param.Array.resize arrayValue (idx + 1))
       else if arrayValue.length > 0 ∧ arrayValue.length < idx + 1 then
         Param.Set.copy arrayValue 0 (Param.Array.resize [] (idx + 1))
       else some arrayValue) = some r ∧
      r.length = max arrayValue.length (idx + 1) ∧
      ∀ j, j < arrayValue.length → r[j]? = arrayValue[j]? := by
  by_cases h0 : arrayValue.length = 0
  · refine ⟨Param.Array.resize arrayValue (idx + 1), by rw [if_pos h0], ?_, fun j hj => ?_⟩
    · simp [Param.Array.resize, h0, List.length_eq_zero.1 h0]
    · omega
  · by_cases hgrow : arrayValue.length > 0 ∧ arrayValue.length < idx + 1
    · obtain ⟨r, hr, hlen, hget⟩ := Param.Set.copy_spec arrayValue 0
        (Param.Array.resize [] (idx + 1)) (by simp [Param.Array.resize]; omega)
      refine ⟨r, by rw [if_neg h0, if_pos hgrow]; exact hr, ?_, fun j hj => ?_⟩
      · rw [hlen]
        simp [Param.Array.resize]
        omega
      · rw [hget j, if_pos ⟨Nat.zero_le j, by omega⟩, Nat.sub_zero]
    · refine ⟨arrayValue, by rw [if_neg h0, if_neg hgrow], ?_, fun j _ => rfl⟩
      omega

/-- What `Set(idx, param)` does when `idx + 1` does not wrap, that is for every
`idx` below `4294967295`, within the bounds of the embedding (allocation
succeeds, `param` is a separate object): it returns, the element assignment being within the
bounds of the vector; the type is `PARAMETER_TYPE_ARRAY`; the vector is as long
as the larger of its old size and `idx + 1`; the element at `idx` is `param`;
the other old elements and the other data members are as they were. -/
theorem Param.Set_spec (self : Param) (idx : Nat) (param : Param)
    (hidx : idx < 4294967295) :
    ∃ after : Param, Param.Set self idx param = some after ∧
      after.type = PARAMETER_TYPE_ARRAY ∧
      after.arrayValue.length = max self.arrayValue.length (idx + 1) ∧
      idx < after.arrayValue.length ∧
      after.arrayValue[idx]? = some param ∧
      (∀ j, j < self.arrayValue.length → j ≠ idx →
        after.arrayValue[j]? = self.arrayValue[j]?) ∧
      after.value = self.value ∧ after.stringValue = self.stringValue ∧
      after.objectValue = self.objectValue := by
  have hcount : (idx + 1) % 4294967296 = idx + 1 := Nat.mod_eq_of_lt (by omega)
  obtain ⟨r, hr, hlen, hget⟩ := Param.Set.resized_spec self.arrayValue idx
  have hin : idx < r.length := by
    rw [hlen]
    omega
  refine ⟨{ self with type := PARAMETER_TYPE_ARRAY, arrayValue := r.set idx param },
    ?_, rfl, ?_, ?_, ?_, fun j hj hne => ?_, rfl, rfl, rfl⟩
  · simp only [Param.Set, hcount, hr, Param.Array.assign, if_pos hin]
  · simp only [List.length_set]
    exact hlen
  · simp only [List.length_set]
    exact hin
  · simp [hin]
  · simp only
    rw [List.getElem?_set_ne (fun h => hne h.symm)]
    exact hget j hj

/-- The same through the accessors of `Param`, for every `idx` below
`4294967295`: after `Set(idx, param)` the parameter is an array, `ArrayLen()` is
the larger of the old size of the vector and `idx + 1`, `Get(idx)` is `param`,
and `Get(j)` is the old element for every other `j` below the old size. -/
theorem Param.Set_accessors (self : Param) (idx : Nat) (param : Param)
    (hidx : idx < 4294967295) :
    ∃ after : Param, Param.Set self idx param = some after ∧
      after.IsArray = true ∧
      after.ArrayLen = max self.arrayValue.length (idx + 1) ∧
      after.Get idx = some param ∧
      (∀ j, j < self.arrayValue.length → j ≠ idx → after.Get j = self.arrayValue[j]?) := by
  obtain ⟨after, hset, htype, hlen, hin, hat, hrest, -⟩ := Param.Set_spec self idx param hidx
  have harr : after.IsArray = true := by simp [Param.IsArray, htype]
  have hget : ∀ j, j < after.arrayValue.length → after.Get j = after.arrayValue[j]? := by
    intro j hj
    simp [Param.Get, harr, hj]
  refine ⟨after, hset, harr, ?_, ?_, fun j hj hne => ?_⟩
  · simp [Param.ArrayLen, harr, hlen]
  · rw [hget idx hin, hat]
  · rw [hget j (by rw [hlen]; omega), hrest j hj hne]

/-- For `idx = 4294967295` the sum `idx + 1` wraps to `0`: the vector is not
enlarged, and unless it already holds more than `4294967295` elements the
element assignment `arrayValue[idx] = param` is outside its bounds. -/
theorem Param.Set_of_wrap (self : Param) (param : Param)
    (hsize : self.arrayValue.length ≤ 4294967295) :
    Param.Set self 4294967295 param = none := by
  by_cases h0 : self.arrayValue.length = 0
  · simp [Param.Set, Param.Array.resize, Param.Array.assign, h0]
  · have hnot : ¬ 4294967295 < self.arrayValue.length := by omega
    simp [Param.Set, Param.Array.assign, h0, hnot]

/-- C24, evaluated at `idx = 4294967295`: `idx + 1` is `0` in 32-bit unsigned
arithmetic, so `Set` resizes an empty vector to `0` elements and leaves a
vector of one element alone; in both cases the element assignment at index
`4294967295` is outside the bounds of the vector, where the claim has a vector
with the element at `idx` equal to `param`. -/
theorem Param_Set_writes_out_of_bounds :
    (4294967295 + 1) % 4294967296 = 0 ∧
    Param.Array.resize [] ((4294967295 + 1) % 4294967296) = [] ∧
    (Param.Set Param.null_value 4294967295 Param.null_value).isNone = true ∧
    (Param.Set { Param.null_value with
        type := PARAMETER_TYPE_ARRAY, arrayValue := [Param.null_value] }
      4294967295 Param.null_value).isNone = true ∧
    ((Param.Set Param.null_value 2 Param.null_value).map Param.ArrayLen) = some 3 := by
  refine ⟨by decide, rfl, by decide, by decide, by decide⟩

end HuaweiOSR
